import Mathlib

/-!
Bluenet: the cuckoo filter, the asset filtering engine and the microapp supervisor.

A shallow embedding of `source/src/util/cs_CuckooFilter.cpp`, of the
scan handling of `source/src/localisation/cs_AssetFiltering.cpp`, and of
`source/src/microapp/cs_MicroappController.cpp` and
`source/src/microapp/cs_MicroappRequestHandler.cpp`,
followed by the properties proved about them.

Machine integers are natural numbers; a narrowing cast is an explicit `%`.
-/

set_option autoImplicit false

namespace CuckooFilter

/-! ## Data model -/

/-- Modelled from the spec: the constant of the header util/cs_CuckooFilter.h, which is
not part of the sources ("MAX_KICK_ATTEMPTS (default 100)"). -/
def MAX_KICK_ATTEMPTS : Nat := 100

/-- The cast to cuckoo_fingerprint_t, a 16 bit unsigned integer. -/
def toFingerprint (x : Nat) : Nat := x % 2 ^ 16

/-- Modelled from the spec: cuckoo_index_t is declared in the header util/cs_CuckooFilter.h.
The serialized extended fingerprint takes 6 bytes, a 16 bit fingerprint and two
indices of 16 bits each, so the cast to cuckoo_index_t keeps the low 16 bits. -/
def toIndex (x : Nat) : Nat := x % 2 ^ 16

/-- The struct cuckoo_extended_fingerprint_t: a fingerprint and its two buckets. -/
structure cuckoo_extended_fingerprint_t where
  fingerprint : Nat
  bucketA : Nat
  bucketB : Nat
  deriving DecidableEq, Repr

/-- The struct cuckoo_filter_data_t. The bucket array is flat: nest `ii` of bucket `b`
is entry `b * nestsPerBucket + ii`. -/
structure cuckoo_filter_data_t where
  bucketCountLog2 : Nat
  nestsPerBucket : Nat
  victim : cuckoo_extended_fingerprint_t
  bucketArray : List Nat
  deriving DecidableEq, Repr

/-- The collaborators of the filter that live in other translation units:
`crc16` (util/cs_Crc16.h) over a byte string, and the class RandomGenerator
(util/cs_RandomGenerator.h), given as `rand seed k`, the value of call number `k`
(counted from 0) of `operator()` on a generator constructed with `seed`. -/
structure Ext where
  crc16 : List Nat → Nat
  rand : Nat → Nat → Nat

/-- The value-initialised extended fingerprint `cuckoo_extended_fingerprint_t{}`. -/
def noVictim : cuckoo_extended_fingerprint_t := ⟨0, 0, 0⟩

/-- Modelled from the spec: `bucketCount()` of the header, the power of two `1 << bucketCountLog2`. -/
def bucketCount (d : cuckoo_filter_data_t) : Nat := 2 ^ d.bucketCountLog2

/-- Modelled from the spec: `lookupFingerprint(bucketIndex, fingerIndex)` of the header, read as a
value. A read outside the array yields 0. -/
def lookupFingerprint (d : cuckoo_filter_data_t) (bucketIndex fingerIndex : Nat) : Nat :=
  d.bucketArray.getD (bucketIndex * d.nestsPerBucket + fingerIndex) 0

/-- Assignment through the reference returned by `lookupFingerprint(bucketIndex, fingerIndex)`.
A write outside the array has no effect. -/
def storeFingerprint (d : cuckoo_filter_data_t) (bucketIndex fingerIndex value : Nat) :
    cuckoo_filter_data_t :=
  { d with bucketArray := d.bucketArray.set (bucketIndex * d.nestsPerBucket + fingerIndex) value }

/-- The two bytes of a 16 bit value, little-endian. -/
def le16 (x : Nat) : List Nat := [x % 256, x / 256 % 256]

/-- Modelled from the spec: the serialized filter (section 6), the bytes `&data` of length `size()`:
bucketCountLog2, nestsPerBucket, the victim (6 bytes) and the fingerprints, little-endian. -/
def serialize (d : cuckoo_filter_data_t) : List Nat :=
  [d.bucketCountLog2 % 256, d.nestsPerBucket % 256]
    ++ le16 d.victim.fingerprint ++ le16 d.victim.bucketA ++ le16 d.victim.bucketB
    ++ d.bucketArray.flatMap le16

/-! ## Hashing methods -/

/-- The function `CuckooFilter::hash`: the CRC-16 of the key bytes, cast to a fingerprint. -/
def hash (E : Ext) (key : List Nat) : Nat := toFingerprint (E.crc16 key)

/-- The function `CuckooFilter::getExtendedFingerprint(finger, bucketIndex)`. -/
def getExtendedFingerprint (d : cuckoo_filter_data_t) (finger bucketIndex : Nat) :
    cuckoo_extended_fingerprint_t :=
  { fingerprint := finger
    bucketA := toIndex bucketIndex
    bucketB := toIndex ((bucketIndex ^^^ finger) % bucketCount d) }

/-- The function `CuckooFilter::getExtendedFingerprint(key, keyLengthInBytes)`. -/
def getExtendedFingerprintOfKey (E : Ext) (d : cuckoo_filter_data_t) (key : List Nat) :
    cuckoo_extended_fingerprint_t :=
  let finger := hash E key
  let hashedFinger := hash E (le16 finger)
  { fingerprint := finger
    bucketA := toIndex (hashedFinger % bucketCount d)
    bucketB := toIndex ((hashedFinger ^^^ finger) % bucketCount d) }

/-- The function `CuckooFilter::filterhash`: the hash of the whole serialized filter. -/
def filterhash (E : Ext) (d : cuckoo_filter_data_t) : Nat := hash E (serialize d)

/-! ## Filter methods -/

/-- The function `CuckooFilter::addFingerprintToBucket`: the first empty nest of the bucket takes the
fingerprint. -/
def addFingerprintToBucket (d : cuckoo_filter_data_t) (fingerprint bucketIndex : Nat) :
    Bool × cuckoo_filter_data_t :=
  match (List.range d.nestsPerBucket).find? (fun ii => lookupFingerprint d bucketIndex ii == 0) with
  | some ii => (true, storeFingerprint d bucketIndex ii fingerprint)
  | none => (false, d)

/-- The inner loop of `removeFingerprintFromBucket`: `jj` runs from `nestsPerBucket - 1` down to
`ii + 1`, and every nonzero nest met is copied into nest `ii`. -/
def frontLoad (d : cuckoo_filter_data_t) (bucketIndex ii : Nat) : cuckoo_filter_data_t :=
  ((List.range d.nestsPerBucket).reverse.filter (fun jj => decide (ii < jj))).foldl
    (fun acc jj =>
      if lookupFingerprint acc bucketIndex jj ≠ 0 then
        storeFingerprint acc bucketIndex ii (lookupFingerprint acc bucketIndex jj)
      else acc)
    d

/-- The function `CuckooFilter::removeFingerprintFromBucket`. -/
def removeFingerprintFromBucket (d : cuckoo_filter_data_t) (fingerprint bucketIndex : Nat) :
    Bool × cuckoo_filter_data_t :=
  match (List.range d.nestsPerBucket).find?
      (fun ii => lookupFingerprint d bucketIndex ii == fingerprint) with
  | some ii => (true, frontLoad (storeFingerprint d bucketIndex ii 0) bucketIndex ii)
  | none => (false, d)

/-- The loop of `CuckooFilter::move`. `attemptsLeft` is the loop counter, `calls` the number
of values drawn from the generator so far. -/
def moveLoop (E : Ext) (seed : Nat) :
    Nat → Nat → cuckoo_filter_data_t → cuckoo_extended_fingerprint_t → Bool × cuckoo_filter_data_t
  | 0, _, d, entryToInsert => (false, { d with victim := entryToInsert })
  | attemptsLeft + 1, calls, d, entryToInsert =>
    match addFingerprintToBucket d entryToInsert.fingerprint entryToInsert.bucketA with
    | (true, d1) => (true, d1)
    | (false, d1) =>
      match addFingerprintToBucket d1 entryToInsert.fingerprint entryToInsert.bucketB with
      | (true, d2) => (true, d2)
      | (false, d2) =>
        let kickedItemBucket :=
          if E.rand seed calls % 2 ≠ 0 then entryToInsert.bucketA else entryToInsert.bucketB
        let kickedItemIndex := toIndex (E.rand seed (calls + 1) % d2.nestsPerBucket)
        let kickedItemFingerprintValue := lookupFingerprint d2 kickedItemBucket kickedItemIndex
        let d3 := storeFingerprint d2 kickedItemBucket kickedItemIndex entryToInsert.fingerprint
        moveLoop E seed attemptsLeft (calls + 2) d3
          (getExtendedFingerprint d3 kickedItemFingerprintValue kickedItemBucket)

/-- The function `CuckooFilter::move`: the generator is seeded with `filterhash()`. -/
def move (E : Ext) (d : cuckoo_filter_data_t) (entryToInsert : cuckoo_extended_fingerprint_t) :
    Bool × cuckoo_filter_data_t :=
  moveLoop E (filterhash E d) MAX_KICK_ATTEMPTS 0 d entryToInsert

/-- The function `CuckooFilter::clear`: all fingerprints and the victim become zero. -/
def clear (d : cuckoo_filter_data_t) : cuckoo_filter_data_t :=
  { d with
    bucketArray := List.replicate (bucketCount d * d.nestsPerBucket) 0
    victim := noVictim }

/-- The while loop of `CuckooFilter::init`, with the iteration bound `fuel`. -/
def initLoop : Nat → Nat → Nat → Nat
  | 0, _, bucketCountLog2 => bucketCountLog2
  | fuel + 1, bucketCount, bucketCountLog2 =>
    if bucketCount > 0 then initLoop fuel (bucketCount >>> 1) (bucketCountLog2 + 1)
    else bucketCountLog2

/-- The function `CuckooFilter::init`: stores ceil(log2(bucketCount)) and the nest count, then clears.
The fields bucketCountLog2 and nestsPerBucket are bytes. -/
def init (bucketCount nestsPerBucket : Nat) : cuckoo_filter_data_t :=
  let bucketCount := toIndex bucketCount
  let bucketCountLog2 := if bucketCount > 0 then initLoop bucketCount (bucketCount - 1) 0 else 0
  clear
    { bucketCountLog2 := bucketCountLog2 % 256
      nestsPerBucket := toIndex nestsPerBucket % 256
      victim := noVictim
      bucketArray := [] }

/-- The function `CuckooFilter::contains`: bucketA is searched, then bucketB. -/
def contains (d : cuckoo_filter_data_t) (efp : cuckoo_extended_fingerprint_t) : Bool :=
  if (List.range d.nestsPerBucket).any
      (fun ii => efp.fingerprint == lookupFingerprint d efp.bucketA ii) then true
  else if (List.range d.nestsPerBucket).any
      (fun ii => efp.fingerprint == lookupFingerprint d efp.bucketB ii) then true
  else false

/-- The function `CuckooFilter::add`. -/
def add (E : Ext) (d : cuckoo_filter_data_t) (efp : cuckoo_extended_fingerprint_t) :
    Bool × cuckoo_filter_data_t :=
  if contains d efp then (true, d)
  else if d.victim.fingerprint ≠ 0 then (false, d)
  else move E d efp

/-- The function `CuckooFilter::remove`. -/
def remove (E : Ext) (d : cuckoo_filter_data_t) (efp : cuckoo_extended_fingerprint_t) :
    Bool × cuckoo_filter_data_t :=
  let rA := removeFingerprintFromBucket d efp.fingerprint efp.bucketA
  let r := if rA.1 then rA else removeFingerprintFromBucket rA.2 efp.fingerprint efp.bucketB
  if r.1 then
    if r.2.victim.fingerprint ≠ 0 then
      let a := add E r.2 r.2.victim
      if a.1 then (true, { a.2 with victim := noVictim }) else (true, a.2)
    else (true, r.2)
  else (false, r.2)

/-- A concrete instance of the collaborators, used to evaluate the code on examples:
a byte sum for the CRC and a generator that returns the seed plus the call number. -/
def sampleExt : Ext := { crc16 := fun bs => bs.sum, rand := fun seed k => seed + k }

end CuckooFilter

namespace AssetFiltering

/-! ## Asset filtering: data model -/

/-- The scanned device: the peer address (6 bytes) and the advertisement payload. -/
structure scanned_device_t where
  address : List Nat
  data : List Nat
  deriving DecidableEq, Repr

/-- The short asset id, three bytes. -/
structure asset_id_t where
  data : List Nat
  deriving DecidableEq, Repr

/-- Modelled from the spec: the asset record of the AssetStore, whose sources are not
present: assetId, throttlingCountdown and lastSeen. -/
structure asset_record_t where
  assetId : asset_id_t
  throttlingCountdown : Nat
  lastSeen : Nat
  deriving DecidableEq, Repr

/-- Modelled from the spec: `asset_record_t::isThrottled`, a record is throttled while its
throttlingCountdown is above zero. -/
def asset_record_t.isThrottled (r : asset_record_t) : Bool := decide (r.throttlingCountdown > 0)

/-- The selector of the input type AdDataType. -/
structure ad_data_type_selector_t where
  adDataType : Nat
  deriving DecidableEq, Repr

/-- The selector of the input type MaskedAdDataType. -/
structure masked_ad_data_type_selector_t where
  adDataType : Nat
  adDataMask : Nat
  deriving DecidableEq, Repr

/-- The input description of a filter: its type tag with the selector the accessor returns for
it (`none` is the null pointer of a failed type check); `other` is an unrecognised type byte. -/
inductive AssetFilterInput where
  | MacAddress
  | AdDataType (selector : Option ad_data_type_selector_t)
  | MaskedAdDataType (selector : Option masked_ad_data_type_selector_t)
  | other (typeByte : Nat)
  deriving DecidableEq, Repr

/-- The output format of a filter; `other` is an unrecognised format byte. -/
inductive AssetFilterOutputFormat where
  | Mac
  | AssetId
  | AssetIdNearest
  | other (formatByte : Nat)
  deriving DecidableEq, Repr

/-- The type byte of the filter body. -/
inductive AssetFilterType where
  | CuckooFilter
  | ExactMatchFilter
  | other (typeByte : Nat)
  deriving DecidableEq, Repr

/-- The class FilterInterface: the two virtual methods used by the engine. -/
structure FilterInterface where
  contains : List Nat → Bool
  assetId : List Nat → asset_id_t

/-- The accessor AssetFilter over a filter buffer: the metadata fields read by the engine and
the two views of the filter data. -/
structure AssetFilter where
  filterId : Nat
  filterType : AssetFilterType
  exclude : Bool
  inputType : AssetFilterInput
  outFormat : AssetFilterOutputFormat
  inFormat : AssetFilterInput
  cuckooFilter : FilterInterface
  exactMatchFilter : FilterInterface

/-- The part of the AssetFilterStore the engine reads: `isReady()` and the filters
`getFilter(0) .. getFilter(getFilterCount() - 1)`. -/
structure AssetFilterStore where
  isReady : Bool
  filters : List AssetFilter

/-- The struct filter_output_bitmasks_t. -/
structure filter_output_bitmasks_t where
  _forwardAssetId : Nat
  _forwardMac : Nat
  _nearestAssetId : Nat
  deriving DecidableEq, Repr

/-- The calls the engine makes on its collaborators, in the order they are made. A record
`none` in `addThrottlingBump` is the dereferenced null pointer. -/
inductive Effect where
  | sendAssetMacToMesh (asset : scanned_device_t)
  | sendAssetIdToMesh (asset : scanned_device_t) (assetId : asset_id_t) (filterBitmask : Nat)
  | nearestHandleAcceptedAsset (asset : scanned_device_t) (assetId : asset_id_t)
      (filterBitmask : Nat)
  | addThrottlingBump (assetRecord : Option asset_record_t) (throttlingCounterBumpMs : Nat)
  | EVT_ASSET_ACCEPTED (filterIndex : Nat) (combinedMasks : Nat)
  deriving DecidableEq, Repr

/-- The collaborators of the engine whose sources are not present, acting on a state `σ`:
the build flag, `BLEutil::findAdvType` (the data of the first field of a type, if any),
the AssetStore, the AssetForwarder and the NearestCrownstoneTracker. The forwarders return the
suggested throttling bump. -/
structure Collaborators (σ : Type) where
  BUILD_CLOSEST_CROWNSTONE_TRACKER : Bool
  findAdvType : Nat → List Nat → Option (List Nat)
  handleAcceptedAsset : σ → scanned_device_t → asset_id_t → Option asset_record_t × σ
  addThrottlingBump : σ → Option asset_record_t → Nat → σ
  sendAssetMacToMesh : σ → scanned_device_t → Nat × σ
  sendAssetIdToMesh : σ → scanned_device_t → asset_id_t → Nat → Nat × σ
  nearestHandleAcceptedAsset : σ → scanned_device_t → asset_id_t → Nat → Nat × σ

/-- The state of the collaborators together with the calls made so far. -/
structure World (σ : Type) where
  state : σ
  trace : List Effect

/-- Modelled from the spec: `BLEutil::isBitSet`, bit 0 is the least significant bit. -/
def isBitSet (value bit : Nat) : Bool := Nat.testBit value bit

/-- Modelled from the spec: `BLEutil::setBit` on a bitmask of 32 bits. -/
def setBit (value bit : Nat) : Nat := (value ||| 1 <<< bit) % 2 ^ 32

/-- Modelled from the spec: `filter_output_bitmasks_t::combined`, the three masks joined. -/
def filter_output_bitmasks_t.combined (m : filter_output_bitmasks_t) : Nat :=
  m._forwardAssetId ||| m._forwardMac ||| m._nearestAssetId

/-! ## Extracting data from the filter -/

/-- The function `prepareFilterInputAndCallDelegate`: selects the filter view by the filter type, prepares
the input bytes by the input description and calls the delegate on them. -/
def prepareFilterInputAndCallDelegate {σ α : Type} (X : Collaborators σ) (assetFilter : AssetFilter)
    (device : scanned_device_t) (filterInputDescription : AssetFilterInput)
    (delegateExpression : FilterInterface → List Nat → α) (defaultValue : α) : α :=
  let view : Option FilterInterface :=
    match assetFilter.filterType with
    | .CuckooFilter => some assetFilter.cuckooFilter
    | .ExactMatchFilter => some assetFilter.exactMatchFilter
    | .other _ => none
  match view with
  | none => defaultValue
  | some filter =>
    match filterInputDescription with
    | .MacAddress => delegateExpression filter device.address
    | .AdDataType none => defaultValue
    | .AdDataType (some selector) =>
      match X.findAdvType selector.adDataType device.data with
      | some result => delegateExpression filter result
      | none => defaultValue
    | .MaskedAdDataType none => defaultValue
    | .MaskedAdDataType (some selector) =>
      match X.findAdvType selector.adDataType device.data with
      | some result =>
        if result.length > 31 then defaultValue
        else
          let buff := ((List.range result.length).filter
            (fun bitIndex => isBitSet selector.adDataMask bitIndex)).map
            (fun bitIndex => result.getD bitIndex 0)
          delegateExpression filter buff
      | none => defaultValue
    | .other _ => defaultValue

/-- The function `AssetFiltering::filterAcceptsScannedDevice`. -/
def filterAcceptsScannedDevice {σ : Type} (X : Collaborators σ) (assetFilter : AssetFilter)
    (asset : scanned_device_t) : Bool :=
  prepareFilterInputAndCallDelegate X assetFilter asset assetFilter.inputType
    (fun filter data => filter.contains data) false

/-- The function `AssetFiltering::filterOutputResultAssetId`. -/
def filterOutputResultAssetId {σ : Type} (X : Collaborators σ) (assetFilter : AssetFilter)
    (asset : scanned_device_t) : asset_id_t :=
  prepareFilterInputAndCallDelegate X assetFilter asset assetFilter.inFormat
    (fun filter data => filter.assetId data) ⟨[0, 0, 0]⟩

/-! ## Filter handlers -/

/-- The function `AssetFiltering::handleAssetAcceptedMacOverMesh`. -/
def handleAssetAcceptedMacOverMesh {σ : Type} (X : Collaborators σ) (w : World σ)
    (_filterId : Nat) (filter : AssetFilter) (asset : scanned_device_t) : World σ :=
  let assetId := filterOutputResultAssetId X filter asset
  let r := X.handleAcceptedAsset w.state asset assetId
  let assetRecord := r.1
  let throttle := match assetRecord with
    | some rec => rec.isThrottled
    | none => false
  if !throttle then
    let sent := X.sendAssetMacToMesh r.2 asset
    let throttlingCounterBumpMs := (0 + sent.1) % 2 ^ 16
    { state := X.addThrottlingBump sent.2 assetRecord throttlingCounterBumpMs
      trace := w.trace ++ [Effect.sendAssetMacToMesh asset,
        Effect.addThrottlingBump assetRecord throttlingCounterBumpMs] }
  else { state := r.2, trace := w.trace }

/-- The function `AssetFiltering::handleAssetAcceptedAssetIdOverMesh`. -/
def handleAssetAcceptedAssetIdOverMesh {σ : Type} (X : Collaborators σ) (w : World σ)
    (filterId : Nat) (filter : AssetFilter) (asset : scanned_device_t) : World σ :=
  let assetId := filterOutputResultAssetId X filter asset
  let r := X.handleAcceptedAsset w.state asset assetId
  let assetRecord := r.1
  let throttle := match assetRecord with
    | some rec => rec.isThrottled
    | none => false
  if !throttle then
    let filterBitmask := (0 ||| 1 <<< filterId) % 2 ^ 8
    let sent := X.sendAssetIdToMesh r.2 asset assetId filterBitmask
    let throttlingCounterBumpMs := (0 + sent.1) % 2 ^ 16
    { state := X.addThrottlingBump sent.2 assetRecord throttlingCounterBumpMs
      trace := w.trace ++ [Effect.sendAssetIdToMesh asset assetId filterBitmask,
        Effect.addThrottlingBump assetRecord throttlingCounterBumpMs] }
  else { state := r.2, trace := w.trace }

/-- The function `AssetFiltering::handleAssetAcceptedNearestAssetId`; the body is compiled only with
BUILD_CLOSEST_CROWNSTONE_TRACKER. -/
def handleAssetAcceptedNearestAssetId {σ : Type} (X : Collaborators σ) (w : World σ)
    (filterId : Nat) (filter : AssetFilter) (asset : scanned_device_t) : World σ :=
  if X.BUILD_CLOSEST_CROWNSTONE_TRACKER then
    let assetId := filterOutputResultAssetId X filter asset
    let r := X.handleAcceptedAsset w.state asset assetId
    let assetRecord := r.1
    let throttle := match assetRecord with
      | some rec => rec.isThrottled
      | none => false
    if !throttle then
      let filterBitmask := (0 ||| 1 <<< filterId) % 2 ^ 8
      let sent := X.nearestHandleAcceptedAsset r.2 asset assetId filterBitmask
      let throttlingCounterBumpMs := (0 + sent.1) % 2 ^ 16
      { state := X.addThrottlingBump sent.2 assetRecord throttlingCounterBumpMs
        trace := w.trace ++ [Effect.nearestHandleAcceptedAsset asset assetId filterBitmask,
          Effect.addThrottlingBump assetRecord throttlingCounterBumpMs] }
    else { state := r.2, trace := w.trace }
  else w

/-! ## Scan handling -/

/-- The function `AssetFiltering::handleAcceptFilter`: the returned triple is the return value, the masks
and the world after the call. -/
def handleAcceptFilter {σ : Type} (X : Collaborators σ) (filterIndex : Nat) (filter : AssetFilter)
    (device : scanned_device_t) (masks : filter_output_bitmasks_t) (w : World σ) :
    Bool × filter_output_bitmasks_t × World σ :=
  if filter.exclude then (false, masks, w)
  else if filterAcceptsScannedDevice X filter device then
    match filter.outFormat with
    | .Mac =>
      (true, { masks with _forwardMac := setBit masks._forwardMac filterIndex },
        handleAssetAcceptedMacOverMesh X w filterIndex filter device)
    | .AssetId =>
      (true, { masks with _forwardAssetId := setBit masks._forwardAssetId filterIndex },
        handleAssetAcceptedAssetIdOverMesh X w filterIndex filter device)
    | .AssetIdNearest =>
      if X.BUILD_CLOSEST_CROWNSTONE_TRACKER then
        (true, { masks with _nearestAssetId := setBit masks._nearestAssetId filterIndex },
          handleAssetAcceptedNearestAssetId X w filterIndex filter device)
      else (false, masks, w)
    | .other _ => (false, masks, w)
  else (false, masks, w)

/-- The function `AssetFiltering::isAssetRejected`: some exclude filter accepts the device. -/
def isAssetRejected {σ : Type} (X : Collaborators σ) (store : AssetFilterStore)
    (device : scanned_device_t) : Bool :=
  store.filters.any (fun filter => filter.exclude && filterAcceptsScannedDevice X filter device)

/-- The first loop of `handleScannedDevice`: `handleAcceptFilter` on every filter index. -/
def acceptLoop {σ : Type} (X : Collaborators σ) (store : AssetFilterStore)
    (asset : scanned_device_t) (w : World σ) : filter_output_bitmasks_t × World σ :=
  store.filters.enum.foldl
    (fun acc p => (handleAcceptFilter X p.1 p.2 asset acc.1 acc.2).2)
    (⟨0, 0, 0⟩, w)

/-- The second loop of `handleScannedDevice`: one event per filter index whose bit is set in
the combined masks. -/
def dispatchLoop (filterCount combinedMasks : Nat) : List Effect :=
  ((List.range filterCount).filter (fun filterIndex => isBitSet combinedMasks filterIndex)).map
    (fun filterIndex => Effect.EVT_ASSET_ACCEPTED filterIndex combinedMasks)

/-- The function `AssetFiltering::handleScannedDevice`. -/
def handleScannedDevice {σ : Type} (X : Collaborators σ) (store : AssetFilterStore)
    (w : World σ) (asset : scanned_device_t) : World σ :=
  if !store.isReady then w
  else if isAssetRejected X store asset then w
  else
    let r := acceptLoop X store asset w
    let masks := r.1
    if masks.combined = 0 then r.2
    else
      let combinedMasks := masks.combined % 2 ^ 8
      { r.2 with trace := r.2.trace ++ dispatchLoop store.filters.length combinedMasks }

end AssetFiltering

namespace CuckooFilter

/-! ## Predicates and sample values used in the statements -/

/-- A filter with two buckets of two nests that holds fingerprint 7 in bucket 0. -/
def sampleFilter : cuckoo_filter_data_t :=
  { bucketCountLog2 := 1, nestsPerBucket := 2, victim := noVictim, bucketArray := [7, 0, 0, 0] }

/-- The filter `sampleFilter` with the victim (9, 1, 0). -/
def sampleSaturated : cuckoo_filter_data_t :=
  { sampleFilter with victim := ⟨9, 1, 0⟩ }

/-- Every nest of the bucket holds a nonzero fingerprint. -/
def bucketFull (d : cuckoo_filter_data_t) (bucketIndex : Nat) : Bool :=
  (List.range d.nestsPerBucket).all (fun ii => lookupFingerprint d bucketIndex ii != 0)

/-- A filter with one bucket of one nest, which holds fingerprint 7. -/
def fullFilter : cuckoo_filter_data_t :=
  { bucketCountLog2 := 0, nestsPerBucket := 1, victim := noVictim, bucketArray := [7] }

/-- The bucket a fingerprint is kicked from. -/
def kickedBucket (E : Ext) (seed calls : Nat) (e : cuckoo_extended_fingerprint_t) : Nat :=
  if E.rand seed calls % 2 ≠ 0 then e.bucketA else e.bucketB

/-- The nest a fingerprint is kicked from. -/
def kickedIndex (E : Ext) (seed calls : Nat) (d : cuckoo_filter_data_t) : Nat :=
  toIndex (E.rand seed (calls + 1) % d.nestsPerBucket)

/-- The bucket array has one entry for every nest of every bucket. -/
def WellFormed (d : cuckoo_filter_data_t) : Prop :=
  d.bucketArray.length = bucketCount d * d.nestsPerBucket

instance (d : cuckoo_filter_data_t) : Decidable (WellFormed d) := by
  unfold WellFormed
  infer_instance

/-- Fingerprint `f` sits in some nest of bucket `b`. -/
def stored (d : cuckoo_filter_data_t) (f b : Nat) : Prop :=
  ∃ ii, ii < d.nestsPerBucket ∧ lookupFingerprint d b ii = f

/-- The invariant of the kick loop for an item (f, A, B): either `f` sits in bucket A or B,
or the entry in hand is `f` with both buckets among A and B. -/
def Tracked (d : cuckoo_filter_data_t) (e : cuckoo_extended_fingerprint_t) (f A B : Nat) : Prop :=
  (stored d f A ∨ stored d f B) ∨
    (e.fingerprint = f ∧ (e.bucketA = A ∨ e.bucketA = B) ∧ (e.bucketB = A ∨ e.bucketB = B))

/-- The fields of the extended fingerprint fit their C types, 16 bits each. -/
def Representable (efp : cuckoo_extended_fingerprint_t) : Prop :=
  efp.fingerprint < 2 ^ 16 ∧ efp.bucketA < 2 ^ 16 ∧ efp.bucketB < 2 ^ 16

instance (efp : cuckoo_extended_fingerprint_t) : Decidable (Representable efp) := by
  unfold Representable
  infer_instance

/-- No nonzero fingerprint occurs at two places of the array. -/
def Uniq (l : List Nat) : Prop :=
  ∀ i j, l.getD i 0 ≠ 0 → l.getD i 0 = l.getD j 0 → i = j

/-- The filter after a sequence of `add` calls. -/
def addAll (E : Ext) (d : cuckoo_filter_data_t) (efps : List cuckoo_extended_fingerprint_t) :
    cuckoo_filter_data_t :=
  efps.foldl (fun acc efp => (add E acc efp).2) d

/-- Filter `d'` is `d` with entry `p` of the bucket array replaced, by zero or by a copy of
another entry. -/
def SlotUpdate (d d' : cuckoo_filter_data_t) (p : Nat) : Prop :=
  d'.bucketCountLog2 = d.bucketCountLog2 ∧ d'.nestsPerBucket = d.nestsPerBucket ∧
    d'.victim = d.victim ∧
    ∃ v, d'.bucketArray = d.bucketArray.set p v ∧
      (v = 0 ∨ ∃ q, q ≠ p ∧ v = d.bucketArray.getD q 0)

/-- The fields of the filter fit their C types: two bytes for the header, 16 bits for every
fingerprint and bucket index. -/
def FitsTypes (d : cuckoo_filter_data_t) : Prop :=
  d.bucketCountLog2 < 2 ^ 8 ∧ d.nestsPerBucket < 2 ^ 8 ∧ Representable d.victim ∧
    ∀ x, x ∈ d.bucketArray → x < 2 ^ 16

instance (d : cuckoo_filter_data_t) : Decidable (FitsTypes d) := by
  unfold FitsTypes
  infer_instance

/-- A call on the filter. -/
inductive Call where
  | add (efp : cuckoo_extended_fingerprint_t)
  | remove (efp : cuckoo_extended_fingerprint_t)
  deriving DecidableEq, Repr

/-- The return value and the filter after one call. -/
def step (E : Ext) (d : cuckoo_filter_data_t) : Call → Bool × cuckoo_filter_data_t
  | .add efp => add E d efp
  | .remove efp => remove E d efp

/-- The return value and the serialized filter after every call of a sequence. -/
def history (E : Ext) : cuckoo_filter_data_t → List Call → List (Bool × List Nat)
  | _, [] => []
  | d, c :: rest => ((step E d c).1, serialize (step E d c).2) :: history E (step E d c).2 rest

/-- Modelled from the spec: `add(key, keyLen)` of the header, `add` on the extended fingerprint
of the key. -/
def addKey (E : Ext) (d : cuckoo_filter_data_t) (key : List Nat) : Bool × cuckoo_filter_data_t :=
  add E d (getExtendedFingerprintOfKey E d key)

/-- Modelled from the spec: `remove(key, keyLen)` of the header, `remove` on the extended
fingerprint of the key. -/
def removeKey (E : Ext) (d : cuckoo_filter_data_t) (key : List Nat) :
    Bool × cuckoo_filter_data_t :=
  remove E d (getExtendedFingerprintOfKey E d key)

/-- Modelled from the spec: `contains(key, keyLen)` of the header, `contains` on the extended
fingerprint of the key. -/
def containsKey (E : Ext) (d : cuckoo_filter_data_t) (key : List Nat) : Bool :=
  contains d (getExtendedFingerprintOfKey E d key)

/-- The filter after a sequence of `add(key, keyLen)` calls. -/
def addKeys (E : Ext) (d : cuckoo_filter_data_t) (keys : List (List Nat)) : cuckoo_filter_data_t :=
  keys.foldl (fun acc key => (addKey E acc key).2) d

/-- The first bucket of fingerprint `f` among `N` buckets. -/
def homeA (E : Ext) (N f : Nat) : Nat := hash E (le16 f) % N

/-- The second bucket of fingerprint `f` among `N` buckets. -/
def homeB (E : Ext) (N f : Nat) : Nat := (hash E (le16 f) ^^^ f) % N

/-- Every nonzero fingerprint of the array has 16 bits and sits in one of its two buckets. -/
def Homed (E : Ext) (N n : Nat) (arr : List Nat) : Prop :=
  ∀ p, arr.getD p 0 ≠ 0 →
    arr.getD p 0 < 2 ^ 16 ∧
      (p / n = homeA E N (arr.getD p 0) ∨ p / n = homeB E N (arr.getD p 0))

/-- A nonzero entry in hand has 16 bits, is not in the array and carries its two buckets. -/
def EntryHomed (E : Ext) (N : Nat) (arr : List Nat) (e : cuckoo_extended_fingerprint_t) : Prop :=
  e.fingerprint ≠ 0 →
    e.fingerprint < 2 ^ 16 ∧ e.fingerprint ∉ arr ∧
      (e.bucketA = homeA E N e.fingerprint ∨ e.bucketA = homeB E N e.fingerprint) ∧
      (e.bucketB = homeA E N e.fingerprint ∨ e.bucketB = homeB E N e.fingerprint)

/-- The invariant of a filter filled through `add(key, keyLen)`: no nonzero fingerprint occurs
twice and each one sits in one of its own two buckets. -/
def Settled (E : Ext) (d : cuckoo_filter_data_t) : Prop :=
  Uniq d.bucketArray ∧ Homed E (bucketCount d) d.nestsPerBucket d.bucketArray

end CuckooFilter

namespace AssetFiltering

/-! ## Sample values used in the statements -/

/-- A filter body that contains exactly the address AA:BB:CC:DD:EE:FF. -/
def sampleBody : FilterInterface :=
  { contains := fun data => data == [0xAA, 0xBB, 0xCC, 0xDD, 0xEE, 0xFF]
    assetId := fun data => ⟨data.take 3⟩ }

/-- A filter on the MAC address with the body `sampleBody`. -/
def sampleAssetFilter (filterId : Nat) (exclude : Bool) : AssetFilter :=
  { filterId := filterId
    filterType := AssetFilterType.CuckooFilter
    exclude := exclude
    inputType := AssetFilterInput.MacAddress
    outFormat := AssetFilterOutputFormat.Mac
    inFormat := AssetFilterInput.MacAddress
    cuckooFilter := sampleBody
    exactMatchFilter := sampleBody }

/-- The store of scenario 4: filter 1 excludes the address, filter 2 accepts it. -/
def sampleStore : AssetFilterStore :=
  { isReady := true, filters := [sampleAssetFilter 1 true, sampleAssetFilter 2 false] }

/-- The scanned device with the address AA:BB:CC:DD:EE:FF. -/
def sampleDevice : scanned_device_t :=
  { address := [0xAA, 0xBB, 0xCC, 0xDD, 0xEE, 0xFF], data := [] }

/-- Collaborators over a counter of calls: the asset store knows every asset and reports the
countdown it is given, the forwarders suggest a bump of 100 ms. -/
def sampleCollaborators (throttlingCountdown : Nat) : Collaborators Nat :=
  { BUILD_CLOSEST_CROWNSTONE_TRACKER := true
    findAdvType := fun _ _ => none
    handleAcceptedAsset := fun s _ assetId => (some ⟨assetId, throttlingCountdown, 0⟩, s + 1)
    addThrottlingBump := fun s _ _ => s + 1
    sendAssetMacToMesh := fun s _ => (100, s + 1)
    sendAssetIdToMesh := fun s _ _ _ => (100, s + 1)
    nearestHandleAcceptedAsset := fun s _ _ _ => (100, s + 1) }

end AssetFiltering

namespace Microapp

/-! ## Microapp protocol: constants of shared/cs_MicroappStructs.h -/

def MAC_ADDRESS_LENGTH : Nat := 6
def MAX_BLE_ADV_DATA_LENGTH : Nat := 31
def MAX_MICROAPP_MESH_PAYLOAD_SIZE : Nat := 7
def MICROAPP_SDK_MAX_SERVICE_DATA_LENGTH : Nat := 8
def MICROAPP_SDK_MAX_PAYLOAD : Nat := 48
def MICROAPP_SDK_HEADER_SIZE : Nat := 2
def MICROAPP_SDK_LOG_HEADER_SIZE : Nat := MICROAPP_SDK_HEADER_SIZE + 3
def MICROAPP_SDK_MAX_TWI_PAYLOAD_SIZE : Nat :=
  MICROAPP_SDK_MAX_PAYLOAD - (MICROAPP_SDK_HEADER_SIZE + 4)
def MICROAPP_SDK_MAX_STRING_LENGTH : Nat := MICROAPP_SDK_MAX_PAYLOAD - MICROAPP_SDK_LOG_HEADER_SIZE
def MICROAPP_SDK_MAX_ARRAY_SIZE : Nat := MICROAPP_SDK_MAX_PAYLOAD - MICROAPP_SDK_LOG_HEADER_SIZE
def MICROAPP_SDK_MAX_CONTROL_COMMAND_PAYLOAD_SIZE : Nat :=
  MICROAPP_SDK_MAX_PAYLOAD - (MICROAPP_SDK_HEADER_SIZE + 5)
def MICROAPP_LOOP_FREQUENCY : Nat := 10

/-- The constant MAX_MICROAPPS of protocol/cs_MicroappPackets.h. -/
def MAX_MICROAPPS : Nat := 1

/-! The enum MicroappSdkAck. -/

def CS_MICROAPP_SDK_ACK_SUCCESS : Nat := 0x00
def CS_MICROAPP_SDK_ACK_NO_REQUEST : Nat := 0x01
def CS_MICROAPP_SDK_ACK_REQUEST : Nat := 0x02
def CS_MICROAPP_SDK_ACK_IN_PROGRESS : Nat := 0x03
def CS_MICROAPP_SDK_ACK_ERROR : Nat := 0x04
def CS_MICROAPP_SDK_ACK_ERR_NOT_FOUND : Nat := 0x05
def CS_MICROAPP_SDK_ACK_ERR_UNDEFINED : Nat := 0x06
def CS_MICROAPP_SDK_ACK_ERR_NO_SPACE : Nat := 0x07
def CS_MICROAPP_SDK_ACK_ERR_NOT_IMPLEMENTED : Nat := 0x08
def CS_MICROAPP_SDK_ACK_ERR_BUSY : Nat := 0x09
def CS_MICROAPP_SDK_ACK_ERR_OUT_OF_RANGE : Nat := 0x0A
def CS_MICROAPP_SDK_ACK_ERR_DISABLED : Nat := 0x0B
def CS_MICROAPP_SDK_ACK_ERR_EMPTY : Nat := 0x0C
def CS_MICROAPP_SDK_ACK_ERR_TOO_LARGE : Nat := 0x0D

/-! The enum MicroappSdkMessageType. -/

def CS_MICROAPP_SDK_TYPE_NONE : Nat := 0x00
def CS_MICROAPP_SDK_TYPE_LOG : Nat := 0x01
def CS_MICROAPP_SDK_TYPE_PIN : Nat := 0x02
def CS_MICROAPP_SDK_TYPE_SWITCH : Nat := 0x03
def CS_MICROAPP_SDK_TYPE_SERVICE_DATA : Nat := 0x04
def CS_MICROAPP_SDK_TYPE_TWI : Nat := 0x05
def CS_MICROAPP_SDK_TYPE_BLE : Nat := 0x06
def CS_MICROAPP_SDK_TYPE_MESH : Nat := 0x07
def CS_MICROAPP_SDK_TYPE_POWER_USAGE : Nat := 0x08
def CS_MICROAPP_SDK_TYPE_PRESENCE : Nat := 0x09
def CS_MICROAPP_SDK_TYPE_CONTROL_COMMAND : Nat := 0x0A
def CS_MICROAPP_SDK_TYPE_YIELD : Nat := 0x0B
def CS_MICROAPP_SDK_TYPE_CONTINUE : Nat := 0x0C

/-! The enums of the log, pin, twi, ble and mesh requests. -/

def CS_MICROAPP_SDK_LOG_CHAR : Nat := 0x01
def CS_MICROAPP_SDK_LOG_INT : Nat := 0x02
def CS_MICROAPP_SDK_LOG_STR : Nat := 0x03
def CS_MICROAPP_SDK_LOG_ARR : Nat := 0x04
def CS_MICROAPP_SDK_LOG_FLOAT : Nat := 0x05
def CS_MICROAPP_SDK_LOG_DOUBLE : Nat := 0x06
def CS_MICROAPP_SDK_LOG_UINT : Nat := 0x07
def CS_MICROAPP_SDK_LOG_SHORT : Nat := 0x08
def CS_MICROAPP_SDK_LOG_FLAG_NEWLINE : Nat := 1
def CS_MICROAPP_SDK_PIN_INIT : Nat := 0x01
def CS_MICROAPP_SDK_PIN_ACTION : Nat := 0x02
def CS_MICROAPP_SDK_PIN_INPUT : Nat := 0x01
def CS_MICROAPP_SDK_PIN_INPUT_PULLUP : Nat := 0x02
def CS_MICROAPP_SDK_PIN_OUTPUT : Nat := 0x03
def CS_MICROAPP_SDK_PIN_NO_POLARITY : Nat := 0x01
def CS_MICROAPP_SDK_PIN_CHANGE : Nat := 0x02
def CS_MICROAPP_SDK_PIN_RISING : Nat := 0x03
def CS_MICROAPP_SDK_PIN_FALLING : Nat := 0x04
def CS_MICROAPP_SDK_PIN_READ : Nat := 0x01
def CS_MICROAPP_SDK_PIN_WRITE : Nat := 0x02
def CS_MICROAPP_SDK_PIN_OFF : Nat := 0x00
def CS_MICROAPP_SDK_PIN_ON : Nat := 0x01
def CS_MICROAPP_SDK_TWI_READ : Nat := 0x01
def CS_MICROAPP_SDK_TWI_WRITE : Nat := 0x02
def CS_MICROAPP_SDK_TWI_INIT : Nat := 0x03
def CS_MICROAPP_SDK_TWI_FLAG_STOP : Nat := 1
def CS_MICROAPP_SDK_BLE_SCAN_START : Nat := 0x01
def CS_MICROAPP_SDK_BLE_SCAN_STOP : Nat := 0x02
def CS_MICROAPP_SDK_BLE_SCAN_REGISTER_INTERRUPT : Nat := 0x03
def CS_MICROAPP_SDK_BLE_SCAN_SCANNED_DEVICE : Nat := 0x04
def CS_MICROAPP_SDK_BLE_CONNECTION_REQUEST_CONNECT : Nat := 0x05
def CS_MICROAPP_SDK_BLE_CONNECTION_REQUEST_DISCONNECT : Nat := 0x07
def CS_MICROAPP_SDK_MESH_SEND : Nat := 0x01
def CS_MICROAPP_SDK_MESH_LISTEN : Nat := 0x02
def CS_MICROAPP_SDK_MESH_READ_CONFIG : Nat := 0x03
def CS_MICROAPP_SDK_MESH_READ : Nat := 0x04

/-! ## Microapp: data model -/

/-- The return codes of protocol/cs_ErrorCodes.h that the microapp code names; `other` is any
further code. The header with the numeric values is not part of the sources. -/
inductive cs_ret_code_t where
  | ERR_SUCCESS
  | ERR_WAIT_FOR_SUCCESS
  | ERR_SUCCESS_NO_CHANGE
  | ERR_WRONG_PAYLOAD_LENGTH
  | ERR_UNKNOWN_TYPE
  | ERR_NOT_FOUND
  | ERR_NO_SPACE
  | ERR_ALREADY_EXISTS
  | ERR_WRONG_OPERATION
  | ERR_UNSAFE
  | ERR_NOT_AVAILABLE
  | ERR_NOT_IMPLEMENTED
  | ERR_UNSPECIFIED
  | other (code : Nat)
  deriving DecidableEq, Repr

/-- The enum MicroappOperatingState. -/
inductive MicroappOperatingState where
  | CS_MICROAPP_NOT_RUNNING
  | CS_MICROAPP_RUNNING
  deriving DecidableEq, Repr

/-- One entry of `_softInterruptRegistrations`. -/
structure soft_interrupt_registration_t where
  registered : Bool
  type : Nat
  id : Nat
  deriving DecidableEq, Repr

/-- The value-initialised registration `{}`. -/
def noRegistration : soft_interrupt_registration_t := ⟨false, 0, 0⟩

/-- The reboot data of bluenet in the IPC page: the version of the layout and the running
flag of every microapp. -/
structure bluenet_ipc_bluenet_data_t where
  ipcDataMajor : Nat
  ipcDataMinor : Nat
  microapp : List Nat
  deriving DecidableEq, Repr

/-- The direction of a pin in the event EVT_GPIO_INIT. -/
inductive GpioDirection where
  | INPUT
  | OUTPUT
  | SENSE
  deriving DecidableEq, Repr

/-- The polarity of a pin in the event EVT_GPIO_INIT. -/
inductive GpioPolarity where
  | NONE
  | HITOLO
  | LOTOHI
  | TOGGLE
  deriving DecidableEq, Repr

/-- The events the request handler dispatches on the event bus, with the data they carry.
A polarity `none` is the field left unset for an output pin; the target ids of a broadcast are
left unset as well and given as the empty list. -/
inductive HostEvent where
  | EVT_GPIO_INIT (pin_index pull : Nat) (direction : GpioDirection)
      (polarity : Option GpioPolarity)
  | EVT_GPIO_WRITE (pin_index : Nat) (buf : List Nat)
  | CMD_SWITCH (switchCmd : Nat)
  | CMD_MICROAPP_ADVERTISE (version type appUuid : Nat) (data : List Nat)
  | EVT_TWI_INIT
  | EVT_TWI_WRITE (address length : Nat) (stop : Bool) (buf : List Nat)
  | EVT_TWI_READ (address length : Nat) (stop : Bool)
  | CMD_BLE_CENTRAL_CONNECT (address : List Nat)
  | CMD_SEND_MESH_MSG (targetIds : List Nat) (broadcast acked : Bool) (size : Nat)
      (payload : List Nat)
  | CMD_GET_PRESENCE
  | CMD_CONTROL_CMD (protocolVersion type size : Nat) (data : List Nat)
  deriving DecidableEq, Repr

/-- What the listeners leave behind after a dispatch: the return code and data size of the
event result, and for the events that hand data back (a twi read, the presence) the length
and the data. -/
structure DispatchResult where
  returnCode : cs_ret_code_t
  dataSize : Nat
  length : Nat
  data : List Nat
  deriving DecidableEq, Repr

/-- What the firmware does that is seen outside of the controller, in the order it is done:
dispatched events, log calls, and the calls into the coroutine library. A resume records the
IPC page and the outgoing buffer the guest finds. -/
inductive Effect where
  | dispatch (event : HostEvent)
  | log (newLine : Bool) (bytes : List Nat)
  | logArray (newLine : Bool) (bytes : List Nat)
  | initMemory (appIndex : Nat)
  | initCoroutine (entry : Nat)
  | resumeCoroutine (ipcRam : Option bluenet_ipc_bluenet_data_t) (output : List Nat)
  deriving DecidableEq, Repr

/-- The constants and build flags of headers that are not part of the sources, and the
numeric value of a return code. -/
structure Constants where
  MICROAPP_MAX_NUMBER_CONSECUTIVE_CALLS : Nat
  MICROAPP_MAX_SOFT_INTERRUPTS_WITHIN_A_TICK : Nat
  MICROAPP_MAX_SOFT_INTERRUPT_REGISTRATIONS : Nat
  g_MICROAPP_COUNT : Nat
  microappFlashSection_start : Nat
  microappFlashSection_size : Nat
  pinCount : Nat
  MAX_NUMBER_OF_PRESENCE_PROFILES : Nat
  sizeofPresence : Nat
  BUILD_MESHING : Bool
  BLUENET_IPC_BLUENET_REBOOT_DATA_MAJOR : Nat
  BLUENET_IPC_BLUENET_REBOOT_DATA_MINOR : Nat
  retCodeValue : cs_ret_code_t → Nat

/-- What one resume of the coroutine leaves behind: whether the guest yielded, its new state
and the two buffers it shares with the firmware. -/
structure ResumeResult (γ : Type) where
  yielded : Bool
  guest : γ
  input : List Nat
  output : List Nat

/-- The collaborators of the controller: the guest behind `resumeCoroutine`, the listeners on
the event bus, the State storage and the MicroappStorage. -/
structure Env (γ σ : Type) where
  resume : γ → List Nat → List Nat → ResumeResult γ
  dispatch : σ → HostEvent → DispatchResult × σ
  getCrownstoneId : σ → Nat
  getPowerUsage : σ → Nat
  getStartInstructionAddress : Nat → Nat

/-- The fields of the MicroappController. -/
structure MicroappController where
  _tickCounter : Nat
  _softInterruptCounter : Nat
  _consecutiveMicroappCallCounter : Nat
  _emptySoftInterruptSlots : Nat
  _softInterruptRegistrations : List soft_interrupt_registration_t
  isScanning : Bool
  deriving DecidableEq, Repr

/-- The firmware with a microapp: the controller, the buffers `microapp2bluenet` (input) and
`bluenet2microapp` (output), the reboot data page of the IPC ram (`none` when it cannot be
read), the guest, the host behind the event bus, and the effects so far. -/
structure System (γ σ : Type) where
  controller : MicroappController
  input : List Nat
  output : List Nat
  ipcRam : Option bluenet_ipc_bluenet_data_t
  guest : γ
  host : σ
  trace : List Effect

end Microapp

namespace Microapp

/-! ## Microapp: the shared buffers -/

/-- The byte at an offset of a buffer; outside of the buffer it reads 0. -/
def getByte (buf : List Nat) (offset : Nat) : Nat := buf.getD offset 0

/-- Assignment to the byte at an offset of a buffer. -/
def setByte (buf : List Nat) (offset value : Nat) : List Nat := buf.set offset (value % 256)

/-- The little-endian value of `n` bytes at an offset. -/
def getLE (buf : List Nat) (offset n : Nat) : Nat :=
  (List.range n).foldr (fun i acc => getByte buf (offset + i) + 256 * acc) 0

/-- Assignment to the little-endian value of `n` bytes at an offset. -/
def setLE (buf : List Nat) (offset n value : Nat) : List Nat :=
  (List.range n).foldl (fun b i => setByte b (offset + i) (value / 256 ^ i)) buf

/-- The field `messageType` of microapp_sdk_header_t. -/
def messageType (buf : List Nat) : Nat := getByte buf 0

/-- The field `ack` of microapp_sdk_header_t, as the byte it is stored in. -/
def ack (buf : List Nat) : Nat := getByte buf 1

/-- Assignment to the field `ack` of microapp_sdk_header_t. -/
def setAck (buf : List Nat) (value : Nat) : List Nat := setByte buf 1 value

/-! ## MicroappController: interrupt registrations and slots -/

/-- The function `MicroappController::isSoftInterruptRegistered`. -/
def isSoftInterruptRegistered (K : Constants) (c : MicroappController) (type id : Nat) : Bool :=
  (List.range K.MICROAPP_MAX_SOFT_INTERRUPT_REGISTRATIONS).any (fun i =>
    (c._softInterruptRegistrations.getD i noRegistration).registered
      && ((c._softInterruptRegistrations.getD i noRegistration).type == type
        && (c._softInterruptRegistrations.getD i noRegistration).id == id))

/-- The function `MicroappController::registerSoftInterrupt`. -/
def registerSoftInterrupt (K : Constants) (c : MicroappController) (type id : Nat) :
    cs_ret_code_t × MicroappController :=
  if isSoftInterruptRegistered K c type id then (cs_ret_code_t.ERR_ALREADY_EXISTS, c)
  else
    match (List.range K.MICROAPP_MAX_SOFT_INTERRUPT_REGISTRATIONS).find? (fun i =>
        !(c._softInterruptRegistrations.getD i noRegistration).registered) with
    | none => (cs_ret_code_t.ERR_NO_SPACE, c)
    | some emptySlotIndex =>
      (cs_ret_code_t.ERR_SUCCESS,
        { c with _softInterruptRegistrations :=
            c._softInterruptRegistrations.set emptySlotIndex ⟨true, type, id⟩ })

/-- The function `MicroappController::allowSoftInterrupts`. -/
def allowSoftInterrupts (K : Constants) (c : MicroappController) : Bool :=
  if c._emptySoftInterruptSlots = 0 then false
  else if c._softInterruptCounter ≥ K.MICROAPP_MAX_SOFT_INTERRUPTS_WITHIN_A_TICK then false
  else true

/-- The function `MicroappController::setEmptySoftInterruptSlots`; the argument is a byte. -/
def setEmptySoftInterruptSlots (c : MicroappController) (emptySlots : Nat) : MicroappController :=
  { c with _emptySoftInterruptSlots := emptySlots % 256 }

/-- The function `MicroappController::incrementEmptySoftInterruptSlots`. -/
def incrementEmptySoftInterruptSlots (c : MicroappController) : MicroappController :=
  if c._emptySoftInterruptSlots = 0xFF then c
  else { c with _emptySoftInterruptSlots := c._emptySoftInterruptSlots + 1 }

/-- The function `MicroappController::clear`. -/
def clear (K : Constants) (c : MicroappController) : MicroappController :=
  { c with
    _softInterruptRegistrations :=
      List.replicate K.MICROAPP_MAX_SOFT_INTERRUPT_REGISTRATIONS noRegistration
    _emptySoftInterruptSlots := 1
    isScanning := false }

/-- The function `MicroappController::setScanning` of the header. -/
def setScanning (c : MicroappController) (scanning : Bool) : MicroappController :=
  { c with isScanning := scanning }

/-! ## MicroappController: flash boundaries and start -/

/-- The function `MicroappController::checkFlashBoundaries`; sizes and addresses have 32
bits. -/
def checkFlashBoundaries (K : Constants) (appIndex address : Nat) : cs_ret_code_t :=
  if appIndex ≥ K.g_MICROAPP_COUNT then cs_ret_code_t.ERR_UNSAFE
  else
    let microappSize := (K.microappFlashSection_size / K.g_MICROAPP_COUNT) % 2 ^ 32
    let memoryMicroappOffset := (microappSize * appIndex) % 2 ^ 32
    let addressLow := (K.microappFlashSection_start + memoryMicroappOffset) % 2 ^ 32
    let addressHigh := (addressLow + microappSize) % 2 ^ 32
    if address < addressLow then cs_ret_code_t.ERR_UNSAFE
    else if address > addressHigh then cs_ret_code_t.ERR_UNSAFE
    else cs_ret_code_t.ERR_SUCCESS

/-- The function `MicroappController::startMicroapp`: the memory is cleared, and the coroutine
is initialised with the start address unless the address fails the boundary check. -/
def startMicroapp {γ σ : Type} (K : Constants) (X : Env γ σ) (s : System γ σ) (appIndex : Nat) :
    System γ σ :=
  let s1 := { s with trace := s.trace ++ [Effect.initMemory appIndex] }
  let address := X.getStartInstructionAddress appIndex
  if checkFlashBoundaries K appIndex address ≠ cs_ret_code_t.ERR_SUCCESS then s1
  else { s1 with trace := s1.trace ++ [Effect.initCoroutine address] }

/-! ## MicroappController: the operating state in the IPC ram -/

/-- The function `MicroappController::setOperatingState`. Modelled from the spec: `setRamData`
of ipc/cs_IpcRamData.h stores the data in the page, where `getRamData` finds it. -/
def setOperatingState {γ σ : Type} (K : Constants) (s : System γ σ) (appIndex : Nat)
    (state : MicroappOperatingState) : System γ σ :=
  if appIndex > 0 then s
  else
    let runFlag := if state = MicroappOperatingState.CS_MICROAPP_RUNNING then 1 else 0
    let ipcData : bluenet_ipc_bluenet_data_t :=
      { ipcDataMajor := K.BLUENET_IPC_BLUENET_REBOOT_DATA_MAJOR
        ipcDataMinor := K.BLUENET_IPC_BLUENET_REBOOT_DATA_MINOR
        microapp := (List.replicate MAX_MICROAPPS 0).set appIndex runFlag }
    { s with ipcRam := some ipcData }

/-- The function `MicroappController::getOperatingState`. -/
def getOperatingState {γ σ : Type} (K : Constants) (s : System γ σ) (appIndex : Nat) :
    MicroappOperatingState :=
  if appIndex > 0 then MicroappOperatingState.CS_MICROAPP_NOT_RUNNING
  else
    match s.ipcRam with
    | none => MicroappOperatingState.CS_MICROAPP_NOT_RUNNING
    | some ipcData =>
      if ipcData.ipcDataMajor ≠ K.BLUENET_IPC_BLUENET_REBOOT_DATA_MAJOR then
        MicroappOperatingState.CS_MICROAPP_NOT_RUNNING
      else if ipcData.ipcDataMinor < K.BLUENET_IPC_BLUENET_REBOOT_DATA_MINOR then
        MicroappOperatingState.CS_MICROAPP_NOT_RUNNING
      else if ipcData.microapp.getD appIndex 0 = 1 then
        MicroappOperatingState.CS_MICROAPP_RUNNING
      else MicroappOperatingState.CS_MICROAPP_NOT_RUNNING

/-- Modelled from the spec: `resumeCoroutine` of the coroutine library, the guest runs until
it yields or ends and may write both buffers. -/
def resumeCoroutine {γ σ : Type} (X : Env γ σ) (s : System γ σ) : Bool × System γ σ :=
  ((X.resume s.guest s.input s.output).yielded,
    { s with
      guest := (X.resume s.guest s.input s.output).guest
      input := (X.resume s.guest s.input s.output).input
      output := (X.resume s.guest s.input s.output).output
      trace := s.trace ++ [Effect.resumeCoroutine s.ipcRam s.output] })

/-- The function `MicroappController::callMicroapp`. -/
def callMicroapp {γ σ : Type} (K : Constants) (X : Env γ σ) (s : System γ σ) : System γ σ :=
  let r := resumeCoroutine X (setOperatingState K s 0 MicroappOperatingState.CS_MICROAPP_RUNNING)
  if r.1 then setOperatingState K r.2 0 MicroappOperatingState.CS_MICROAPP_NOT_RUNNING
  else r.2

/-- The function `MicroappController::handleAck`, on the header of the outgoing buffer. -/
def handleAck {γ σ : Type} (s : System γ σ) : Bool × System γ σ :=
  if ack s.output = CS_MICROAPP_SDK_ACK_NO_REQUEST then (true, s)
  else if ack s.output = CS_MICROAPP_SDK_ACK_IN_PROGRESS then (true, s)
  else
    let c := if ack s.output = CS_MICROAPP_SDK_ACK_ERR_BUSY then
        setEmptySoftInterruptSlots s.controller 0
      else incrementEmptySoftInterruptSlots s.controller
    (false, { s with controller := { c with _consecutiveMicroappCallCounter := 0 } })

/-- The function `MicroappController::stopAfterMicroappRequest`, on the message type of the
incoming header. -/
def stopAfterMicroappRequest (incomingMessageType : Nat) : Bool :=
  if incomingMessageType = CS_MICROAPP_SDK_TYPE_LOG
      ∨ incomingMessageType = CS_MICROAPP_SDK_TYPE_PIN
      ∨ incomingMessageType = CS_MICROAPP_SDK_TYPE_SWITCH
      ∨ incomingMessageType = CS_MICROAPP_SDK_TYPE_SERVICE_DATA
      ∨ incomingMessageType = CS_MICROAPP_SDK_TYPE_TWI
      ∨ incomingMessageType = CS_MICROAPP_SDK_TYPE_BLE
      ∨ incomingMessageType = CS_MICROAPP_SDK_TYPE_MESH
      ∨ incomingMessageType = CS_MICROAPP_SDK_TYPE_POWER_USAGE
      ∨ incomingMessageType = CS_MICROAPP_SDK_TYPE_PRESENCE
      ∨ incomingMessageType = CS_MICROAPP_SDK_TYPE_CONTROL_COMMAND then false
  else if incomingMessageType = CS_MICROAPP_SDK_TYPE_NONE
      ∨ incomingMessageType = CS_MICROAPP_SDK_TYPE_YIELD
      ∨ incomingMessageType = CS_MICROAPP_SDK_TYPE_CONTINUE then true
  else true

end Microapp

namespace Microapp

/-! ## MicroappRequestHandler -/

/-- The end of a handler: the ack is written into the incoming header and the code returned. -/
def finish {γ σ : Type} (s : System γ σ) (ackValue : Nat) (result : cs_ret_code_t) :
    cs_ret_code_t × System γ σ :=
  (result, { s with input := setAck s.input ackValue })

/-- The call `event.dispatch()`: the event is recorded and the listeners act on the host. -/
def dispatchEvent {γ σ : Type} (X : Env γ σ) (s : System γ σ) (event : HostEvent) :
    DispatchResult × System γ σ :=
  ((X.dispatch s.host event).1,
    { s with host := (X.dispatch s.host event).2, trace := s.trace ++ [Effect.dispatch event] })

/-- The bytes a listener writes through a pointer into a buffer. -/
def writeBytes (buf : List Nat) (offset : Nat) (data : List Nat) : List Nat :=
  data.enum.foldl (fun b p => setByte b (offset + p.1) p.2) buf

/-- A log call on a value of `n` bytes that follows the log header. -/
def logValue {γ σ : Type} (s : System γ σ) (newLine : Bool) (n : Nat) :
    cs_ret_code_t × System γ σ :=
  finish { s with trace := s.trace ++ [Effect.log newLine ((s.input.drop 5).take n)] }
    CS_MICROAPP_SDK_ACK_SUCCESS cs_ret_code_t.ERR_SUCCESS

/-- The function `MicroappRequestHandler::handleRequestLog`. The formatting of the values is
left out: a log call is recorded with the bytes it prints from. -/
def handleRequestLog {γ σ : Type} (s : System γ σ) : cs_ret_code_t × System γ σ :=
  let newLine := decide (getByte s.input 3 &&& CS_MICROAPP_SDK_LOG_FLAG_NEWLINE ≠ 0)
  let size := getByte s.input 4
  let type := getByte s.input 2
  if size = 0 then
    finish { s with trace := s.trace ++ [Effect.log newLine []] }
      CS_MICROAPP_SDK_ACK_SUCCESS cs_ret_code_t.ERR_SUCCESS
  else if type = CS_MICROAPP_SDK_LOG_CHAR then logValue s newLine 1
  else if type = CS_MICROAPP_SDK_LOG_SHORT then logValue s newLine 2
  else if type = CS_MICROAPP_SDK_LOG_UINT then logValue s newLine 4
  else if type = CS_MICROAPP_SDK_LOG_INT then logValue s newLine 4
  else if type = CS_MICROAPP_SDK_LOG_FLOAT then logValue s newLine 4
  else if type = CS_MICROAPP_SDK_LOG_DOUBLE then logValue s newLine 8
  else if type = CS_MICROAPP_SDK_LOG_STR then
    let zeroByteIndex :=
      if size < MICROAPP_SDK_MAX_STRING_LENGTH - 1 then size
      else MICROAPP_SDK_MAX_STRING_LENGTH - 1
    let input := setByte s.input (MICROAPP_SDK_LOG_HEADER_SIZE + zeroByteIndex) 0
    finish
      { s with
        input := input
        trace := s.trace ++ [Effect.log newLine
          ((input.drop MICROAPP_SDK_LOG_HEADER_SIZE).takeWhile (fun b => b != 0))] }
      CS_MICROAPP_SDK_ACK_SUCCESS cs_ret_code_t.ERR_SUCCESS
  else if type = CS_MICROAPP_SDK_LOG_ARR then
    let input :=
      if size ≥ MICROAPP_SDK_MAX_ARRAY_SIZE then setByte s.input 4 MICROAPP_SDK_MAX_ARRAY_SIZE
      else s.input
    finish
      { s with
        input := input
        trace := s.trace ++ [Effect.logArray newLine
          ((input.drop MICROAPP_SDK_LOG_HEADER_SIZE).take (getByte input 4))] }
      CS_MICROAPP_SDK_ACK_SUCCESS cs_ret_code_t.ERR_SUCCESS
  else finish s CS_MICROAPP_SDK_ACK_ERR_UNDEFINED cs_ret_code_t.ERR_UNKNOWN_TYPE

/-- The direction and polarity of the event EVT_GPIO_INIT for the direction and polarity
bytes of a pin request; `none` for an unknown direction or polarity. -/
def gpioInit (direction polarity : Nat) : Option (GpioDirection × Option GpioPolarity) :=
  if direction = CS_MICROAPP_SDK_PIN_INPUT ∨ direction = CS_MICROAPP_SDK_PIN_INPUT_PULLUP then
    if polarity = CS_MICROAPP_SDK_PIN_NO_POLARITY then
      some (GpioDirection.INPUT, some GpioPolarity.NONE)
    else if polarity = CS_MICROAPP_SDK_PIN_RISING then
      some (GpioDirection.SENSE, some GpioPolarity.LOTOHI)
    else if polarity = CS_MICROAPP_SDK_PIN_FALLING then
      some (GpioDirection.SENSE, some GpioPolarity.HITOLO)
    else if polarity = CS_MICROAPP_SDK_PIN_CHANGE then
      some (GpioDirection.SENSE, some GpioPolarity.TOGGLE)
    else none
  else if direction = CS_MICROAPP_SDK_PIN_OUTPUT then some (GpioDirection.OUTPUT, none)
  else none

/-- The function `MicroappRequestHandler::handleRequestPin`. -/
def handleRequestPin {γ σ : Type} (K : Constants) (X : Env γ σ) (s : System γ σ) :
    cs_ret_code_t × System γ σ :=
  let pinIndex := getByte s.input 2
  let type := getByte s.input 3
  if pinIndex > K.pinCount then
    finish s CS_MICROAPP_SDK_ACK_ERR_OUT_OF_RANGE cs_ret_code_t.ERR_NOT_FOUND
  else if type = CS_MICROAPP_SDK_PIN_INIT then
    let direction := getByte s.input 4
    let polarity := getByte s.input 5
    let pull := if direction = CS_MICROAPP_SDK_PIN_INPUT_PULLUP then 1 else 0
    match gpioInit direction polarity with
    | none => finish s CS_MICROAPP_SDK_ACK_ERR_UNDEFINED cs_ret_code_t.ERR_UNKNOWN_TYPE
    | some gpio =>
      let d := dispatchEvent X s (HostEvent.EVT_GPIO_INIT pinIndex pull gpio.1 gpio.2)
      if gpio.1 = GpioDirection.SENSE then
        let r := registerSoftInterrupt K d.2.controller CS_MICROAPP_SDK_TYPE_PIN pinIndex
        if r.1 ≠ cs_ret_code_t.ERR_SUCCESS then
          finish { d.2 with controller := r.2 } CS_MICROAPP_SDK_ACK_ERROR
            cs_ret_code_t.ERR_UNSPECIFIED
        else
          finish { d.2 with controller := r.2 } CS_MICROAPP_SDK_ACK_SUCCESS
            cs_ret_code_t.ERR_SUCCESS
      else finish d.2 CS_MICROAPP_SDK_ACK_SUCCESS cs_ret_code_t.ERR_SUCCESS
  else if type = CS_MICROAPP_SDK_PIN_ACTION then
    let action := getByte s.input 6
    let value := getByte s.input 7
    if action = CS_MICROAPP_SDK_PIN_READ then
      finish s CS_MICROAPP_SDK_ACK_ERR_NOT_IMPLEMENTED cs_ret_code_t.ERR_NOT_IMPLEMENTED
    else if action = CS_MICROAPP_SDK_PIN_WRITE then
      if value = CS_MICROAPP_SDK_PIN_ON then
        finish (dispatchEvent X s (HostEvent.EVT_GPIO_WRITE pinIndex [1])).2
          CS_MICROAPP_SDK_ACK_SUCCESS cs_ret_code_t.ERR_SUCCESS
      else if value = CS_MICROAPP_SDK_PIN_OFF then
        finish (dispatchEvent X s (HostEvent.EVT_GPIO_WRITE pinIndex [0])).2
          CS_MICROAPP_SDK_ACK_SUCCESS cs_ret_code_t.ERR_SUCCESS
      else finish s CS_MICROAPP_SDK_ACK_ERR_UNDEFINED cs_ret_code_t.ERR_UNKNOWN_TYPE
    else finish s CS_MICROAPP_SDK_ACK_ERR_UNDEFINED cs_ret_code_t.ERR_UNKNOWN_TYPE
  else finish s CS_MICROAPP_SDK_ACK_ERR_UNDEFINED cs_ret_code_t.ERR_UNKNOWN_TYPE

/-- The function `MicroappRequestHandler::handleRequestSwitch`. -/
def handleRequestSwitch {γ σ : Type} (X : Env γ σ) (s : System γ σ) :
    cs_ret_code_t × System γ σ :=
  finish (dispatchEvent X s (HostEvent.CMD_SWITCH (getByte s.input 2))).2
    CS_MICROAPP_SDK_ACK_SUCCESS cs_ret_code_t.ERR_SUCCESS

/-- The function `MicroappRequestHandler::handleRequestServiceData`. -/
def handleRequestServiceData {γ σ : Type} (X : Env γ σ) (s : System γ σ) :
    cs_ret_code_t × System γ σ :=
  let size := getByte s.input 4
  if size > MICROAPP_SDK_MAX_SERVICE_DATA_LENGTH then
    finish s CS_MICROAPP_SDK_ACK_ERR_TOO_LARGE cs_ret_code_t.ERR_WRONG_PAYLOAD_LENGTH
  else
    finish
      (dispatchEvent X s
        (HostEvent.CMD_MICROAPP_ADVERTISE 0 0 (getLE s.input 2 2) ((s.input.drop 5).take size))).2
      CS_MICROAPP_SDK_ACK_SUCCESS cs_ret_code_t.ERR_SUCCESS

/-- The function `MicroappRequestHandler::handleRequestTwi`. After a read the listener has
put the bytes it read into `twi->buf` and their number into the event. -/
def handleRequestTwi {γ σ : Type} (K : Constants) (X : Env γ σ) (s : System γ σ) :
    cs_ret_code_t × System γ σ :=
  let type := getByte s.input 2
  let address := getByte s.input 3
  let stop := decide (getByte s.input 4 &&& CS_MICROAPP_SDK_TWI_FLAG_STOP ≠ 0)
  let size := getByte s.input 5
  if type = CS_MICROAPP_SDK_TWI_INIT then
    finish (dispatchEvent X s HostEvent.EVT_TWI_INIT).2
      CS_MICROAPP_SDK_ACK_SUCCESS cs_ret_code_t.ERR_SUCCESS
  else if type = CS_MICROAPP_SDK_TWI_WRITE then
    finish (dispatchEvent X s (HostEvent.EVT_TWI_WRITE address size stop (s.input.drop 6))).2
      CS_MICROAPP_SDK_ACK_SUCCESS cs_ret_code_t.ERR_SUCCESS
  else if type = CS_MICROAPP_SDK_TWI_READ then
    let d := dispatchEvent X s (HostEvent.EVT_TWI_READ address size stop)
    let input1 := writeBytes d.2.input 6 d.1.data
    let input2 := setAck input1 (K.retCodeValue d.1.returnCode)
    let input3 := setByte input2 5 d.1.length
    finish { d.2 with input := input3 } CS_MICROAPP_SDK_ACK_SUCCESS cs_ret_code_t.ERR_SUCCESS
  else finish s CS_MICROAPP_SDK_ACK_ERR_UNDEFINED cs_ret_code_t.ERR_UNKNOWN_TYPE

/-- The function `MicroappRequestHandler::handleRequestBle`. -/
def handleRequestBle {γ σ : Type} (K : Constants) (X : Env γ σ) (s : System γ σ) :
    cs_ret_code_t × System γ σ :=
  let type := getByte s.input 2
  if K.BUILD_MESHING = false ∧ (type = CS_MICROAPP_SDK_BLE_SCAN_START
      ∨ type = CS_MICROAPP_SDK_BLE_SCAN_STOP
      ∨ type = CS_MICROAPP_SDK_BLE_SCAN_REGISTER_INTERRUPT) then
    finish s CS_MICROAPP_SDK_ACK_ERR_DISABLED cs_ret_code_t.ERR_NOT_AVAILABLE
  else if type = CS_MICROAPP_SDK_BLE_SCAN_REGISTER_INTERRUPT then
    let r := registerSoftInterrupt K s.controller CS_MICROAPP_SDK_TYPE_BLE
      CS_MICROAPP_SDK_BLE_SCAN_SCANNED_DEVICE
    if r.1 ≠ cs_ret_code_t.ERR_SUCCESS then
      finish { s with controller := r.2 } CS_MICROAPP_SDK_ACK_ERROR r.1
    else
      finish { s with controller := r.2 } CS_MICROAPP_SDK_ACK_SUCCESS cs_ret_code_t.ERR_SUCCESS
  else if type = CS_MICROAPP_SDK_BLE_SCAN_START then
    finish { s with controller := setScanning s.controller true }
      CS_MICROAPP_SDK_ACK_SUCCESS cs_ret_code_t.ERR_SUCCESS
  else if type = CS_MICROAPP_SDK_BLE_SCAN_STOP then
    finish { s with controller := setScanning s.controller false }
      CS_MICROAPP_SDK_ACK_SUCCESS cs_ret_code_t.ERR_SUCCESS
  else if type = CS_MICROAPP_SDK_BLE_CONNECTION_REQUEST_CONNECT then
    let d := dispatchEvent X s
      (HostEvent.CMD_BLE_CENTRAL_CONNECT ((s.input.drop 4).take MAC_ADDRESS_LENGTH).reverse)
    finish d.2 CS_MICROAPP_SDK_ACK_IN_PROGRESS d.1.returnCode
  else if type = CS_MICROAPP_SDK_BLE_CONNECTION_REQUEST_DISCONNECT then
    finish s CS_MICROAPP_SDK_ACK_ERR_NOT_IMPLEMENTED cs_ret_code_t.ERR_NOT_IMPLEMENTED
  else finish s CS_MICROAPP_SDK_ACK_ERR_UNDEFINED cs_ret_code_t.ERR_UNKNOWN_TYPE

/-- The function `MicroappRequestHandler::handleRequestMesh`. -/
def handleRequestMesh {γ σ : Type} (K : Constants) (X : Env γ σ) (s : System γ σ) :
    cs_ret_code_t × System γ σ :=
  let type := getByte s.input 2
  let stoneId := getByte s.input 3
  let size := getByte s.input 4
  if K.BUILD_MESHING = false then
    finish s CS_MICROAPP_SDK_ACK_ERR_DISABLED cs_ret_code_t.ERR_NOT_AVAILABLE
  else if type = CS_MICROAPP_SDK_MESH_SEND then
    if size = 0 then
      finish s CS_MICROAPP_SDK_ACK_ERR_EMPTY cs_ret_code_t.ERR_WRONG_PAYLOAD_LENGTH
    else if size > MAX_MICROAPP_MESH_PAYLOAD_SIZE then
      finish s CS_MICROAPP_SDK_ACK_ERR_TOO_LARGE cs_ret_code_t.ERR_WRONG_PAYLOAD_LENGTH
    else
      let broadcast := decide (stoneId = 0)
      let d := dispatchEvent X s
        (HostEvent.CMD_SEND_MESH_MSG (if broadcast then [] else [stoneId]) broadcast (!broadcast)
          size ((s.input.drop 5).take size))
      if d.1.returnCode ≠ cs_ret_code_t.ERR_SUCCESS then
        finish d.2 CS_MICROAPP_SDK_ACK_ERROR d.1.returnCode
      else finish d.2 CS_MICROAPP_SDK_ACK_SUCCESS cs_ret_code_t.ERR_SUCCESS
  else if type = CS_MICROAPP_SDK_MESH_LISTEN then
    let r := registerSoftInterrupt K s.controller CS_MICROAPP_SDK_TYPE_MESH
      CS_MICROAPP_SDK_MESH_READ
    if r.1 ≠ cs_ret_code_t.ERR_SUCCESS then
      finish { s with controller := r.2 } CS_MICROAPP_SDK_ACK_ERROR r.1
    else
      finish { s with controller := r.2 } CS_MICROAPP_SDK_ACK_SUCCESS cs_ret_code_t.ERR_SUCCESS
  else if type = CS_MICROAPP_SDK_MESH_READ_CONFIG then
    finish { s with input := setByte s.input 3 (X.getCrownstoneId s.host) }
      CS_MICROAPP_SDK_ACK_SUCCESS cs_ret_code_t.ERR_SUCCESS
  else if type = CS_MICROAPP_SDK_MESH_READ then
    finish s CS_MICROAPP_SDK_ACK_ERR_UNDEFINED cs_ret_code_t.ERR_WRONG_OPERATION
  else finish s CS_MICROAPP_SDK_ACK_ERR_UNDEFINED cs_ret_code_t.ERR_UNKNOWN_TYPE

/-- The function `MicroappRequestHandler::handleRequestPowerUsage`. -/
def handleRequestPowerUsage {γ σ : Type} (X : Env γ σ) (s : System γ σ) :
    cs_ret_code_t × System γ σ :=
  finish { s with input := setLE s.input 3 4 (X.getPowerUsage s.host) }
    CS_MICROAPP_SDK_ACK_SUCCESS cs_ret_code_t.ERR_SUCCESS

/-- The function `MicroappRequestHandler::handleRequestPresence`. The data of the result is
the presence bitmask of every profile. -/
def handleRequestPresence {γ σ : Type} (K : Constants) (X : Env γ σ) (s : System γ σ) :
    cs_ret_code_t × System γ σ :=
  let profileId := getByte s.input 2
  if profileId ≥ K.MAX_NUMBER_OF_PRESENCE_PROFILES then
    finish s CS_MICROAPP_SDK_ACK_ERR_OUT_OF_RANGE cs_ret_code_t.ERR_NOT_FOUND
  else
    let d := dispatchEvent X s HostEvent.CMD_GET_PRESENCE
    if d.1.returnCode ≠ cs_ret_code_t.ERR_SUCCESS then
      finish d.2 CS_MICROAPP_SDK_ACK_ERROR d.1.returnCode
    else if d.1.dataSize ≠ K.sizeofPresence then
      finish d.2 CS_MICROAPP_SDK_ACK_ERROR cs_ret_code_t.ERR_WRONG_PAYLOAD_LENGTH
    else
      finish { d.2 with input := setLE d.2.input 3 8 (d.1.data.getD profileId 0) }
        CS_MICROAPP_SDK_ACK_SUCCESS cs_ret_code_t.ERR_SUCCESS

/-- The function `MicroappRequestHandler::handleRequestControlCommand`. -/
def handleRequestControlCommand {γ σ : Type} (X : Env γ σ) (s : System γ σ) :
    cs_ret_code_t × System γ σ :=
  let protocol := getByte s.input 2
  let type := getLE s.input 3 2
  let size := getLE s.input 5 2
  if size = 0 then
    finish s CS_MICROAPP_SDK_ACK_ERR_EMPTY cs_ret_code_t.ERR_WRONG_PAYLOAD_LENGTH
  else if size > MICROAPP_SDK_MAX_CONTROL_COMMAND_PAYLOAD_SIZE then
    finish s CS_MICROAPP_SDK_ACK_ERR_TOO_LARGE cs_ret_code_t.ERR_WRONG_PAYLOAD_LENGTH
  else
    let d := dispatchEvent X s
      (HostEvent.CMD_CONTROL_CMD protocol type size ((s.input.drop 7).take size))
    if d.1.returnCode = cs_ret_code_t.ERR_SUCCESS
        ∨ d.1.returnCode = cs_ret_code_t.ERR_SUCCESS_NO_CHANGE
        ∨ d.1.returnCode = cs_ret_code_t.ERR_WAIT_FOR_SUCCESS then
      finish d.2 CS_MICROAPP_SDK_ACK_SUCCESS cs_ret_code_t.ERR_SUCCESS
    else finish d.2 CS_MICROAPP_SDK_ACK_ERROR d.1.returnCode

/-- The function `MicroappRequestHandler::handleRequestYield`. -/
def handleRequestYield {γ σ : Type} (s : System γ σ) : cs_ret_code_t × System γ σ :=
  finish { s with controller := setEmptySoftInterruptSlots s.controller (getByte s.input 3) }
    CS_MICROAPP_SDK_ACK_SUCCESS cs_ret_code_t.ERR_SUCCESS

/-- The function `MicroappRequestHandler::handleMicroappRequest`, on the incoming buffer. -/
def handleMicroappRequest {γ σ : Type} (K : Constants) (X : Env γ σ) (s : System γ σ) :
    cs_ret_code_t × System γ σ :=
  let type := messageType s.input
  if type = CS_MICROAPP_SDK_TYPE_NONE then (cs_ret_code_t.ERR_SUCCESS, s)
  else if type = CS_MICROAPP_SDK_TYPE_LOG then handleRequestLog s
  else if type = CS_MICROAPP_SDK_TYPE_PIN then handleRequestPin K X s
  else if type = CS_MICROAPP_SDK_TYPE_SWITCH then handleRequestSwitch X s
  else if type = CS_MICROAPP_SDK_TYPE_SERVICE_DATA then handleRequestServiceData X s
  else if type = CS_MICROAPP_SDK_TYPE_TWI then handleRequestTwi K X s
  else if type = CS_MICROAPP_SDK_TYPE_BLE then handleRequestBle K X s
  else if type = CS_MICROAPP_SDK_TYPE_MESH then handleRequestMesh K X s
  else if type = CS_MICROAPP_SDK_TYPE_POWER_USAGE then handleRequestPowerUsage X s
  else if type = CS_MICROAPP_SDK_TYPE_PRESENCE then handleRequestPresence K X s
  else if type = CS_MICROAPP_SDK_TYPE_CONTROL_COMMAND then handleRequestControlCommand X s
  else if type = CS_MICROAPP_SDK_TYPE_YIELD then handleRequestYield s
  else finish s CS_MICROAPP_SDK_ACK_ERR_UNDEFINED cs_ret_code_t.ERR_UNKNOWN_TYPE

/-! ## MicroappController: the call loop -/

/-- The function `MicroappController::handleRequest`. -/
def handleRequest {γ σ : Type} (K : Constants) (X : Env γ σ) (s : System γ σ) :
    Bool × System γ σ :=
  let r := handleMicroappRequest K X s
  let callAgain := !stopAfterMicroappRequest (messageType r.2.input)
  if !callAgain then
    (false, { r.2 with controller := { r.2.controller with _consecutiveMicroappCallCounter := 0 } })
  else if r.2.controller._consecutiveMicroappCallCounter
      ≥ K.MICROAPP_MAX_NUMBER_CONSECUTIVE_CALLS then
    (false, { r.2 with controller := { r.2.controller with _consecutiveMicroappCallCounter := 0 } })
  else
    (true, { r.2 with controller :=
      { r.2.controller with
        _consecutiveMicroappCallCounter := r.2.controller._consecutiveMicroappCallCounter + 1 } })

/-- The do-while loop shared by `tickMicroapp` and `generateSoftInterrupt`: call the microapp,
handle the ack, handle the request, and repeat while the request asks for it. The loop has no
bound in the source; `fuel` bounds the iterations and `none` is fuel running out. -/
def callLoop {γ σ : Type} (K : Constants) (X : Env γ σ) : Nat → System γ σ → Option (System γ σ)
  | 0, _ => none
  | fuel + 1, s =>
    let a := handleAck (callMicroapp K X s)
    if !a.1 then some a.2
    else
      let r := handleRequest K X a.2
      if r.1 then callLoop K X fuel r.2 else some r.2

/-- The function `MicroappController::tickMicroapp`. The tick counter is reset when it reaches
MICROAPP_LOOP_FREQUENCY, so its increment stays inside its C type. -/
def tickMicroapp {γ σ : Type} (K : Constants) (X : Env γ σ) (fuel : Nat) (s : System γ σ) :
    Option (System γ σ) :=
  if s.controller._tickCounter + 1 < MICROAPP_LOOP_FREQUENCY then
    some { s with controller := { s.controller with _tickCounter := s.controller._tickCounter + 1 } }
  else
    callLoop K X fuel
      { s with
        controller := { s.controller with _tickCounter := 0, _softInterruptCounter := 0 }
        output := setAck (setByte s.output 0 CS_MICROAPP_SDK_TYPE_CONTINUE)
          CS_MICROAPP_SDK_ACK_NO_REQUEST }

/-- The function `MicroappController::generateSoftInterrupt`. The counter of soft interrupts
is incremented only below MICROAPP_MAX_SOFT_INTERRUPTS_WITHIN_A_TICK, inside its C type. -/
def generateSoftInterrupt {γ σ : Type} (K : Constants) (X : Env γ σ) (fuel : Nat)
    (s : System γ σ) : Option (System γ σ) :=
  if !allowSoftInterrupts K s.controller then some s
  else
    callLoop K X fuel
      { s with
        controller :=
          { s.controller with _softInterruptCounter := s.controller._softInterruptCounter + 1 }
        output := setAck s.output CS_MICROAPP_SDK_ACK_REQUEST }

end Microapp

namespace Microapp

/-! ## Microapp: predicates and sample values used in the statements -/

/-- The number of resumes of the coroutine among the effects. -/
def resumeCount (trace : List Effect) : Nat :=
  trace.countP (fun e => match e with
    | Effect.resumeCoroutine _ _ => true
    | _ => false)

/-- The events dispatched on the bus among the effects. -/
def dispatched (trace : List Effect) : List HostEvent :=
  trace.filterMap (fun e => match e with
    | Effect.dispatch event => some event
    | _ => none)

/-- What a request handler leaves alone: the counters of the controller, the message type of
the incoming buffer, the outgoing buffer, the IPC page, the guest, the resumes, and the
effects so far. -/
def Frame {γ σ : Type} (s s' : System γ σ) : Prop :=
  s'.controller._tickCounter = s.controller._tickCounter ∧
    s'.controller._softInterruptCounter = s.controller._softInterruptCounter ∧
    s'.controller._consecutiveMicroappCallCounter = s.controller._consecutiveMicroappCallCounter ∧
    messageType s'.input = messageType s.input ∧
    s'.output = s.output ∧ s'.ipcRam = s.ipcRam ∧ s'.guest = s.guest ∧
    resumeCount s'.trace = resumeCount s.trace ∧
    ∃ rest, s'.trace = s.trace ++ rest

/-- No registration occurs in two slots. -/
def NoDuplicate (regs : List soft_interrupt_registration_t) : Prop :=
  ∀ i j, (regs.getD i noRegistration).registered = true →
    (regs.getD j noRegistration).registered = true →
    (regs.getD i noRegistration).type = (regs.getD j noRegistration).type →
    (regs.getD i noRegistration).id = (regs.getD j noRegistration).id → i = j

/-- Sample constants: three consecutive calls, three soft interrupts per tick, two
registration slots, one microapp in a flash section of 0x4000 bytes at 0x69000. -/
def sampleConstants (BUILD_MESHING : Bool) : Constants :=
  { MICROAPP_MAX_NUMBER_CONSECUTIVE_CALLS := 3
    MICROAPP_MAX_SOFT_INTERRUPTS_WITHIN_A_TICK := 3
    MICROAPP_MAX_SOFT_INTERRUPT_REGISTRATIONS := 2
    g_MICROAPP_COUNT := 1
    microappFlashSection_start := 0x69000
    microappFlashSection_size := 0x4000
    pinCount := 18
    MAX_NUMBER_OF_PRESENCE_PROFILES := 8
    sizeofPresence := 64
    BUILD_MESHING := BUILD_MESHING
    BLUENET_IPC_BLUENET_REBOOT_DATA_MAJOR := 1
    BLUENET_IPC_BLUENET_REBOOT_DATA_MINOR := 0
    retCodeValue := fun r => match r with
      | cs_ret_code_t.ERR_SUCCESS => 0
      | cs_ret_code_t.other code => code
      | _ => 1 }

/-- A sample environment: the guest always yields and writes the message type it is in as a
request with the ack it finds, the listeners count the events and report success. -/
def sampleEnv : Env Nat Nat :=
  { resume := fun g input output =>
      { yielded := true, guest := g + 1, input := setByte input 0 g, output := output }
    dispatch := fun h _ => (⟨cs_ret_code_t.ERR_SUCCESS, 0, 0, []⟩, h + 1)
    getCrownstoneId := fun _ => 7
    getPowerUsage := fun _ => 1000
    getStartInstructionAddress := fun _ => 0x69000 }

/-- A sample controller after `clear`. -/
def sampleController : MicroappController :=
  { _tickCounter := 0
    _softInterruptCounter := 0
    _consecutiveMicroappCallCounter := 0
    _emptySoftInterruptSlots := 1
    _softInterruptRegistrations := [noRegistration, noRegistration]
    isScanning := false }

/-- A sample system whose guest is in state `guest` and has left `input` in the incoming
buffer. -/
def sampleSystem (guest : Nat) (input : List Nat) : System Nat Nat :=
  { controller := sampleController
    input := input
    output := List.replicate 48 0
    ipcRam := none
    guest := guest
    host := 0
    trace := [] }

end Microapp

namespace Microapp

/-- The states the system reaches from `start` by ticks and soft interrupts; between two calls
the host may write the outgoing buffer, as it does with the payload of an interrupt, and change
its own state. -/
inductive Reachable {γ σ : Type} (K : Constants) (X : Env γ σ) (start : System γ σ) :
    System γ σ → Prop
  | start : Reachable K X start start
  | tick (fuel : Nat) (s s' : System γ σ) :
    Reachable K X start s → tickMicroapp K X fuel s = some s' → Reachable K X start s'
  | softInterrupt (fuel : Nat) (s s' : System γ σ) :
    Reachable K X start s → generateSoftInterrupt K X fuel s = some s' →
    Reachable K X start s'
  | hostWrite (s : System γ σ) (output : List Nat) (host : σ) :
    Reachable K X start s → Reachable K X start { s with output := output, host := host }

/-- A sample system one tick before the microapp is called. -/
def sampleDue (guest : Nat) (input : List Nat) : System Nat Nat :=
  { sampleSystem guest input with
    controller := { sampleController with _tickCounter := MICROAPP_LOOP_FREQUENCY - 1 } }

end Microapp

namespace AssetFiltering

/-! ## Asset filtering: predicates and sample values used in the statements -/

/-- Following the specification of the input type MaskedAdDataType: the subsequence of the
bytes `d` at the indices whose bit is set in the mask (bit 0 is the least significant bit), in
increasing order of the index. -/
def maskedBytes (mask : Nat) (d : List Nat) : List Nat :=
  (d.enum.filter (fun p => Nat.testBit mask p.1)).map (fun p => p.2)

/-- The EVT_ASSET_ACCEPTED events among the effects: filter index and combined masks. -/
def acceptedEvents (trace : List Effect) : List (Nat × Nat) :=
  trace.filterMap (fun e => match e with
    | Effect.EVT_ASSET_ACCEPTED filterIndex combinedMasks => some (filterIndex, combinedMasks)
    | _ => none)

/-- A filter on the masked manufacturer data (type 0xFF, mask 0b10101) whose body contains
exactly the bytes 01 03 05. -/
def sampleMaskedFilter : AssetFilter :=
  { sampleAssetFilter 0 false with
    inputType := AssetFilterInput.MaskedAdDataType (some ⟨0xFF, 0b10101⟩)
    cuckooFilter :=
      { contains := fun data => data == [0x01, 0x03, 0x05], assetId := fun data => ⟨data.take 3⟩ } }

/-- Collaborators that find the whole advertisement payload as the field of any type. -/
def samplePayloadCollaborators : Collaborators Nat :=
  { sampleCollaborators 0 with findAdvType := fun _ data => some data }

/-- Collaborators of a build without BUILD_CLOSEST_CROWNSTONE_TRACKER. -/
def sampleNoTracker : Collaborators Nat :=
  { sampleCollaborators 0 with BUILD_CLOSEST_CROWNSTONE_TRACKER := false }

/-- A ready store whose only filter accepts the address and has output format
AssetIdNearest. -/
def sampleNearestStore : AssetFilterStore :=
  { isReady := true
    filters := [{ sampleAssetFilter 0 false with
      outFormat := AssetFilterOutputFormat.AssetIdNearest }] }

/-- A ready store of three filters on the address with the output formats Mac, AssetId and
Mac. -/
def sampleForwardStore : AssetFilterStore :=
  { isReady := true
    filters := [sampleAssetFilter 0 false,
      { sampleAssetFilter 1 false with outFormat := AssetFilterOutputFormat.AssetId },
      sampleAssetFilter 2 false] }

end AssetFiltering

namespace AssetFiltering

/-- The masks hold, for every index of a filter, exactly the bit of the output format of an
accepting non-exclude filter (the nearest asset id only in a build with
BUILD_CLOSEST_CROWNSTONE_TRACKER), and no bit at any other index. -/
def MasksFor {σ : Type} (X : Collaborators σ) (asset : scanned_device_t)
    (filters : List AssetFilter) (masks : filter_output_bitmasks_t) : Prop :=
  (∀ i filter, filters[i]? = some filter →
    (isBitSet masks._forwardMac i = true ↔
      filter.exclude = false ∧ filterAcceptsScannedDevice X filter asset = true ∧
        filter.outFormat = AssetFilterOutputFormat.Mac) ∧
    (isBitSet masks._forwardAssetId i = true ↔
      filter.exclude = false ∧ filterAcceptsScannedDevice X filter asset = true ∧
        filter.outFormat = AssetFilterOutputFormat.AssetId) ∧
    (isBitSet masks._nearestAssetId i = true ↔
      filter.exclude = false ∧ filterAcceptsScannedDevice X filter asset = true ∧
        filter.outFormat = AssetFilterOutputFormat.AssetIdNearest ∧
        X.BUILD_CLOSEST_CROWNSTONE_TRACKER = true)) ∧
  ∀ i, filters.length ≤ i →
    isBitSet masks._forwardMac i = false ∧ isBitSet masks._forwardAssetId i = false ∧
      isBitSet masks._nearestAssetId i = false

end AssetFiltering

namespace CuckooFilter

/-! ## Front-loading -/

/-- The lowest nest behind nest `ii` of the bucket that holds a nonzero fingerprint. -/
def firstNonzeroBehind (d : cuckoo_filter_data_t) (bucketIndex ii : Nat) : Option Nat :=
  (List.range d.nestsPerBucket).find?
    (fun jj => decide (ii < jj ∧ lookupFingerprint d bucketIndex jj ≠ 0))

/-- The highest nest behind nest `ii` of the bucket that holds a nonzero fingerprint. -/
def lastNonzeroBehind (d : cuckoo_filter_data_t) (bucketIndex ii : Nat) : Option Nat :=
  (List.range d.nestsPerBucket).reverse.find?
    (fun jj => decide (ii < jj ∧ lookupFingerprint d bucketIndex jj ≠ 0))

/-- In every bucket no zero nest has a lower index than a nonzero nest. -/
def FrontLoaded (d : cuckoo_filter_data_t) : Prop :=
  ∀ b i j, i < j → j < d.nestsPerBucket → lookupFingerprint d b i = 0 →
    lookupFingerprint d b j = 0

/-- One bucket of four nests that holds the fingerprints 1, 2, 3 and 4. -/
def sampleBucket : cuckoo_filter_data_t :=
  { bucketCountLog2 := 0, nestsPerBucket := 4, victim := noVictim, bucketArray := [1, 2, 3, 4] }

end CuckooFilter

namespace CuckooFilter

/-- The filter after a sequence of calls. -/
def run (E : Ext) (d : cuckoo_filter_data_t) (calls : List Call) : cuckoo_filter_data_t :=
  calls.foldl (fun acc c => (step E acc c).2) d

/-- The return values of a sequence of calls, in the order of the calls. -/
def results (E : Ext) : cuckoo_filter_data_t → List Call → List Bool
  | _, [] => []
  | d, c :: rest => (step E d c).1 :: results E (step E d c).2 rest

end CuckooFilter

namespace AssetFiltering

/-- Collaborators whose asset store has no record for the asset and cannot make one:
`handleAcceptedAsset` returns the null pointer. -/
def sampleNoRecord : Collaborators Nat :=
  { sampleCollaborators 0 with handleAcceptedAsset := fun s _ _ => (none, s + 1) }

end AssetFiltering

namespace Microapp

/-- A sample environment whose listeners report ERR_UNSPECIFIED and hand back no data. -/
def sampleFailingBus : Env Nat Nat :=
  { sampleEnv with dispatch := fun h _ => (⟨cs_ret_code_t.ERR_UNSPECIFIED, 0, 0, []⟩, h + 1) }

/-- A frame of MICROAPP_SDK_MAX_PAYLOAD bytes with a twi request: header, type, address,
flags, size, and an empty buffer. -/
def twiRequest (type address flags size : Nat) : List Nat :=
  [CS_MICROAPP_SDK_TYPE_TWI, CS_MICROAPP_SDK_ACK_NO_REQUEST, type, address, flags, size]
    ++ List.replicate MICROAPP_SDK_MAX_TWI_PAYLOAD_SIZE 0

/-- A frame of MICROAPP_SDK_MAX_PAYLOAD bytes with a log request: header, type, flags, size,
and the payload filled up with the byte 0x41. -/
def logRequest (type flags size : Nat) (payload : List Nat) : List Nat :=
  [CS_MICROAPP_SDK_TYPE_LOG, CS_MICROAPP_SDK_ACK_NO_REQUEST, type, flags, size]
    ++ (payload ++ List.replicate MICROAPP_SDK_MAX_STRING_LENGTH 0x41).take
      MICROAPP_SDK_MAX_STRING_LENGTH

end Microapp

/-! # Properties -/

namespace CuckooFilter

/-! ## Basic facts about the filter methods -/

theorem contains_eq_true_iff (d : cuckoo_filter_data_t) (efp : cuckoo_extended_fingerprint_t) :
    contains d efp = true ↔
      ∃ ii, ii < d.nestsPerBucket ∧
        (lookupFingerprint d efp.bucketA ii = efp.fingerprint ∨
          lookupFingerprint d efp.bucketB ii = efp.fingerprint) := by
  unfold contains
  constructor
  · intro h
    split at h
    · rename_i hA
      obtain ⟨ii, hii, he⟩ := List.any_eq_true.mp hA
      exact ⟨ii, List.mem_range.mp hii, Or.inl (of_decide_eq_true he).symm⟩
    · split at h
      · rename_i hB
        obtain ⟨ii, hii, he⟩ := List.any_eq_true.mp hB
        exact ⟨ii, List.mem_range.mp hii, Or.inr (of_decide_eq_true he).symm⟩
      · simp at h
  · rintro ⟨ii, hii, hA | hB⟩
    · rw [if_pos]
      exact List.any_eq_true.mpr ⟨ii, List.mem_range.mpr hii, by simp [hA]⟩
    · split
      · rfl
      · rw [if_pos]
        exact List.any_eq_true.mpr ⟨ii, List.mem_range.mpr hii, by simp [hB]⟩

theorem contains_eq_false_iff (d : cuckoo_filter_data_t) (efp : cuckoo_extended_fingerprint_t) :
    contains d efp = false ↔
      ∀ ii, ii < d.nestsPerBucket →
        lookupFingerprint d efp.bucketA ii ≠ efp.fingerprint ∧
          lookupFingerprint d efp.bucketB ii ≠ efp.fingerprint := by
  rw [← Bool.not_eq_true, contains_eq_true_iff]
  constructor
  · intro h ii hii
    exact ⟨fun hA => h ⟨ii, hii, Or.inl hA⟩, fun hB => h ⟨ii, hii, Or.inr hB⟩⟩
  · rintro h ⟨ii, hii, hA | hB⟩
    · exact (h ii hii).1 hA
    · exact (h ii hii).2 hB

theorem removeFingerprintFromBucket_absent (d : cuckoo_filter_data_t) (fingerprint bucketIndex : Nat)
    (h : ∀ ii, ii < d.nestsPerBucket → lookupFingerprint d bucketIndex ii ≠ fingerprint) :
    removeFingerprintFromBucket d fingerprint bucketIndex = (false, d) := by
  unfold removeFingerprintFromBucket
  have hnone : (List.range d.nestsPerBucket).find?
      (fun ii => lookupFingerprint d bucketIndex ii == fingerprint) = none := by
    rw [List.find?_eq_none]
    intro ii hii
    simpa using h ii (List.mem_range.mp hii)
  rw [hnone]

/-! ## Absent keys, present keys and the saturated filter -/

/-- C3: when the fingerprint of `efp` occurs in neither of its two buckets, that is when
`contains` is false, `remove` returns false and the filter, bucket array and victim, is
unchanged. -/
theorem remove_absent_unchanged (E : Ext) (d : cuckoo_filter_data_t)
    (efp : cuckoo_extended_fingerprint_t) (h : contains d efp = false) :
    remove E d efp = (false, d) := by
  rw [contains_eq_false_iff] at h
  have hA := removeFingerprintFromBucket_absent d efp.fingerprint efp.bucketA
    (fun ii hii => (h ii hii).1)
  have hB := removeFingerprintFromBucket_absent d efp.fingerprint efp.bucketB
    (fun ii hii => (h ii hii).2)
  simp [remove, hA, hB]

theorem remove_absent_unchanged_witness :
    contains sampleFilter ⟨5, 0, 1⟩ = false ∧
      remove sampleExt sampleFilter ⟨5, 0, 1⟩ = (false, sampleFilter) :=
  ⟨by decide, remove_absent_unchanged sampleExt sampleFilter ⟨5, 0, 1⟩ (by decide)⟩

/-- C4: if `contains` is already true, `add` returns true and leaves the filter unchanged; if
`contains` is false while a victim is present, `add` returns false and leaves the filter
unchanged. -/
theorem add_contained_or_saturated (E : Ext) (d : cuckoo_filter_data_t)
    (efp : cuckoo_extended_fingerprint_t) :
    (contains d efp = true → add E d efp = (true, d)) ∧
      (contains d efp = false → d.victim.fingerprint ≠ 0 → add E d efp = (false, d)) := by
  constructor
  · intro h
    simp [add, h]
  · intro h hv
    simp [add, h, hv]

theorem add_contained_or_saturated_witness :
    add sampleExt sampleFilter ⟨7, 0, 1⟩ = (true, sampleFilter) ∧
      add sampleExt sampleSaturated ⟨5, 0, 1⟩ = (false, sampleSaturated) :=
  ⟨(add_contained_or_saturated sampleExt sampleFilter ⟨7, 0, 1⟩).1 (by decide),
    (add_contained_or_saturated sampleExt sampleSaturated ⟨5, 0, 1⟩).2 (by decide) (by decide)⟩

/-! ## The two buckets of a fingerprint -/

theorem xor_mod_two_pow_left (a f k : Nat) :
    ((a % 2 ^ k) ^^^ f) % 2 ^ k = (a ^^^ f) % 2 ^ k := by
  apply Nat.eq_of_testBit_eq
  intro i
  simp only [Nat.testBit_mod_two_pow, Nat.testBit_xor]
  by_cases h : i < k <;> simp [h]

theorem xor_xor_mod_two_pow (a f k : Nat) :
    (((a ^^^ f) % 2 ^ k) ^^^ f) % 2 ^ k = a % 2 ^ k := by
  rw [xor_mod_two_pow_left, Nat.xor_assoc, Nat.xor_self, Nat.xor_zero]

theorem toIndex_of_lt {x : Nat} (h : x < 2 ^ 16) : toIndex x = x := Nat.mod_eq_of_lt h

theorem toIndex_lt (x : Nat) : toIndex x < 2 ^ 16 := Nat.mod_lt _ (by norm_num)

theorem hash_lt (E : Ext) (key : List Nat) : hash E key < 2 ^ 16 := Nat.mod_lt _ (by norm_num)

theorem toIndex_mod_of_lt {x n : Nat} (h : x < 2 ^ 16) : toIndex (x % n) = x % n :=
  toIndex_of_lt (lt_of_le_of_lt (Nat.mod_le x n) h)

/-- C8: for the extended fingerprint (f, A, B) of a key, A is the hash of the two bytes of f
modulo the bucket count and B is (A XOR f) modulo the bucket count; recomputing from f and A
gives (f, A, B), and from f and B gives (f, B, A). -/
theorem getExtendedFingerprint_involution (E : Ext) (d : cuckoo_filter_data_t) (key : List Nat) :
    (getExtendedFingerprintOfKey E d key).fingerprint = hash E key ∧
    (getExtendedFingerprintOfKey E d key).bucketA = hash E (le16 (hash E key)) % bucketCount d ∧
    (getExtendedFingerprintOfKey E d key).bucketB =
      ((getExtendedFingerprintOfKey E d key).bucketA ^^^ hash E key) % bucketCount d ∧
    getExtendedFingerprint d (hash E key) (getExtendedFingerprintOfKey E d key).bucketA =
      getExtendedFingerprintOfKey E d key ∧
    getExtendedFingerprint d (hash E key) (getExtendedFingerprintOfKey E d key).bucketB =
      { fingerprint := hash E key
        bucketA := (getExtendedFingerprintOfKey E d key).bucketB
        bucketB := (getExtendedFingerprintOfKey E d key).bucketA } := by
  have hf := hash_lt E key
  have hh := hash_lt E (le16 (hash E key))
  have hx : hash E (le16 (hash E key)) ^^^ hash E key < 2 ^ 16 := Nat.xor_lt_two_pow hh hf
  have hA : toIndex (hash E (le16 (hash E key)) % bucketCount d)
      = hash E (le16 (hash E key)) % bucketCount d := toIndex_mod_of_lt hh
  have hB : toIndex ((hash E (le16 (hash E key)) ^^^ hash E key) % bucketCount d)
      = (hash E (le16 (hash E key)) ^^^ hash E key) % bucketCount d := toIndex_mod_of_lt hx
  have hAx : (hash E (le16 (hash E key)) % bucketCount d ^^^ hash E key) % bucketCount d
      = (hash E (le16 (hash E key)) ^^^ hash E key) % bucketCount d :=
    xor_mod_two_pow_left _ _ _
  have hBx : ((hash E (le16 (hash E key)) ^^^ hash E key) % bucketCount d ^^^ hash E key)
      % bucketCount d = hash E (le16 (hash E key)) % bucketCount d :=
    xor_xor_mod_two_pow _ _ _
  simp only [getExtendedFingerprintOfKey, getExtendedFingerprint, hA, hB, hAx, hBx,
    and_self, true_and]

/-! ## When `add` fails -/

theorem addFingerprintToBucket_cases (d : cuckoo_filter_data_t) (fingerprint bucketIndex : Nat) :
    (∃ ii, ii < d.nestsPerBucket ∧ lookupFingerprint d bucketIndex ii = 0 ∧
        addFingerprintToBucket d fingerprint bucketIndex
          = (true, storeFingerprint d bucketIndex ii fingerprint)) ∨
      ((∀ ii, ii < d.nestsPerBucket → lookupFingerprint d bucketIndex ii ≠ 0) ∧
        addFingerprintToBucket d fingerprint bucketIndex = (false, d)) := by
  unfold addFingerprintToBucket
  cases hfind : (List.range d.nestsPerBucket).find?
      (fun ii => lookupFingerprint d bucketIndex ii == 0) with
  | some ii =>
    left
    refine ⟨ii, List.mem_range.mp (List.mem_of_find?_eq_some hfind), ?_, rfl⟩
    simpa using List.find?_some hfind
  | none =>
    right
    refine ⟨?_, rfl⟩
    intro ii hii
    have := List.find?_eq_none.mp hfind ii (List.mem_range.mpr hii)
    simpa using this

theorem bucketFull_eq_true_iff (d : cuckoo_filter_data_t) (bucketIndex : Nat) :
    bucketFull d bucketIndex = true ↔
      ∀ ii, ii < d.nestsPerBucket → lookupFingerprint d bucketIndex ii ≠ 0 := by
  simp [bucketFull, List.all_eq_true]

theorem moveLoop_succ_A (E : Ext) (seed n calls : Nat) (d d1 : cuckoo_filter_data_t)
    (e : cuckoo_extended_fingerprint_t)
    (hA : addFingerprintToBucket d e.fingerprint e.bucketA = (true, d1)) :
    moveLoop E seed (n + 1) calls d e = (true, d1) := by
  rw [moveLoop, hA]

theorem moveLoop_succ_B (E : Ext) (seed n calls : Nat) (d d1 d2 : cuckoo_filter_data_t)
    (e : cuckoo_extended_fingerprint_t)
    (hA : addFingerprintToBucket d e.fingerprint e.bucketA = (false, d1))
    (hB : addFingerprintToBucket d1 e.fingerprint e.bucketB = (true, d2)) :
    moveLoop E seed (n + 1) calls d e = (true, d2) := by
  rw [moveLoop, hA]
  simp only [hB]

theorem moveLoop_succ_kick (E : Ext) (seed n calls : Nat) (d d1 d2 : cuckoo_filter_data_t)
    (e : cuckoo_extended_fingerprint_t)
    (hA : addFingerprintToBucket d e.fingerprint e.bucketA = (false, d1))
    (hB : addFingerprintToBucket d1 e.fingerprint e.bucketB = (false, d2)) :
    moveLoop E seed (n + 1) calls d e =
      moveLoop E seed n (calls + 2)
        (storeFingerprint d2 (kickedBucket E seed calls e) (kickedIndex E seed calls d2)
          e.fingerprint)
        (getExtendedFingerprint
          (storeFingerprint d2 (kickedBucket E seed calls e) (kickedIndex E seed calls d2)
            e.fingerprint)
          (lookupFingerprint d2 (kickedBucket E seed calls e) (kickedIndex E seed calls d2))
          (kickedBucket E seed calls e)) := by
  rw [moveLoop, hA]
  simp only [hB, kickedBucket, kickedIndex]

theorem moveLoop_false_full (E : Ext) (seed attemptsLeft calls : Nat) (d : cuckoo_filter_data_t)
    (e : cuckoo_extended_fingerprint_t)
    (h : (moveLoop E seed (attemptsLeft + 1) calls d e).1 = false) :
    bucketFull d e.bucketA = true ∧ bucketFull d e.bucketB = true := by
  rcases addFingerprintToBucket_cases d e.fingerprint e.bucketA with
    ⟨ii, _, _, hA⟩ | ⟨hfullA, hA⟩
  · rw [moveLoop_succ_A E seed _ calls d _ e hA] at h
    simp at h
  · rcases addFingerprintToBucket_cases d e.fingerprint e.bucketB with
      ⟨ii, _, _, hB⟩ | ⟨hfullB, hB⟩
    · rw [moveLoop_succ_B E seed _ calls d _ _ e hA hB] at h
      simp at h
    · exact ⟨(bucketFull_eq_true_iff d _).mpr hfullA, (bucketFull_eq_true_iff d _).mpr hfullB⟩

theorem moveLoop_false_pred (E : Ext) (seed : Nat) :
    ∀ (attemptsLeft calls : Nat) (d : cuckoo_filter_data_t) (e : cuckoo_extended_fingerprint_t),
      (moveLoop E seed (attemptsLeft + 1) calls d e).1 = false →
        (moveLoop E seed attemptsLeft calls d e).1 = false := by
  intro attemptsLeft
  induction attemptsLeft with
  | zero =>
    intro calls d e _
    rfl
  | succ n ih =>
    intro calls d e h
    rcases addFingerprintToBucket_cases d e.fingerprint e.bucketA with
      ⟨ii, _, _, hA⟩ | ⟨_, hA⟩
    · rw [moveLoop_succ_A E seed _ calls d _ e hA] at h
      simp at h
    · rcases addFingerprintToBucket_cases d e.fingerprint e.bucketB with
        ⟨ii, _, _, hB⟩ | ⟨_, hB⟩
      · rw [moveLoop_succ_B E seed _ calls d _ _ e hA hB] at h
        simp at h
      · rw [moveLoop_succ_kick E seed _ calls d _ _ e hA hB] at h ⊢
        exact ih _ _ _ h

theorem moveLoop_false_le (E : Ext) (seed calls : Nat) (d : cuckoo_filter_data_t)
    (e : cuckoo_extended_fingerprint_t) :
    ∀ (m n : Nat), n ≤ m → (moveLoop E seed m calls d e).1 = false →
      (moveLoop E seed n calls d e).1 = false := by
  intro m
  induction m with
  | zero =>
    intro n hn h
    rw [Nat.le_zero.mp hn]
    exact h
  | succ m ih =>
    intro n hn h
    rcases Nat.lt_or_ge n (m + 1) with hlt | hge
    · exact ih n (Nat.lt_succ_iff.mp hlt) (moveLoop_false_pred E seed m calls d e h)
    · rw [Nat.le_antisymm hn hge]
      exact h

/-- C5, as stated, fails twice: `add` returns false on a filter with a victim although a
bucket of the item has an empty nest, and `add` returns false on a full filter in which no
victim was present before the call. -/
theorem add_false_counterexample :
    ((add sampleExt sampleSaturated ⟨5, 0, 1⟩).1 = false ∧
        bucketFull sampleSaturated 0 = false) ∧
      ((add sampleExt fullFilter ⟨5, 0, 0⟩).1 = false ∧ fullFilter.victim.fingerprint = 0) := by
  decide

/-- C5, amended: `add` returns false only if the item is not contained and either a victim
was already present before the call, in which case nothing is changed, or no victim was
present, both buckets of the item are full and the kick loop fails for every number of
attempts up to MAX_KICK_ATTEMPTS. -/
theorem add_false_only_if (E : Ext) (d : cuckoo_filter_data_t)
    (efp : cuckoo_extended_fingerprint_t) (h : (add E d efp).1 = false) :
    contains d efp = false ∧
      ((d.victim.fingerprint ≠ 0 ∧ (add E d efp).2 = d) ∨
        (d.victim.fingerprint = 0 ∧ bucketFull d efp.bucketA = true ∧
          bucketFull d efp.bucketB = true ∧
          ∀ n, n ≤ MAX_KICK_ATTEMPTS → (moveLoop E (filterhash E d) n 0 d efp).1 = false)) := by
  unfold add at h ⊢
  by_cases hc : contains d efp = true
  · simp [hc] at h
  · have hc' : contains d efp = false := by simpa using hc
    refine ⟨hc', ?_⟩
    by_cases hv : d.victim.fingerprint = 0
    · right
      simp only [hc', hv, ne_eq, not_true_eq_false, if_false, Bool.false_eq_true] at h
      have hfull := moveLoop_false_full E (filterhash E d) 99 0 d efp h
      exact ⟨hv, hfull.1, hfull.2,
        fun n hn => moveLoop_false_le E (filterhash E d) 0 d efp MAX_KICK_ATTEMPTS n hn h⟩
    · left
      exact ⟨hv, by simp [hc', hv]⟩

theorem add_false_only_if_witness :
    contains sampleSaturated ⟨5, 0, 1⟩ = false ∧
      ((sampleSaturated.victim.fingerprint ≠ 0 ∧
          (add sampleExt sampleSaturated ⟨5, 0, 1⟩).2 = sampleSaturated) ∨
        (sampleSaturated.victim.fingerprint = 0 ∧ bucketFull sampleSaturated 0 = true ∧
          bucketFull sampleSaturated 1 = true ∧
          ∀ n, n ≤ MAX_KICK_ATTEMPTS →
            (moveLoop sampleExt (filterhash sampleExt sampleSaturated) n 0 sampleSaturated
              ⟨5, 0, 1⟩).1 = false)) :=
  add_false_only_if sampleExt sampleSaturated ⟨5, 0, 1⟩ (by decide)

/-- C6, the code on a failing input: a filter of one bucket with one nest is initialised,
7 is added and the add of 5 fails, which makes (5, 0, 0) the victim. Removing 7 succeeds and
empties the only bucket, which is both buckets of the victim, yet on return the victim is
still (5, 0, 0) and its fingerprint is not stored. -/
theorem remove_leaves_victim :
    remove sampleExt (addAll sampleExt (init 1 1) [⟨7, 0, 0⟩, ⟨5, 0, 0⟩]) ⟨7, 0, 0⟩
        = (true, { bucketCountLog2 := 0, nestsPerBucket := 1, victim := ⟨5, 0, 0⟩,
                   bucketArray := [0] }) ∧
      contains (remove sampleExt (addAll sampleExt (init 1 1) [⟨7, 0, 0⟩, ⟨5, 0, 0⟩])
        ⟨7, 0, 0⟩).2 ⟨5, 0, 0⟩ = false := by
  decide

/-! ## Reading and writing nests -/

theorem getD_set_eq (l : List Nat) (i j v : Nat) :
    (l.set i v).getD j 0 = if i = j ∧ i < l.length then v else l.getD j 0 := by
  simp only [List.getD_eq_getElem?_getD, List.getElem?_set]
  by_cases hij : i = j
  · subst hij
    by_cases hlt : i < l.length
    · simp [hlt]
    · simp [hlt, List.getElem?_eq_none (Nat.le_of_not_lt hlt)]
  · simp [hij]

theorem lookup_store (d : cuckoo_filter_data_t) (b i v b' i' : Nat) :
    lookupFingerprint (storeFingerprint d b i v) b' i' =
      if b * d.nestsPerBucket + i = b' * d.nestsPerBucket + i'
          ∧ b * d.nestsPerBucket + i < d.bucketArray.length then v
      else lookupFingerprint d b' i' := by
  simp only [lookupFingerprint, storeFingerprint, getD_set_eq]

theorem store_nestsPerBucket (d : cuckoo_filter_data_t) (b i v : Nat) :
    (storeFingerprint d b i v).nestsPerBucket = d.nestsPerBucket := rfl

theorem store_bucketCount (d : cuckoo_filter_data_t) (b i v : Nat) :
    bucketCount (storeFingerprint d b i v) = bucketCount d := rfl

theorem store_victim (d : cuckoo_filter_data_t) (b i v : Nat) :
    (storeFingerprint d b i v).victim = d.victim := rfl

theorem store_wellFormed (d : cuckoo_filter_data_t) (b i v : Nat) (h : WellFormed d) :
    WellFormed (storeFingerprint d b i v) := by
  unfold WellFormed at h ⊢
  simpa [storeFingerprint, bucketCount] using h

theorem flat_lt (d : cuckoo_filter_data_t) (h : WellFormed d) (b i : Nat)
    (hb : b < bucketCount d) (hi : i < d.nestsPerBucket) :
    b * d.nestsPerBucket + i < d.bucketArray.length := by
  rw [h]
  calc b * d.nestsPerBucket + i < b * d.nestsPerBucket + d.nestsPerBucket :=
        Nat.add_lt_add_left hi _
    _ = (b + 1) * d.nestsPerBucket := by ring
    _ ≤ bucketCount d * d.nestsPerBucket := Nat.mul_le_mul_right _ hb

theorem flat_inj (n b i b' i' : Nat) (hi : i < n) (hi' : i' < n)
    (h : b * n + i = b' * n + i') : b = b' ∧ i = i' := by
  have hb : b = b' := by
    rcases Nat.lt_trichotomy b b' with hlt | heq | hgt
    · exfalso
      have : (b + 1) * n ≤ b' * n := Nat.mul_le_mul_right _ hlt
      have h2 : (b + 1) * n = b * n + n := by ring
      omega
    · exact heq
    · exfalso
      have : (b' + 1) * n ≤ b * n := Nat.mul_le_mul_right _ hgt
      have h2 : (b' + 1) * n = b' * n + n := by ring
      omega
  subst hb
  exact ⟨rfl, by omega⟩

theorem lookup_store_self (d : cuckoo_filter_data_t) (h : WellFormed d) (b i v : Nat)
    (hb : b < bucketCount d) (hi : i < d.nestsPerBucket) :
    lookupFingerprint (storeFingerprint d b i v) b i = v := by
  rw [lookup_store, if_pos ⟨rfl, flat_lt d h b i hb hi⟩]

theorem stored_store_self (d : cuckoo_filter_data_t) (h : WellFormed d) (b i v : Nat)
    (hb : b < bucketCount d) (hi : i < d.nestsPerBucket) :
    stored (storeFingerprint d b i v) v b :=
  ⟨i, hi, lookup_store_self d h b i v hb hi⟩

theorem contains_iff_stored (d : cuckoo_filter_data_t) (efp : cuckoo_extended_fingerprint_t) :
    contains d efp = true ↔
      stored d efp.fingerprint efp.bucketA ∨ stored d efp.fingerprint efp.bucketB := by
  rw [contains_eq_true_iff]
  constructor
  · rintro ⟨ii, hii, hA | hB⟩
    · exact Or.inl ⟨ii, hii, hA⟩
    · exact Or.inr ⟨ii, hii, hB⟩
  · rintro (⟨ii, hii, hA⟩ | ⟨ii, hii, hB⟩)
    · exact ⟨ii, hii, Or.inl hA⟩
    · exact ⟨ii, hii, Or.inr hB⟩

theorem kickedIndex_lt (E : Ext) (seed calls : Nat) (d : cuckoo_filter_data_t)
    (h : 1 ≤ d.nestsPerBucket) : kickedIndex E seed calls d < d.nestsPerBucket := by
  unfold kickedIndex toIndex
  exact lt_of_le_of_lt (Nat.mod_le _ _) (Nat.mod_lt _ h)

/-! ## No false negative after a successful add -/

theorem stored_store_of_slot (d : cuckoo_filter_data_t) (f b ii b' i' v : Nat)
    (hii : ii < d.nestsPerBucket) (hl : lookupFingerprint d b ii = f)
    (hne : b' * d.nestsPerBucket + i' ≠ b * d.nestsPerBucket + ii) :
    stored (storeFingerprint d b' i' v) f b := by
  refine ⟨ii, hii, ?_⟩
  rw [lookup_store, if_neg (fun h => hne h.1), hl]

theorem stored_store_of_ne (d : cuckoo_filter_data_t) (f b b' i' v : Nat)
    (hs : stored d f b) (hne : lookupFingerprint d b' i' ≠ f) :
    stored (storeFingerprint d b' i' v) f b := by
  obtain ⟨ii, hii, hl⟩ := hs
  refine stored_store_of_slot d f b ii b' i' v hii hl ?_
  intro heq
  apply hne
  rw [← hl]
  unfold lookupFingerprint
  rw [heq]

theorem tracked_add (d : cuckoo_filter_data_t) (e : cuckoo_extended_fingerprint_t)
    (f A B b ii : Nat) (hwf : WellFormed d) (hf : f ≠ 0)
    (hA : A < bucketCount d) (hB : B < bucketCount d)
    (hb : (e.fingerprint = f ∧ (e.bucketA = A ∨ e.bucketA = B) ∧ (e.bucketB = A ∨ e.bucketB = B))
      → b = A ∨ b = B)
    (hii : ii < d.nestsPerBucket) (h0 : lookupFingerprint d b ii = 0)
    (ht : Tracked d e f A B) :
    stored (storeFingerprint d b ii e.fingerprint) f A
      ∨ stored (storeFingerprint d b ii e.fingerprint) f B := by
  have hne : lookupFingerprint d b ii ≠ f := by
    rw [h0]
    exact fun h => hf h.symm
  rcases ht with (hsA | hsB) | he
  · exact Or.inl (stored_store_of_ne d f A b ii _ hsA hne)
  · exact Or.inr (stored_store_of_ne d f B b ii _ hsB hne)
  · have hfp := he.1
    rcases hb he with hbA | hbB
    · subst hbA
      rw [hfp]
      exact Or.inl (stored_store_self d hwf b ii f hA hii)
    · subst hbB
      rw [hfp]
      exact Or.inr (stored_store_self d hwf b ii f hB hii)

theorem tracked_kick (d : cuckoo_filter_data_t) (e : cuckoo_extended_fingerprint_t)
    (f A B X idx : Nat) (hwf : WellFormed d)
    (hA : A < bucketCount d) (hB : B < bucketCount d)
    (hA16 : A < 2 ^ 16) (hB16 : B < 2 ^ 16)
    (hAB : B = (A ^^^ f) % bucketCount d)
    (hX : X = e.bucketA ∨ X = e.bucketB) (hidx : idx < d.nestsPerBucket)
    (ht : Tracked d e f A B) :
    Tracked (storeFingerprint d X idx e.fingerprint)
      (getExtendedFingerprint (storeFingerprint d X idx e.fingerprint)
        (lookupFingerprint d X idx) X) f A B := by
  have hBA : (B ^^^ f) % bucketCount d = A := by
    rw [hAB]
    unfold bucketCount
    rw [xor_xor_mod_two_pow]
    exact Nat.mod_eq_of_lt hA
  have hkey : ∀ Y ii, (Y = A ∨ Y = B) → ii < d.nestsPerBucket → lookupFingerprint d Y ii = f →
      stored (storeFingerprint d X idx e.fingerprint) f Y ∨
        ((getExtendedFingerprint (storeFingerprint d X idx e.fingerprint)
          (lookupFingerprint d X idx) X).fingerprint = f ∧
        ((getExtendedFingerprint (storeFingerprint d X idx e.fingerprint)
          (lookupFingerprint d X idx) X).bucketA = A ∨
          (getExtendedFingerprint (storeFingerprint d X idx e.fingerprint)
          (lookupFingerprint d X idx) X).bucketA = B) ∧
        ((getExtendedFingerprint (storeFingerprint d X idx e.fingerprint)
          (lookupFingerprint d X idx) X).bucketB = A ∨
          (getExtendedFingerprint (storeFingerprint d X idx e.fingerprint)
          (lookupFingerprint d X idx) X).bucketB = B)) := by
    intro Y ii hY hii hl
    by_cases hflat : X * d.nestsPerBucket + idx = Y * d.nestsPerBucket + ii
    · right
      obtain ⟨hXY, hidxii⟩ := flat_inj d.nestsPerBucket X idx Y ii hidx hii hflat
      subst hXY
      subst hidxii
      simp only [getExtendedFingerprint, store_bucketCount]
      refine ⟨hl, ?_, ?_⟩
      · rcases hY with h | h
        · left; rw [h]; exact toIndex_of_lt hA16
        · right; rw [h]; exact toIndex_of_lt hB16
      · rcases hY with h | h
        · right
          rw [hl, h, ← hAB]
          exact toIndex_of_lt hB16
        · left
          rw [hl, h, hBA]
          exact toIndex_of_lt hA16
    · left
      exact stored_store_of_slot d f Y ii X idx _ hii hl hflat
  rcases ht with (⟨ii, hii, hl⟩ | ⟨ii, hii, hl⟩) | he
  · rcases hkey A ii (Or.inl rfl) hii hl with h | h
    · exact Or.inl (Or.inl h)
    · exact Or.inr h
  · rcases hkey B ii (Or.inr rfl) hii hl with h | h
    · exact Or.inl (Or.inr h)
    · exact Or.inr h
  · left
    have hXin : X = A ∨ X = B := by
      rcases hX with h | h
      · rw [h]; exact he.2.1
      · rw [h]; exact he.2.2
    rw [he.1]
    rcases hXin with h | h
    · subst h
      exact Or.inl (stored_store_self d hwf X idx f hA hidx)
    · subst h
      exact Or.inr (stored_store_self d hwf X idx f hB hidx)

theorem moveLoop_tracked (E : Ext) (seed f A B : Nat) (hf : f ≠ 0)
    (hA16 : A < 2 ^ 16) (hB16 : B < 2 ^ 16) :
    ∀ (n calls : Nat) (d : cuckoo_filter_data_t) (e : cuckoo_extended_fingerprint_t)
      (d' : cuckoo_filter_data_t),
      WellFormed d → 1 ≤ d.nestsPerBucket → A < bucketCount d → B < bucketCount d →
      B = (A ^^^ f) % bucketCount d → Tracked d e f A B →
      moveLoop E seed n calls d e = (true, d') →
      (stored d' f A ∨ stored d' f B) ∧ d'.nestsPerBucket = d.nestsPerBucket := by
  intro n
  induction n with
  | zero =>
    intro calls d e d' _ _ _ _ _ _ h
    simp [moveLoop] at h
  | succ n ih =>
    intro calls d e d' hwf hn hA hB hAB ht h
    rcases addFingerprintToBucket_cases d e.fingerprint e.bucketA with
      ⟨ii, hii, h0, hAdd⟩ | ⟨_, hAdd⟩
    · rw [moveLoop_succ_A E seed _ calls d _ e hAdd] at h
      have hd : d' = storeFingerprint d e.bucketA ii e.fingerprint := (Prod.mk.inj h).2.symm
      subst hd
      exact ⟨tracked_add d e f A B e.bucketA ii hwf hf hA hB (fun he => he.2.1) hii h0 ht, rfl⟩
    · rcases addFingerprintToBucket_cases d e.fingerprint e.bucketB with
        ⟨ii, hii, h0, hAddB⟩ | ⟨_, hAddB⟩
      · rw [moveLoop_succ_B E seed _ calls d _ _ e hAdd hAddB] at h
        have hd : d' = storeFingerprint d e.bucketB ii e.fingerprint := (Prod.mk.inj h).2.symm
        subst hd
        exact ⟨tracked_add d e f A B e.bucketB ii hwf hf hA hB (fun he => he.2.2) hii h0 ht, rfl⟩
      · rw [moveLoop_succ_kick E seed _ calls d _ _ e hAdd hAddB] at h
        have hX : kickedBucket E seed calls e = e.bucketA ∨ kickedBucket E seed calls e = e.bucketB := by
          unfold kickedBucket
          split
          · exact Or.inl rfl
          · exact Or.inr rfl
        have hidx := kickedIndex_lt E seed calls d hn
        have ht' := tracked_kick d e f A B _ _ hwf hA hB hA16 hB16 hAB hX hidx ht
        have r := ih (calls + 2) _ _ d' (store_wellFormed d _ _ _ hwf) hn hA hB hAB ht' h
        exact r

/-- C1: on a filter whose bucket array has bucketCount times nestsPerBucket entries, with at
least one nest per bucket, and for an extended fingerprint with nonzero fingerprint,
bucketA below the bucket count and bucketB = (bucketA XOR fingerprint) mod bucketCount:
if `add` returns true, `contains` returns true on the resulting filter. -/
theorem add_true_contains (E : Ext) (d d' : cuckoo_filter_data_t)
    (efp : cuckoo_extended_fingerprint_t) (hwf : WellFormed d) (hn : 1 ≤ d.nestsPerBucket)
    (hrep : Representable efp) (hf : efp.fingerprint ≠ 0) (hA : efp.bucketA < bucketCount d)
    (hB : efp.bucketB = (efp.bucketA ^^^ efp.fingerprint) % bucketCount d)
    (h : add E d efp = (true, d')) : contains d' efp = true := by
  unfold add at h
  by_cases hc : contains d efp = true
  · rw [if_pos hc] at h
    rw [← (Prod.mk.inj h).2]
    exact hc
  · rw [if_neg hc] at h
    by_cases hv : d.victim.fingerprint ≠ 0
    · rw [if_pos hv] at h
      simp at h
    · rw [if_neg hv] at h
      have hBlt : efp.bucketB < bucketCount d := by
        rw [hB]
        exact Nat.mod_lt _ (Nat.two_pow_pos _)
      have ht : Tracked d efp efp.fingerprint efp.bucketA efp.bucketB :=
        Or.inr ⟨rfl, Or.inl rfl, Or.inr rfl⟩
      have r := moveLoop_tracked E (filterhash E d) efp.fingerprint efp.bucketA efp.bucketB hf
        hrep.2.1 hrep.2.2 MAX_KICK_ATTEMPTS 0 d efp d' hwf hn hA hBlt hB ht h
      exact (contains_iff_stored d' efp).mpr r.1

theorem add_true_contains_witness :
    add sampleExt sampleFilter ⟨5, 1, 0⟩
        = (true, { sampleFilter with bucketArray := [7, 0, 5, 0] }) ∧
      contains { sampleFilter with bucketArray := [7, 0, 5, 0] } ⟨5, 1, 0⟩ = true :=
  ⟨by decide,
    add_true_contains sampleExt sampleFilter { sampleFilter with bucketArray := [7, 0, 5, 0] }
      ⟨5, 1, 0⟩ (by decide) (by decide) (by decide) (by decide) (by decide) (by decide)
      (by decide)⟩

/-! ## Distinct fingerprints stay distinct -/

theorem getD_ne_zero_lt (l : List Nat) (i : Nat) (h : l.getD i 0 ≠ 0) : i < l.length := by
  by_contra hlt
  apply h
  rw [List.getD_eq_default _ _ (Nat.le_of_not_lt hlt)]

theorem getD_mem (l : List Nat) (i : Nat) (h : i < l.length) : l.getD i 0 ∈ l := by
  rw [List.getD_eq_getElem _ _ h]
  exact List.getElem_mem h

theorem mem_getD (l : List Nat) (x : Nat) (h : x ∈ l) : ∃ i, i < l.length ∧ l.getD i 0 = x := by
  obtain ⟨i, hi, hx⟩ := List.getElem_of_mem h
  exact ⟨i, hi, by rw [List.getD_eq_getElem _ _ hi]; exact hx⟩

theorem uniq_set (l : List Nat) (i v : Nat) (hu : Uniq l) (hv : v = 0 ∨ v ∉ l) :
    Uniq (l.set i v) := by
  intro a b ha hab
  rw [getD_set_eq] at ha hab
  rw [getD_set_eq] at hab
  by_cases hca : i = a ∧ i < l.length
  · by_cases hcb : i = b ∧ i < l.length
    · rw [← hca.1, ← hcb.1]
    · exfalso
      rw [if_pos hca] at ha hab
      rw [if_neg hcb] at hab
      rcases hv with h0 | hnm
      · exact ha h0
      · apply hnm
        rw [hab]
        exact getD_mem l b (getD_ne_zero_lt l b (by rw [← hab]; exact ha))
  · rw [if_neg hca] at ha hab
    by_cases hcb : i = b ∧ i < l.length
    · exfalso
      rw [if_pos hcb] at hab
      rcases hv with h0 | hnm
      · exact ha (by rw [hab, h0])
      · apply hnm
        rw [← hab]
        exact getD_mem l a (getD_ne_zero_lt l a ha)
    · rw [if_neg hcb] at hab
      exact hu a b ha hab

theorem kicked_not_mem (l : List Nat) (i v : Nat) (hu : Uniq l) (hv : v = 0 ∨ v ∉ l) :
    l.getD i 0 = 0 ∨ l.getD i 0 ∉ l.set i v := by
  by_cases hg : l.getD i 0 = 0
  · exact Or.inl hg
  · right
    intro hmem
    obtain ⟨b, _, hget⟩ := mem_getD _ _ hmem
    rw [getD_set_eq] at hget
    have hi := getD_ne_zero_lt l i hg
    by_cases hc : i = b ∧ i < l.length
    · rw [if_pos hc] at hget
      rcases hv with h0 | hnm
      · exact hg (by rw [← hget, h0])
      · apply hnm
        rw [hget]
        exact getD_mem l i hi
    · rw [if_neg hc] at hget
      exact hc ⟨hu i b hg hget.symm, hi⟩

theorem mem_set_cases (l : List Nat) (i v x : Nat) (h : x ∈ l.set i v) : x = v ∨ x ∈ l := by
  obtain ⟨b, _, hget⟩ := mem_getD _ _ h
  rw [getD_set_eq] at hget
  split at hget
  · exact Or.inl hget.symm
  · right
    by_cases hb : b < l.length
    · rw [← hget]
      exact getD_mem l b hb
    · exfalso
      have hb' : b < (l.set i v).length := by assumption
      rw [List.length_set] at hb'
      exact hb hb'

/-- What the kick loop preserves: the nonzero fingerprints of the array are distinct and
satisfy `P`, as long as the entry in hand is new and satisfies `P`. -/
theorem moveLoop_uniq (E : Ext) (seed : Nat) (P : Nat → Prop) :
    ∀ (n calls : Nat) (d : cuckoo_filter_data_t) (e : cuckoo_extended_fingerprint_t),
      Uniq d.bucketArray → (e.fingerprint = 0 ∨ e.fingerprint ∉ d.bucketArray) →
      (∀ x, x ∈ d.bucketArray → x ≠ 0 → P x) → (e.fingerprint ≠ 0 → P e.fingerprint) →
      Uniq (moveLoop E seed n calls d e).2.bucketArray ∧
        (∀ x, x ∈ (moveLoop E seed n calls d e).2.bucketArray → x ≠ 0 → P x) ∧
        (moveLoop E seed n calls d e).2.nestsPerBucket = d.nestsPerBucket ∧
        (moveLoop E seed n calls d e).2.bucketCountLog2 = d.bucketCountLog2 := by
  intro n
  induction n with
  | zero =>
    intro calls d e hu _ hP _
    exact ⟨hu, hP, rfl, rfl⟩
  | succ n ih =>
    intro calls d e hu he hP hPe
    have hstore : ∀ b i, Uniq (storeFingerprint d b i e.fingerprint).bucketArray ∧
        (∀ x, x ∈ (storeFingerprint d b i e.fingerprint).bucketArray → x ≠ 0 → P x) := by
      intro b i
      refine ⟨uniq_set _ _ _ hu he, ?_⟩
      intro x hx hx0
      rcases mem_set_cases _ _ _ _ hx with h | h
      · rw [h]
        exact hPe (by rw [← h]; exact hx0)
      · exact hP x h hx0
    rcases addFingerprintToBucket_cases d e.fingerprint e.bucketA with
      ⟨ii, _, _, hAdd⟩ | ⟨_, hAdd⟩
    · rw [moveLoop_succ_A E seed _ calls d _ e hAdd]
      exact ⟨(hstore _ _).1, (hstore _ _).2, rfl, rfl⟩
    · rcases addFingerprintToBucket_cases d e.fingerprint e.bucketB with
        ⟨ii, _, _, hAddB⟩ | ⟨_, hAddB⟩
      · rw [moveLoop_succ_B E seed _ calls d _ _ e hAdd hAddB]
        exact ⟨(hstore _ _).1, (hstore _ _).2, rfl, rfl⟩
      · rw [moveLoop_succ_kick E seed _ calls d _ _ e hAdd hAddB]
        have hk := kicked_not_mem d.bucketArray
          (kickedBucket E seed calls e * d.nestsPerBucket + kickedIndex E seed calls d)
          e.fingerprint hu he
        have r := ih (calls + 2)
          (storeFingerprint d (kickedBucket E seed calls e) (kickedIndex E seed calls d)
            e.fingerprint)
          (getExtendedFingerprint
            (storeFingerprint d (kickedBucket E seed calls e) (kickedIndex E seed calls d)
              e.fingerprint)
            (lookupFingerprint d (kickedBucket E seed calls e) (kickedIndex E seed calls d))
            (kickedBucket E seed calls e))
          (hstore _ _).1 hk (hstore _ _).2
          (fun h0 => hP _ (getD_mem _ _ (getD_ne_zero_lt _ _ h0)) h0)
        exact r

theorem add_uniq (E : Ext) (P : Nat → Prop) (d : cuckoo_filter_data_t)
    (e : cuckoo_extended_fingerprint_t) (hu : Uniq d.bucketArray)
    (he : e.fingerprint = 0 ∨ e.fingerprint ∉ d.bucketArray)
    (hP : ∀ x, x ∈ d.bucketArray → x ≠ 0 → P x) (hPe : e.fingerprint ≠ 0 → P e.fingerprint) :
    Uniq (add E d e).2.bucketArray ∧
      (∀ x, x ∈ (add E d e).2.bucketArray → x ≠ 0 → P x) := by
  unfold add
  split
  · exact ⟨hu, hP⟩
  · split
    · exact ⟨hu, hP⟩
    · have r := moveLoop_uniq E (filterhash E d) P MAX_KICK_ATTEMPTS 0 d e hu he hP hPe
      exact ⟨r.1, r.2.1⟩

theorem addAll_uniq (E : Ext) :
    ∀ (efps : List cuckoo_extended_fingerprint_t) (d : cuckoo_filter_data_t) (seen : List Nat),
      Uniq d.bucketArray → (∀ x, x ∈ d.bucketArray → x ≠ 0 → x ∈ seen) →
      (efps.map (fun e => e.fingerprint)).Nodup →
      (∀ e, e ∈ efps → e.fingerprint ∉ seen) →
      Uniq (addAll E d efps).bucketArray := by
  intro efps
  induction efps with
  | nil =>
    intro d seen hu _ _ _
    exact hu
  | cons e rest ih =>
    intro d seen hu hseen hnd hfresh
    rw [List.map_cons, List.nodup_cons] at hnd
    have he : e.fingerprint = 0 ∨ e.fingerprint ∉ d.bucketArray := by
      by_cases h0 : e.fingerprint = 0
      · exact Or.inl h0
      · exact Or.inr (fun hmem => hfresh e (List.mem_cons_self _ _) (hseen _ hmem h0))
    have r := add_uniq E (fun x => x ∈ e.fingerprint :: seen) d e hu he
      (fun x hx hx0 => List.mem_cons_of_mem _ (hseen x hx hx0))
      (fun _ => List.mem_cons_self _ _)
    have key := ih (add E d e).2 (e.fingerprint :: seen) r.1 r.2 hnd.2 (by
      intro e' he' hmem
      rcases List.mem_cons.mp hmem with h | h
      · exact hnd.1 (by rw [← h]; exact List.mem_map_of_mem _ he')
      · exact hfresh e' (List.mem_cons_of_mem _ he') h)
    exact key

theorem init_bucketArray (bucketCount nestsPerBucket : Nat) :
    ∀ x, x ∈ (init bucketCount nestsPerBucket).bucketArray → x = 0 := by
  intro x hx
  simp only [init, clear] at hx
  exact (List.mem_replicate.mp hx).2

theorem init_uniq (bucketCount nestsPerBucket : Nat) :
    Uniq (init bucketCount nestsPerBucket).bucketArray := by
  intro i j hi _
  exfalso
  exact hi (init_bucketArray bucketCount nestsPerBucket _
    (getD_mem _ _ (getD_ne_zero_lt _ _ hi)))

/-! ## Removal -/

theorem frontLoad_fold (d0 : cuckoo_filter_data_t) (b ii : Nat) :
    ∀ (js : List Nat) (acc : cuckoo_filter_data_t), (∀ jj, jj ∈ js → ii < jj) →
      SlotUpdate d0 acc (b * d0.nestsPerBucket + ii) →
      SlotUpdate d0
        (js.foldl
          (fun acc jj =>
            if lookupFingerprint acc b jj ≠ 0 then
              storeFingerprint acc b ii (lookupFingerprint acc b jj)
            else acc)
          acc)
        (b * d0.nestsPerBucket + ii) := by
  intro js
  induction js with
  | nil =>
    intro acc _ h
    exact h
  | cons jj rest ih =>
    intro acc hjs h
    rw [List.foldl_cons]
    apply ih _ (fun j hj => hjs j (List.mem_cons_of_mem _ hj))
    split
    · obtain ⟨h1, h2, h3, v, hv, _⟩ := h
      refine ⟨h1, h2, h3, lookupFingerprint acc b jj, ?_, Or.inr ⟨b * d0.nestsPerBucket + jj, ?_, ?_⟩⟩
      · simp only [storeFingerprint, hv, h2, List.set_set]
      · have := hjs jj (List.mem_cons_self _ _)
        omega
      · have hlt := hjs jj (List.mem_cons_self _ _)
        unfold lookupFingerprint
        rw [hv, h2, getD_set_eq, if_neg]
        intro hc
        omega
    · exact h

theorem frontLoad_slotUpdate (d : cuckoo_filter_data_t) (b ii : Nat) :
    SlotUpdate d (frontLoad (storeFingerprint d b ii 0) b ii) (b * d.nestsPerBucket + ii) := by
  unfold frontLoad
  apply frontLoad_fold d b ii
  · intro jj hjj
    simpa using (List.mem_filter.mp hjj).2
  · exact ⟨rfl, rfl, rfl, 0, rfl, Or.inl rfl⟩

theorem removeFingerprintFromBucket_cases (d : cuckoo_filter_data_t) (fingerprint b : Nat) :
    (∃ ii, ii < d.nestsPerBucket ∧ lookupFingerprint d b ii = fingerprint ∧
        (∀ jj, jj < ii → lookupFingerprint d b jj ≠ fingerprint) ∧
        removeFingerprintFromBucket d fingerprint b
          = (true, frontLoad (storeFingerprint d b ii 0) b ii)) ∨
      ((∀ ii, ii < d.nestsPerBucket → lookupFingerprint d b ii ≠ fingerprint) ∧
        removeFingerprintFromBucket d fingerprint b = (false, d)) := by
  unfold removeFingerprintFromBucket
  cases hfind : (List.range d.nestsPerBucket).find?
      (fun ii => lookupFingerprint d b ii == fingerprint) with
  | some ii =>
    left
    refine ⟨ii, List.mem_range.mp (List.mem_of_find?_eq_some hfind), ?_, ?_, rfl⟩
    · simpa using List.find?_some hfind
    · intro jj hjj
      obtain ⟨as, bs, has, hbs⟩ := (List.find?_eq_some.mp hfind).2
      have hsorted : List.Pairwise (fun x y => x < y) (as ++ ii :: bs) := by
        rw [← has]
        exact List.pairwise_lt_range _
      have hmem : jj ∈ as ++ ii :: bs := by
        rw [← has]
        exact List.mem_range.mpr (lt_trans hjj (List.mem_range.mp (List.mem_of_find?_eq_some hfind)))
      rw [List.pairwise_append] at hsorted
      rcases List.mem_append.mp hmem with h | h
      · simpa using hbs jj h
      · exfalso
        rcases List.mem_cons.mp h with h | h
        · omega
        · have := (List.pairwise_cons.mp hsorted.2.1).1 jj h
          omega
  | none =>
    right
    refine ⟨?_, rfl⟩
    intro ii hii
    have := List.find?_eq_none.mp hfind ii (List.mem_range.mpr hii)
    simpa using this

theorem add_eq_of_victim (E : Ext) (d : cuckoo_filter_data_t)
    (e : cuckoo_extended_fingerprint_t) (hv : d.victim.fingerprint ≠ 0) :
    (add E d e).2 = d := by
  unfold add
  by_cases hc : contains d e = true
  · simp [hc]
  · simp [hc, hv]

theorem remove_eq_of_absent (E : Ext) (d : cuckoo_filter_data_t)
    (efp : cuckoo_extended_fingerprint_t)
    (hA : ∀ ii, ii < d.nestsPerBucket → lookupFingerprint d efp.bucketA ii ≠ efp.fingerprint)
    (hB : ∀ ii, ii < d.nestsPerBucket → lookupFingerprint d efp.bucketB ii ≠ efp.fingerprint) :
    remove E d efp = (false, d) := by
  have hrA := removeFingerprintFromBucket_absent d efp.fingerprint efp.bucketA hA
  have hrB := removeFingerprintFromBucket_absent d efp.fingerprint efp.bucketB hB
  simp [remove, hrA, hrB]

theorem remove_eq_of_found (E : Ext) (d d2 : cuckoo_filter_data_t)
    (efp : cuckoo_extended_fingerprint_t)
    (h : (if (removeFingerprintFromBucket d efp.fingerprint efp.bucketA).1 then
        removeFingerprintFromBucket d efp.fingerprint efp.bucketA
      else removeFingerprintFromBucket
        (removeFingerprintFromBucket d efp.fingerprint efp.bucketA).2
        efp.fingerprint efp.bucketB) = (true, d2)) :
    (remove E d efp).1 = true ∧
      ((remove E d efp).2 = d2 ∨ (remove E d efp).2 = { d2 with victim := noVictim }) := by
  unfold remove
  simp only [h]
  by_cases hv : d2.victim.fingerprint ≠ 0
  · have ha := add_eq_of_victim E d2 d2.victim hv
    by_cases hadd : (add E d2 d2.victim).1 = true
    · simp [hv, ha, hadd]
    · simp [hv, ha, hadd]
  · simp [hv]

theorem remove_cases (E : Ext) (d : cuckoo_filter_data_t)
    (efp : cuckoo_extended_fingerprint_t) :
    (contains d efp = false ∧ remove E d efp = (false, d)) ∨
      (∃ p d2, d.bucketArray.getD p 0 = efp.fingerprint ∧ SlotUpdate d d2 p ∧
        (remove E d efp).1 = true ∧
        ((remove E d efp).2 = d2 ∨ (remove E d efp).2 = { d2 with victim := noVictim })) := by
  rcases removeFingerprintFromBucket_cases d efp.fingerprint efp.bucketA with
    ⟨ii, _, hl, _, hr⟩ | ⟨hA, hr⟩
  · right
    refine ⟨efp.bucketA * d.nestsPerBucket + ii, _, hl, frontLoad_slotUpdate d efp.bucketA ii, ?_⟩
    apply remove_eq_of_found
    rw [hr]
    rfl
  · rcases removeFingerprintFromBucket_cases d efp.fingerprint efp.bucketB with
      ⟨ii, _, hl, _, hrB⟩ | ⟨hB, _⟩
    · right
      refine ⟨efp.bucketB * d.nestsPerBucket + ii, _, hl, frontLoad_slotUpdate d efp.bucketB ii, ?_⟩
      apply remove_eq_of_found
      rw [hr]
      simp only [Bool.false_eq_true, if_false]
      exact hrB
    · left
      exact ⟨(contains_eq_false_iff d efp).mpr (fun ii hii => ⟨hA ii hii, hB ii hii⟩),
        remove_eq_of_absent E d efp hA hB⟩

theorem not_mem_of_slotUpdate (d d2 : cuckoo_filter_data_t) (p f : Nat)
    (hu : Uniq d.bucketArray) (hf : f ≠ 0) (hp : d.bucketArray.getD p 0 = f)
    (h : SlotUpdate d d2 p) : f ∉ d2.bucketArray := by
  obtain ⟨_, _, _, v, hv, hgood⟩ := h
  intro hmem
  rw [hv] at hmem
  obtain ⟨b, _, hget⟩ := mem_getD _ _ hmem
  rw [getD_set_eq] at hget
  have hp0 : d.bucketArray.getD p 0 ≠ 0 := by rw [hp]; exact hf
  have hplt := getD_ne_zero_lt _ _ hp0
  by_cases hc : p = b ∧ p < d.bucketArray.length
  · rw [if_pos hc] at hget
    rcases hgood with h0 | ⟨q, hq, hvq⟩
    · exact hf (by rw [← hget, h0])
    · have : d.bucketArray.getD p 0 = d.bucketArray.getD q 0 := by rw [hp, ← hvq, hget]
      exact hq (hu p q hp0 this).symm
  · rw [if_neg hc] at hget
    exact hc ⟨hu p b hp0 (by rw [hp, hget]), hplt⟩

theorem contains_false_of_not_mem (d : cuckoo_filter_data_t)
    (efp : cuckoo_extended_fingerprint_t) (hf : efp.fingerprint ≠ 0)
    (h : efp.fingerprint ∉ d.bucketArray) : contains d efp = false := by
  rw [contains_eq_false_iff]
  intro ii _
  have key : ∀ b, lookupFingerprint d b ii ≠ efp.fingerprint := by
    intro b heq
    apply h
    have h0 : d.bucketArray.getD (b * d.nestsPerBucket + ii) 0 ≠ 0 := by
      unfold lookupFingerprint at heq
      rw [heq]
      exact hf
    rw [← heq]
    exact getD_mem _ _ (getD_ne_zero_lt _ _ h0)
  exact ⟨key _, key _⟩

theorem remove_not_contains (E : Ext) (d : cuckoo_filter_data_t)
    (efp : cuckoo_extended_fingerprint_t) (hu : Uniq d.bucketArray)
    (hf : efp.fingerprint ≠ 0) : contains (remove E d efp).2 efp = false := by
  rcases remove_cases E d efp with ⟨hc, hr⟩ | ⟨p, d2, hp, hs, _, hr⟩
  · rw [hr]
    exact hc
  · have hnm := not_mem_of_slotUpdate d d2 p efp.fingerprint hu hf hp hs
    rcases hr with h | h
    · rw [h]
      exact contains_false_of_not_mem d2 efp hf hnm
    · rw [h]
      exact contains_false_of_not_mem _ efp hf hnm

/-- The same for arbitrary extended fingerprints, as long as no fingerprint is added twice. -/
theorem remove_after_distinct_adds (E : Ext) (bucketCount nestsPerBucket : Nat)
    (efps : List cuckoo_extended_fingerprint_t) (k : cuckoo_extended_fingerprint_t)
    (hnodup : (efps.map (fun e => e.fingerprint)).Nodup) (hk : k.fingerprint ≠ 0) :
    contains (remove E (addAll E (init bucketCount nestsPerBucket) efps) k).2 k = false := by
  apply remove_not_contains E _ k _ hk
  apply addAll_uniq E efps (init bucketCount nestsPerBucket) [] (init_uniq _ _) _ hnodup
  · intro e _ hmem
    exact absurd hmem (List.not_mem_nil _)
  · intro x hx hx0
    exact absurd (init_bucketArray _ _ x hx) hx0

/-! ## Determinism -/

theorem le16_inj (x y : Nat) (hx : x < 2 ^ 16) (hy : y < 2 ^ 16) (h : le16 x = le16 y) :
    x = y := by
  simp only [le16, List.cons.injEq, and_true] at h
  omega

theorem flatMap_le16_inj :
    ∀ (l1 l2 : List Nat), (∀ x, x ∈ l1 → x < 2 ^ 16) → (∀ x, x ∈ l2 → x < 2 ^ 16) →
      l1.flatMap le16 = l2.flatMap le16 → l1 = l2 := by
  intro l1
  induction l1 with
  | nil =>
    intro l2 _ _ h
    cases l2 with
    | nil => rfl
    | cons b t => simp [le16] at h
  | cons a t ih =>
    intro l2 h1 h2 h
    cases l2 with
    | nil => simp [le16] at h
    | cons b t2 =>
      simp only [List.flatMap_cons, le16, List.cons_append, List.nil_append,
        List.cons.injEq] at h
      have hab : a = b := by
        have ha := h1 a (List.mem_cons_self _ _)
        have hb := h2 b (List.mem_cons_self _ _)
        omega
      rw [hab, ih t2 (fun x hx => h1 x (List.mem_cons_of_mem _ hx))
        (fun x hx => h2 x (List.mem_cons_of_mem _ hx)) h.2.2]

theorem serialize_inj (d1 d2 : cuckoo_filter_data_t) (h1 : FitsTypes d1) (h2 : FitsTypes d2)
    (h : serialize d1 = serialize d2) : d1 = d2 := by
  obtain ⟨hl1, hn1, ⟨hf1, hA1, hB1⟩, ha1⟩ := h1
  obtain ⟨hl2, hn2, ⟨hf2, hA2, hB2⟩, ha2⟩ := h2
  simp only [serialize, le16, List.cons_append, List.nil_append, List.cons.injEq] at h
  obtain ⟨e1, e2, e3, e4, e5, e6, e7, e8, e9⟩ := h
  have hlog : d1.bucketCountLog2 = d2.bucketCountLog2 := by omega
  have hnest : d1.nestsPerBucket = d2.nestsPerBucket := by omega
  have hf : d1.victim.fingerprint = d2.victim.fingerprint := by omega
  have hA : d1.victim.bucketA = d2.victim.bucketA := by omega
  have hB : d1.victim.bucketB = d2.victim.bucketB := by omega
  have harr := flatMap_le16_inj _ _ ha1 ha2 e9
  cases d1 with
  | mk l1 n1 v1 a1 =>
    cases d2 with
    | mk l2 n2 v2 a2 =>
      cases v1
      cases v2
      simp only at hlog hnest hf hA hB harr
      subst hlog hnest hf hA hB harr
      rfl

/-- C7: the generator of `move` is seeded with the CRC-16 of the serialized filter, and the
calls are functions of the serialized filter and the argument: two filters with the same
serialized bytes, in particular two filters initialised with the same arguments, given the
same sequence of add and remove calls return the same values and have the same serialized
bytes after every call. -/
theorem determinism (E : Ext) :
    (∀ d e, move E d e
        = moveLoop E (toFingerprint (E.crc16 (serialize d))) MAX_KICK_ATTEMPTS 0 d e) ∧
      (∀ bucketCount nestsPerBucket, FitsTypes (init bucketCount nestsPerBucket)) ∧
      (∀ d1 d2, FitsTypes d1 → FitsTypes d2 → serialize d1 = serialize d2 →
        ∀ calls, history E d1 calls = history E d2 calls) := by
  refine ⟨fun _ _ => rfl, ?_, ?_⟩
  · intro bucketCount nestsPerBucket
    have hv : Representable noVictim := by decide
    refine ⟨?_, ?_, hv, ?_⟩
    · exact Nat.mod_lt _ (by norm_num)
    · exact Nat.mod_lt _ (by norm_num)
    · intro x hx
      rw [init_bucketArray _ _ x hx]
      norm_num
  · intro d1 d2 h1 h2 h calls
    rw [serialize_inj d1 d2 h1 h2 h]

theorem determinism_witness :
    history sampleExt sampleFilter [Call.add ⟨5, 1, 0⟩, Call.remove ⟨7, 0, 1⟩]
      = history sampleExt (storeFingerprint (init 2 2) 0 0 7)
          [Call.add ⟨5, 1, 0⟩, Call.remove ⟨7, 0, 1⟩] :=
  (determinism sampleExt).2.2 sampleFilter (storeFingerprint (init 2 2) 0 0 7)
    (by decide) (by decide) (by decide) _

end CuckooFilter

namespace AssetFiltering

/-! ## Exclusion and throttling -/

theorem isAssetRejected_of_exclude {σ : Type} (X : Collaborators σ) (store : AssetFilterStore)
    (asset : scanned_device_t)
    (h : ∃ f, f ∈ store.filters ∧ f.exclude = true ∧ filterAcceptsScannedDevice X f asset = true) :
    isAssetRejected X store asset = true := by
  obtain ⟨f, hf, he, ha⟩ := h
  unfold isAssetRejected
  exact List.any_eq_true.mpr ⟨f, hf, by simp [he, ha]⟩

/-- C9: if some filter with the exclude flag accepts the scanned device, handleScannedDevice
changes nothing: no EVT_ASSET_ACCEPTED is dispatched, no forwarder is called and no accept
handler runs. -/
theorem exclude_filter_drops {σ : Type} (X : Collaborators σ) (store : AssetFilterStore)
    (w : World σ) (asset : scanned_device_t)
    (h : ∃ f, f ∈ store.filters ∧ f.exclude = true ∧ filterAcceptsScannedDevice X f asset = true) :
    handleScannedDevice X store w asset = w := by
  unfold handleScannedDevice
  split
  · rfl
  · rw [if_pos (isAssetRejected_of_exclude X store asset h)]

theorem exclude_filter_drops_witness :
    (handleScannedDevice (sampleCollaborators 0) sampleStore ⟨0, []⟩ sampleDevice).trace = [] ∧
      (handleScannedDevice (sampleCollaborators 0) sampleStore ⟨0, []⟩ sampleDevice).state = 0 := by
  rw [exclude_filter_drops (sampleCollaborators 0) sampleStore ⟨0, []⟩ sampleDevice
    ⟨sampleAssetFilter 1 true, List.mem_cons_self _ _, rfl, by decide⟩]
  exact ⟨rfl, rfl⟩

/-- C10: when the record returned by handleAcceptedAsset exists and is throttled, each of
the three accept handlers leaves the trace of calls as it was, so no forwarder and no
addThrottlingBump is called, and the state of the collaborators is the one handleAcceptedAsset
left. -/
theorem throttled_no_forward {σ : Type} (X : Collaborators σ) (w : World σ) (filterId : Nat)
    (filter : AssetFilter) (asset : scanned_device_t) (assetRecord : asset_record_t) (s : σ)
    (h : X.handleAcceptedAsset w.state asset (filterOutputResultAssetId X filter asset)
      = (some assetRecord, s))
    (ht : assetRecord.throttlingCountdown > 0) :
    handleAssetAcceptedMacOverMesh X w filterId filter asset = { state := s, trace := w.trace } ∧
      handleAssetAcceptedAssetIdOverMesh X w filterId filter asset
        = { state := s, trace := w.trace } ∧
      (X.BUILD_CLOSEST_CROWNSTONE_TRACKER = true →
        handleAssetAcceptedNearestAssetId X w filterId filter asset
          = { state := s, trace := w.trace }) ∧
      (X.BUILD_CLOSEST_CROWNSTONE_TRACKER = false →
        handleAssetAcceptedNearestAssetId X w filterId filter asset = w) := by
  have hthr : assetRecord.isThrottled = true := by
    simp [asset_record_t.isThrottled, ht]
  refine ⟨?_, ?_, ?_, ?_⟩
  · simp [handleAssetAcceptedMacOverMesh, h, hthr]
  · simp [handleAssetAcceptedAssetIdOverMesh, h, hthr]
  · intro hb
    simp [handleAssetAcceptedNearestAssetId, h, hthr, hb]
  · intro hb
    simp [handleAssetAcceptedNearestAssetId, hb]

theorem throttled_no_forward_witness :
    (handleAssetAcceptedMacOverMesh (sampleCollaborators 5) ⟨0, []⟩ 1
        (sampleAssetFilter 2 false) sampleDevice).trace = [] ∧
      (handleAssetAcceptedAssetIdOverMesh (sampleCollaborators 5) ⟨0, []⟩ 1
        (sampleAssetFilter 2 false) sampleDevice).trace = [] ∧
      (handleAssetAcceptedNearestAssetId (sampleCollaborators 5) ⟨0, []⟩ 1
        (sampleAssetFilter 2 false) sampleDevice).trace = [] := by
  have key := throttled_no_forward (sampleCollaborators 5) ⟨0, []⟩ 1 (sampleAssetFilter 2 false)
    sampleDevice ⟨⟨[0xAA, 0xBB, 0xCC]⟩, 5, 0⟩ 1 rfl (by decide)
  rw [key.1, key.2.1, key.2.2.1 rfl]
  exact ⟨rfl, rfl, rfl⟩

end AssetFiltering

namespace CuckooFilter

/-! ## The loop of `init` ends by its condition -/

theorem initLoop_fuel :
    ∀ (fuel bucketCount bucketCountLog2 extra : Nat), bucketCount < fuel →
      initLoop (fuel + extra) bucketCount bucketCountLog2
        = initLoop fuel bucketCount bucketCountLog2 := by
  intro fuel
  induction fuel with
  | zero =>
    intro b l extra h
    omega
  | succ fuel ih =>
    intro b l extra h
    have hshape : fuel + 1 + extra = (fuel + extra) + 1 := by omega
    rw [hshape, initLoop, initLoop]
    by_cases hb : b > 0
    · rw [if_pos hb, if_pos hb]
      apply ih
      rw [Nat.shiftRight_eq_div_pow]
      have : b / 2 ^ 1 ≤ b / 2 := by norm_num
      omega
    · rw [if_neg hb, if_neg hb]

/-! ## Every fingerprint sits in one of its own buckets -/

theorem flat_div (n X idx : Nat) (h : idx < n) : (X * n + idx) / n = X := by
  have hn : 0 < n := by omega
  rw [Nat.add_comm, Nat.add_mul_div_right _ _ hn, Nat.div_eq_of_lt h, Nat.zero_add]

theorem homeA_lt (E : Ext) (N f : Nat) : homeA E N f < 2 ^ 16 :=
  lt_of_le_of_lt (Nat.mod_le _ _) (hash_lt E _)

theorem homeB_lt (E : Ext) (N f : Nat) (hf : f < 2 ^ 16) : homeB E N f < 2 ^ 16 :=
  lt_of_le_of_lt (Nat.mod_le _ _) (Nat.xor_lt_two_pow (hash_lt E _) hf)

theorem homeA_xor (E : Ext) (k f : Nat) :
    (homeA E (2 ^ k) f ^^^ f) % 2 ^ k = homeB E (2 ^ k) f := by
  unfold homeA homeB
  exact xor_mod_two_pow_left _ _ _

theorem homeB_xor (E : Ext) (k f : Nat) :
    (homeB E (2 ^ k) f ^^^ f) % 2 ^ k = homeA E (2 ^ k) f := by
  unfold homeA homeB
  exact xor_xor_mod_two_pow _ _ _

theorem homed_set (E : Ext) (N n : Nat) (arr : List Nat) (X idx g : Nat)
    (h : Homed E N n arr) (hidx : idx < n)
    (hg : g ≠ 0 → g < 2 ^ 16 ∧ (X = homeA E N g ∨ X = homeB E N g)) :
    Homed E N n (arr.set (X * n + idx) g) := by
  intro p hp
  rw [getD_set_eq] at hp ⊢
  by_cases hc : X * n + idx = p ∧ X * n + idx < arr.length
  · rw [if_pos hc] at hp ⊢
    rw [← hc.1, flat_div n X idx hidx]
    exact hg hp
  · rw [if_neg hc] at hp ⊢
    exact h p hp

theorem moveLoop_fields (E : Ext) (seed : Nat) :
    ∀ (n calls : Nat) (d : cuckoo_filter_data_t) (e : cuckoo_extended_fingerprint_t),
      (moveLoop E seed n calls d e).2.nestsPerBucket = d.nestsPerBucket ∧
        (moveLoop E seed n calls d e).2.bucketCountLog2 = d.bucketCountLog2 ∧
        (moveLoop E seed n calls d e).2.bucketArray.length = d.bucketArray.length := by
  intro n
  induction n with
  | zero =>
    intro calls d e
    exact ⟨rfl, rfl, rfl⟩
  | succ n ih =>
    intro calls d e
    rcases addFingerprintToBucket_cases d e.fingerprint e.bucketA with
      ⟨ii, _, _, hAdd⟩ | ⟨_, hAdd⟩
    · rw [moveLoop_succ_A E seed _ calls d _ e hAdd]
      exact ⟨rfl, rfl, by simp [storeFingerprint]⟩
    · rcases addFingerprintToBucket_cases d e.fingerprint e.bucketB with
        ⟨ii, _, _, hAddB⟩ | ⟨_, hAddB⟩
      · rw [moveLoop_succ_B E seed _ calls d _ _ e hAdd hAddB]
        exact ⟨rfl, rfl, by simp [storeFingerprint]⟩
      · rw [moveLoop_succ_kick E seed _ calls d _ _ e hAdd hAddB]
        have r := ih (calls + 2)
          (storeFingerprint d (kickedBucket E seed calls e) (kickedIndex E seed calls d)
            e.fingerprint)
          (getExtendedFingerprint
            (storeFingerprint d (kickedBucket E seed calls e) (kickedIndex E seed calls d)
              e.fingerprint)
            (lookupFingerprint d (kickedBucket E seed calls e) (kickedIndex E seed calls d))
            (kickedBucket E seed calls e))
        exact ⟨r.1, r.2.1, by rw [r.2.2]; simp [storeFingerprint]⟩

theorem entryHomed_zero_or_not_mem (E : Ext) (N : Nat) (arr : List Nat)
    (e : cuckoo_extended_fingerprint_t) (h : EntryHomed E N arr e) :
    e.fingerprint = 0 ∨ e.fingerprint ∉ arr := by
  by_cases h0 : e.fingerprint = 0
  · exact Or.inl h0
  · exact Or.inr (h h0).2.1

theorem kick_entryHomed (E : Ext) (d3 : cuckoo_filter_data_t) (arr : List Nat) (X g : Nat)
    (h16 : g < 2 ^ 16) (hnot : g ∉ arr)
    (hhome : X = homeA E (bucketCount d3) g ∨ X = homeB E (bucketCount d3) g) :
    EntryHomed E (bucketCount d3) arr (getExtendedFingerprint d3 g X) := by
  intro _
  refine ⟨h16, hnot, ?_, ?_⟩
  · simp only [getExtendedFingerprint]
    rcases hhome with hX | hX
    · left
      rw [hX]
      exact toIndex_of_lt (homeA_lt E _ _)
    · right
      rw [hX]
      exact toIndex_of_lt (homeB_lt E _ _ h16)
  · simp only [getExtendedFingerprint]
    rcases hhome with hX | hX
    · right
      rw [hX]
      unfold bucketCount
      rw [homeA_xor]
      exact toIndex_of_lt (homeB_lt E _ _ h16)
    · left
      rw [hX]
      unfold bucketCount
      rw [homeB_xor]
      exact toIndex_of_lt (homeA_lt E _ _)

theorem moveLoop_homed (E : Ext) (seed : Nat) :
    ∀ (n calls : Nat) (d : cuckoo_filter_data_t) (e : cuckoo_extended_fingerprint_t),
      1 ≤ d.nestsPerBucket → Uniq d.bucketArray →
      Homed E (bucketCount d) d.nestsPerBucket d.bucketArray →
      EntryHomed E (bucketCount d) d.bucketArray e →
      Uniq (moveLoop E seed n calls d e).2.bucketArray ∧
        Homed E (bucketCount d) d.nestsPerBucket (moveLoop E seed n calls d e).2.bucketArray := by
  intro n
  induction n with
  | zero =>
    intro calls d e _ hu hh _
    exact ⟨hu, hh⟩
  | succ n ih =>
    intro calls d e hn hu hh he
    have hnm := entryHomed_zero_or_not_mem E _ _ e he
    have hstore : ∀ b i, (b = e.bucketA ∨ b = e.bucketB) → i < d.nestsPerBucket →
        Uniq (storeFingerprint d b i e.fingerprint).bucketArray ∧
          Homed E (bucketCount d) d.nestsPerBucket
            (storeFingerprint d b i e.fingerprint).bucketArray := by
      intro b i hb hi
      refine ⟨uniq_set _ _ _ hu hnm, homed_set E _ _ _ b i _ hh hi ?_⟩
      intro h0
      refine ⟨(he h0).1, ?_⟩
      rcases hb with hb | hb
      · rw [hb]; exact (he h0).2.2.1
      · rw [hb]; exact (he h0).2.2.2
    rcases addFingerprintToBucket_cases d e.fingerprint e.bucketA with
      ⟨ii, hii, _, hAdd⟩ | ⟨_, hAdd⟩
    · rw [moveLoop_succ_A E seed _ calls d _ e hAdd]
      exact hstore _ _ (Or.inl rfl) hii
    · rcases addFingerprintToBucket_cases d e.fingerprint e.bucketB with
        ⟨ii, hii, _, hAddB⟩ | ⟨_, hAddB⟩
      · rw [moveLoop_succ_B E seed _ calls d _ _ e hAdd hAddB]
        exact hstore _ _ (Or.inr rfl) hii
      · rw [moveLoop_succ_kick E seed _ calls d _ _ e hAdd hAddB]
        have hX : kickedBucket E seed calls e = e.bucketA
            ∨ kickedBucket E seed calls e = e.bucketB := by
          unfold kickedBucket
          split
          · exact Or.inl rfl
          · exact Or.inr rfl
        have hidx := kickedIndex_lt E seed calls d hn
        have hs := hstore _ _ hX hidx
        have hk := kicked_not_mem d.bucketArray
          (kickedBucket E seed calls e * d.nestsPerBucket + kickedIndex E seed calls d)
          e.fingerprint hu hnm
        have hentry : EntryHomed E (bucketCount d)
            (storeFingerprint d (kickedBucket E seed calls e) (kickedIndex E seed calls d)
              e.fingerprint).bucketArray
            (getExtendedFingerprint
              (storeFingerprint d (kickedBucket E seed calls e) (kickedIndex E seed calls d)
                e.fingerprint)
              (lookupFingerprint d (kickedBucket E seed calls e) (kickedIndex E seed calls d))
              (kickedBucket E seed calls e)) := by
          intro h0
          have h0' : d.bucketArray.getD
              (kickedBucket E seed calls e * d.nestsPerBucket + kickedIndex E seed calls d) 0
                ≠ 0 := h0
          obtain ⟨h16, hhome⟩ := hh _ h0'
          rw [flat_div _ _ _ hidx] at hhome
          have hnot : d.bucketArray.getD
              (kickedBucket E seed calls e * d.nestsPerBucket + kickedIndex E seed calls d) 0
                ∉ (storeFingerprint d (kickedBucket E seed calls e)
                  (kickedIndex E seed calls d) e.fingerprint).bucketArray := by
            rcases hk with hk | hk
            · exact absurd hk h0'
            · exact hk
          exact kick_entryHomed E
            (storeFingerprint d (kickedBucket E seed calls e) (kickedIndex E seed calls d)
              e.fingerprint) _ _ _ h16 hnot hhome h0
        have r := ih (calls + 2)
          (storeFingerprint d (kickedBucket E seed calls e) (kickedIndex E seed calls d)
            e.fingerprint) _ hn hs.1 hs.2 hentry
        exact r

theorem add_fields (E : Ext) (d : cuckoo_filter_data_t) (e : cuckoo_extended_fingerprint_t) :
    (add E d e).2.nestsPerBucket = d.nestsPerBucket ∧
      (add E d e).2.bucketCountLog2 = d.bucketCountLog2 := by
  unfold add
  split
  · exact ⟨rfl, rfl⟩
  · split
    · exact ⟨rfl, rfl⟩
    · have r := moveLoop_fields E (filterhash E d) MAX_KICK_ATTEMPTS 0 d e
      exact ⟨r.1, r.2.1⟩

theorem remove_fields (E : Ext) (d : cuckoo_filter_data_t) (e : cuckoo_extended_fingerprint_t) :
    (remove E d e).2.nestsPerBucket = d.nestsPerBucket ∧
      (remove E d e).2.bucketCountLog2 = d.bucketCountLog2 := by
  rcases remove_cases E d e with ⟨_, hr⟩ | ⟨p, d2, _, hs, _, hr⟩
  · rw [hr]
    exact ⟨rfl, rfl⟩
  · rcases hr with h | h
    · rw [h]
      exact ⟨hs.2.1, hs.1⟩
    · rw [h]
      exact ⟨hs.2.1, hs.1⟩

theorem not_mem_of_contains_false (E : Ext) (d : cuckoo_filter_data_t) (f : Nat)
    (hn : 1 ≤ d.nestsPerBucket)
    (hh : Homed E (bucketCount d) d.nestsPerBucket d.bucketArray) (hf : f ≠ 0)
    (hc : contains d ⟨f, homeA E (bucketCount d) f, homeB E (bucketCount d) f⟩ = false) :
    f ∉ d.bucketArray := by
  intro hmem
  obtain ⟨p, _, hp⟩ := mem_getD _ _ hmem
  have hp0 : d.bucketArray.getD p 0 ≠ 0 := by rw [hp]; exact hf
  have hhome := (hh p hp0).2
  rw [hp] at hhome
  have hlook : lookupFingerprint d (p / d.nestsPerBucket) (p % d.nestsPerBucket) = f := by
    unfold lookupFingerprint
    rw [Nat.mul_comm, Nat.div_add_mod]
    exact hp
  have hmod : p % d.nestsPerBucket < d.nestsPerBucket := Nat.mod_lt _ hn
  have := (contains_eq_false_iff d _).mp hc (p % d.nestsPerBucket) hmod
  rcases hhome with h | h
  · rw [h] at hlook
    exact this.1 hlook
  · rw [h] at hlook
    exact this.2 hlook

theorem getExtendedFingerprintOfKey_eq (E : Ext) (d : cuckoo_filter_data_t) (key : List Nat) :
    getExtendedFingerprintOfKey E d key
      = ⟨hash E key, homeA E (bucketCount d) (hash E key), homeB E (bucketCount d) (hash E key)⟩ := by
  have hf := hash_lt E key
  simp only [getExtendedFingerprintOfKey, homeA, homeB]
  rw [toIndex_mod_of_lt (hash_lt E _), toIndex_mod_of_lt (Nat.xor_lt_two_pow (hash_lt E _) hf)]

theorem getExtendedFingerprintOfKey_congr (E : Ext) (d1 d2 : cuckoo_filter_data_t)
    (key : List Nat) (h : d1.bucketCountLog2 = d2.bucketCountLog2) :
    getExtendedFingerprintOfKey E d1 key = getExtendedFingerprintOfKey E d2 key := by
  simp only [getExtendedFingerprintOfKey, bucketCount, h]

theorem addKey_settled (E : Ext) (d : cuckoo_filter_data_t) (key : List Nat)
    (hn : 1 ≤ d.nestsPerBucket) (hs : Settled E d) : Settled E (addKey E d key).2 := by
  have hfields := add_fields E d (getExtendedFingerprintOfKey E d key)
  unfold Settled addKey
  unfold bucketCount
  rw [hfields.1, hfields.2]
  unfold add
  by_cases hc : contains d (getExtendedFingerprintOfKey E d key) = true
  · rw [if_pos hc]
    exact hs
  · rw [if_neg hc]
    by_cases hv : d.victim.fingerprint ≠ 0
    · rw [if_pos hv]
      exact hs
    · rw [if_neg hv]
      have hc' : contains d (getExtendedFingerprintOfKey E d key) = false := by simpa using hc
      rw [getExtendedFingerprintOfKey_eq] at hc' ⊢
      have hentry : EntryHomed E (bucketCount d) d.bucketArray
          ⟨hash E key, homeA E (bucketCount d) (hash E key),
            homeB E (bucketCount d) (hash E key)⟩ := by
        intro h0
        exact ⟨hash_lt E key, not_mem_of_contains_false E d _ hn hs.2 h0 hc',
          Or.inl rfl, Or.inr rfl⟩
      exact moveLoop_homed E (filterhash E d) MAX_KICK_ATTEMPTS 0 d _ hn hs.1 hs.2 hentry

theorem addKeys_settled (E : Ext) :
    ∀ (keys : List (List Nat)) (d : cuckoo_filter_data_t), 1 ≤ d.nestsPerBucket → Settled E d →
      Settled E (addKeys E d keys) := by
  intro keys
  induction keys with
  | nil =>
    intro d _ hs
    exact hs
  | cons key rest ih =>
    intro d hn hs
    have hfields := add_fields E d (getExtendedFingerprintOfKey E d key)
    exact ih (addKey E d key).2 (by unfold addKey; rw [hfields.1]; exact hn)
      (addKey_settled E d key hn hs)

theorem addKeys_fields (E : Ext) :
    ∀ (keys : List (List Nat)) (d : cuckoo_filter_data_t),
      (addKeys E d keys).nestsPerBucket = d.nestsPerBucket ∧
        (addKeys E d keys).bucketCountLog2 = d.bucketCountLog2 := by
  intro keys
  induction keys with
  | nil =>
    intro d
    exact ⟨rfl, rfl⟩
  | cons key rest ih =>
    intro d
    have hfields := add_fields E d (getExtendedFingerprintOfKey E d key)
    have r := ih (addKey E d key).2
    exact ⟨r.1.trans hfields.1, r.2.trans hfields.2⟩

theorem init_settled (E : Ext) (bucketCount nestsPerBucket : Nat) :
    Settled E (init bucketCount nestsPerBucket) := by
  refine ⟨init_uniq _ _, ?_⟩
  intro p hp
  exfalso
  exact hp (init_bucketArray bucketCount nestsPerBucket _
    (getD_mem _ _ (getD_ne_zero_lt _ _ hp)))

theorem contains_of_no_nests (d : cuckoo_filter_data_t) (e : cuckoo_extended_fingerprint_t)
    (h : d.nestsPerBucket = 0) : contains d e = false := by
  rw [contains_eq_false_iff]
  intro ii hii
  omega

/-- C2: on a filter reached from `init` by any sequence of `add(key, keyLen)` calls, repeated
keys and keys with equal fingerprints included, for every key whose fingerprint is nonzero:
after `remove(key, keyLen)`, `contains(key, keyLen)` returns false, however often the key
was inserted. -/
theorem remove_then_contains_false (E : Ext) (bucketCount nestsPerBucket : Nat)
    (keys : List (List Nat)) (k : List Nat) (hk : hash E k ≠ 0) :
    containsKey E (removeKey E (addKeys E (init bucketCount nestsPerBucket) keys) k).2 k
      = false := by
  have hrf := remove_fields E (addKeys E (init bucketCount nestsPerBucket) keys)
    (getExtendedFingerprintOfKey E (addKeys E (init bucketCount nestsPerBucket) keys) k)
  have haf := addKeys_fields E keys (init bucketCount nestsPerBucket)
  by_cases hn : (init bucketCount nestsPerBucket).nestsPerBucket = 0
  · apply contains_of_no_nests
    unfold removeKey
    rw [hrf.1, haf.1]
    exact hn
  · have hs := addKeys_settled E keys (init bucketCount nestsPerBucket)
      (Nat.one_le_iff_ne_zero.mpr hn) (init_settled E _ _)
    have hefp : getExtendedFingerprintOfKey E
        (removeKey E (addKeys E (init bucketCount nestsPerBucket) keys) k).2 k
        = getExtendedFingerprintOfKey E (addKeys E (init bucketCount nestsPerBucket) keys) k :=
      getExtendedFingerprintOfKey_congr E _ _ k hrf.2
    unfold containsKey
    rw [hefp]
    exact remove_not_contains E _ _ hs.1 hk

theorem remove_then_contains_false_witness :
    containsKey sampleExt
      (removeKey sampleExt (addKeys sampleExt (init 2 2) [[5], [6], [5], [3]]) [6]).2 [6]
      = false :=
  remove_then_contains_false sampleExt 2 2 [[5], [6], [5], [3]] [6] (by decide)

end CuckooFilter

namespace Microapp

/-! ## The ack of an interrupt -/

/-- C15: on the ack in the outgoing header, handleAck does the following. Success adds one to
emptyInterruptSlots, stopping at 0xFF; ErrBusy sets emptyInterruptSlots to 0; InProgress and
NoRequest change nothing and return true. -/
theorem handleAck_slots {γ σ : Type} (s : System γ σ) :
    (ack s.output = CS_MICROAPP_SDK_ACK_SUCCESS →
      s.controller._emptySoftInterruptSlots ≤ 0xFF →
      (handleAck s).1 = false ∧
        (handleAck s).2.controller._emptySoftInterruptSlots
          = min (s.controller._emptySoftInterruptSlots + 1) 0xFF) ∧
    (ack s.output = CS_MICROAPP_SDK_ACK_ERR_BUSY →
      (handleAck s).1 = false ∧ (handleAck s).2.controller._emptySoftInterruptSlots = 0) ∧
    (ack s.output = CS_MICROAPP_SDK_ACK_IN_PROGRESS ∨ ack s.output = CS_MICROAPP_SDK_ACK_NO_REQUEST →
      handleAck s = (true, s)) := by
  refine ⟨?_, ?_, ?_⟩
  · intro h hle
    simp only [handleAck, h, CS_MICROAPP_SDK_ACK_SUCCESS, CS_MICROAPP_SDK_ACK_NO_REQUEST,
      CS_MICROAPP_SDK_ACK_IN_PROGRESS, CS_MICROAPP_SDK_ACK_ERR_BUSY, incrementEmptySoftInterruptSlots]
    by_cases hff : s.controller._emptySoftInterruptSlots = 0xFF
    · simp [hff]
    · simp [hff]
      omega
  · intro h
    simp [handleAck, h, CS_MICROAPP_SDK_ACK_NO_REQUEST, CS_MICROAPP_SDK_ACK_IN_PROGRESS,
      CS_MICROAPP_SDK_ACK_ERR_BUSY, setEmptySoftInterruptSlots]
  · rintro (h | h)
    · simp [handleAck, h, CS_MICROAPP_SDK_ACK_NO_REQUEST, CS_MICROAPP_SDK_ACK_IN_PROGRESS]
    · simp [handleAck, h]

theorem handleAck_slots_witness :
    (handleAck { sampleSystem 0 [] with output := [0, 0] }).2.controller._emptySoftInterruptSlots
        = 2 ∧
      (handleAck { sampleSystem 0 [] with output := [0, 9] }).2.controller._emptySoftInterruptSlots
        = 0 ∧
      (handleAck { sampleSystem 0 [] with output := [0, 3] }).1 = true :=
  ⟨((handleAck_slots { sampleSystem 0 [] with output := [0, 0] }).1 (by decide) (by decide)).2,
    ((handleAck_slots { sampleSystem 0 [] with output := [0, 9] }).2.1 (by decide)).2,
    by rw [(handleAck_slots { sampleSystem 0 [] with output := [0, 3] }).2.2
      (Or.inl (by decide))]⟩

end Microapp

namespace Microapp

/-! ## Flash boundaries -/

theorem checkFlashBoundaries_success_iff (K : Constants) (appIndex address : Nat)
    (hsize : K.microappFlashSection_start + K.microappFlashSection_size < 2 ^ 32)
    (happ : appIndex < K.g_MICROAPP_COUNT) :
    checkFlashBoundaries K appIndex address = cs_ret_code_t.ERR_SUCCESS ↔
      K.microappFlashSection_start
          + K.microappFlashSection_size / K.g_MICROAPP_COUNT * appIndex ≤ address ∧
        address ≤ K.microappFlashSection_start
          + K.microappFlashSection_size / K.g_MICROAPP_COUNT * appIndex
          + K.microappFlashSection_size / K.g_MICROAPP_COUNT := by
  have hpos : 0 < K.g_MICROAPP_COUNT := by omega
  have hmul : K.microappFlashSection_size / K.g_MICROAPP_COUNT * (appIndex + 1)
      ≤ K.microappFlashSection_size := by
    calc K.microappFlashSection_size / K.g_MICROAPP_COUNT * (appIndex + 1)
        ≤ K.microappFlashSection_size / K.g_MICROAPP_COUNT * K.g_MICROAPP_COUNT :=
          Nat.mul_le_mul_left _ happ
      _ ≤ K.microappFlashSection_size := Nat.div_mul_le_self _ _
  have hexp : K.microappFlashSection_size / K.g_MICROAPP_COUNT * (appIndex + 1)
      = K.microappFlashSection_size / K.g_MICROAPP_COUNT * appIndex
        + K.microappFlashSection_size / K.g_MICROAPP_COUNT := by ring
  have h1 : (K.microappFlashSection_size / K.g_MICROAPP_COUNT) % 2 ^ 32
      = K.microappFlashSection_size / K.g_MICROAPP_COUNT := Nat.mod_eq_of_lt (by omega)
  have h2 : (K.microappFlashSection_size / K.g_MICROAPP_COUNT * appIndex) % 2 ^ 32
      = K.microappFlashSection_size / K.g_MICROAPP_COUNT * appIndex :=
    Nat.mod_eq_of_lt (by omega)
  have h3 : (K.microappFlashSection_start
      + K.microappFlashSection_size / K.g_MICROAPP_COUNT * appIndex) % 2 ^ 32
      = K.microappFlashSection_start
        + K.microappFlashSection_size / K.g_MICROAPP_COUNT * appIndex :=
    Nat.mod_eq_of_lt (by omega)
  have h4 : (K.microappFlashSection_start
      + K.microappFlashSection_size / K.g_MICROAPP_COUNT * appIndex
      + K.microappFlashSection_size / K.g_MICROAPP_COUNT) % 2 ^ 32
      = K.microappFlashSection_start
        + K.microappFlashSection_size / K.g_MICROAPP_COUNT * appIndex
        + K.microappFlashSection_size / K.g_MICROAPP_COUNT :=
    Nat.mod_eq_of_lt (by omega)
  unfold checkFlashBoundaries
  rw [if_neg (by omega)]
  simp only [h1, h2, h3, h4]
  constructor
  · intro h
    split at h
    · exact absurd h (by decide)
    · split at h
      · exact absurd h (by decide)
      · omega
  · rintro ⟨hlo, hhi⟩
    rw [if_neg (by omega), if_neg (by omega)]

/-- C17, the code on a failing input: with one microapp in the flash section of 0x4000 bytes
at 0x69000, the slot of app 0 is 0x69000 up to but not including 0x6D000; the address 0x6D000
is not below the end of the slot, yet checkFlashBoundaries returns ERR_SUCCESS and startMicroapp
initialises the coroutine with it. -/
theorem checkFlashBoundaries_end_of_slot :
    checkFlashBoundaries (sampleConstants true) 0 0x6D000 = cs_ret_code_t.ERR_SUCCESS ∧
      ¬ (0x6D000 < (sampleConstants true).microappFlashSection_start
        + (sampleConstants true).microappFlashSection_size
          / (sampleConstants true).g_MICROAPP_COUNT) ∧
      (startMicroapp (sampleConstants true)
          { sampleEnv with getStartInstructionAddress := fun _ => 0x6D000 }
          (sampleSystem 0 []) 0).trace
        = [Effect.initMemory 0, Effect.initCoroutine 0x6D000] := by
  decide

/-! ## The operating state in the IPC page -/

/-- C19: with the IPC page as a store, callMicroapp resumes the guest while the page says
that app 0 is running, and when the guest has yielded the page says not running on return;
getOperatingState(0) returns what setOperatingState(0, state) wrote, and NotRunning when the
page cannot be read or has another major version. -/
theorem operatingState_persisted {γ σ : Type} (K : Constants) (X : Env γ σ) (s : System γ σ) :
    (∃ page, (callMicroapp K X s).trace
        = s.trace ++ [Effect.resumeCoroutine (some page) s.output] ∧
      getOperatingState K { s with ipcRam := some page } 0
        = MicroappOperatingState.CS_MICROAPP_RUNNING) ∧
    ((X.resume s.guest s.input s.output).yielded = true →
      getOperatingState K (callMicroapp K X s) 0
        = MicroappOperatingState.CS_MICROAPP_NOT_RUNNING) ∧
    (∀ state, getOperatingState K (setOperatingState K s 0 state) 0 = state) ∧
    (s.ipcRam = none →
      getOperatingState K s 0 = MicroappOperatingState.CS_MICROAPP_NOT_RUNNING) ∧
    (∀ page, s.ipcRam = some page →
      page.ipcDataMajor ≠ K.BLUENET_IPC_BLUENET_REBOOT_DATA_MAJOR →
      getOperatingState K s 0 = MicroappOperatingState.CS_MICROAPP_NOT_RUNNING) := by
  refine ⟨?_, ?_, ?_, ?_, ?_⟩
  · refine ⟨⟨K.BLUENET_IPC_BLUENET_REBOOT_DATA_MAJOR, K.BLUENET_IPC_BLUENET_REBOOT_DATA_MINOR,
      [1]⟩, ?_, ?_⟩
    · by_cases hy : (X.resume s.guest s.input s.output).yielded = true
      · simp [callMicroapp, resumeCoroutine, setOperatingState, MAX_MICROAPPS, hy]
      · simp [callMicroapp, resumeCoroutine, setOperatingState, MAX_MICROAPPS, hy]
    · simp [getOperatingState]
  · intro hy
    simp [callMicroapp, resumeCoroutine, setOperatingState, getOperatingState, hy, MAX_MICROAPPS]
  · intro state
    cases state <;> simp [setOperatingState, getOperatingState, MAX_MICROAPPS]
  · intro h
    simp [getOperatingState, h]
  · intro page h hmajor
    simp [getOperatingState, h, hmajor]

theorem operatingState_persisted_witness :
    getOperatingState (sampleConstants true)
        (callMicroapp (sampleConstants true) sampleEnv (sampleSystem 0 [])) 0
      = MicroappOperatingState.CS_MICROAPP_NOT_RUNNING ∧
    getOperatingState (sampleConstants true) (sampleSystem 0 []) 0
      = MicroappOperatingState.CS_MICROAPP_NOT_RUNNING ∧
    getOperatingState (sampleConstants true)
        { sampleSystem 0 [] with ipcRam := some ⟨2, 0, [1]⟩ } 0
      = MicroappOperatingState.CS_MICROAPP_NOT_RUNNING :=
  ⟨(operatingState_persisted (sampleConstants true) sampleEnv (sampleSystem 0 [])).2.1 rfl,
    (operatingState_persisted (sampleConstants true) sampleEnv (sampleSystem 0 [])).2.2.2.1 rfl,
    (operatingState_persisted (sampleConstants true) sampleEnv
      { sampleSystem 0 [] with ipcRam := some ⟨2, 0, [1]⟩ }).2.2.2.2 ⟨2, 0, [1]⟩ rfl
      (by decide)⟩

end Microapp

namespace Microapp

/-! ## Registration of soft interrupts -/

theorem getD_set_any {α : Type} (l : List α) (i j : Nat) (v d : α) :
    (l.set i v).getD j d = if i = j ∧ i < l.length then v else l.getD j d := by
  simp only [List.getD_eq_getElem?_getD, List.getElem?_set]
  by_cases hij : i = j
  · subst hij
    by_cases hlt : i < l.length
    · simp [hlt]
    · simp [hlt, List.getElem?_eq_none (Nat.le_of_not_lt hlt)]
  · simp [hij]

theorem registered_lt (regs : List soft_interrupt_registration_t) (i : Nat)
    (h : (regs.getD i noRegistration).registered = true) : i < regs.length := by
  by_contra hlt
  rw [List.getD_eq_default _ _ (Nat.le_of_not_lt hlt)] at h
  exact absurd h (by decide)

theorem isSoftInterruptRegistered_iff (K : Constants) (c : MicroappController) (type id : Nat) :
    isSoftInterruptRegistered K c type id = true ↔
      ∃ i, i < K.MICROAPP_MAX_SOFT_INTERRUPT_REGISTRATIONS ∧
        (c._softInterruptRegistrations.getD i noRegistration).registered = true ∧
        (c._softInterruptRegistrations.getD i noRegistration).type = type ∧
        (c._softInterruptRegistrations.getD i noRegistration).id = id := by
  unfold isSoftInterruptRegistered
  rw [List.any_eq_true]
  constructor
  · rintro ⟨i, hi, h⟩
    simp only [Bool.and_eq_true, beq_iff_eq] at h
    exact ⟨i, List.mem_range.mp hi, h.1, h.2.1, h.2.2⟩
  · rintro ⟨i, hi, h1, h2, h3⟩
    exact ⟨i, List.mem_range.mpr hi, by
      simp only [Bool.and_eq_true, beq_iff_eq]
      exact ⟨h1, h2, h3⟩⟩

theorem registerSoftInterrupt_cases (K : Constants) (c : MicroappController) (type id : Nat) :
    (isSoftInterruptRegistered K c type id = true ∧
        registerSoftInterrupt K c type id = (cs_ret_code_t.ERR_ALREADY_EXISTS, c)) ∨
      (isSoftInterruptRegistered K c type id = false ∧
        (∀ i, i < K.MICROAPP_MAX_SOFT_INTERRUPT_REGISTRATIONS →
          (c._softInterruptRegistrations.getD i noRegistration).registered = true) ∧
        registerSoftInterrupt K c type id = (cs_ret_code_t.ERR_NO_SPACE, c)) ∨
      (isSoftInterruptRegistered K c type id = false ∧
        ∃ slot, slot < K.MICROAPP_MAX_SOFT_INTERRUPT_REGISTRATIONS ∧
          (c._softInterruptRegistrations.getD slot noRegistration).registered = false ∧
          registerSoftInterrupt K c type id = (cs_ret_code_t.ERR_SUCCESS,
            { c with _softInterruptRegistrations :=
                c._softInterruptRegistrations.set slot ⟨true, type, id⟩ })) := by
  unfold registerSoftInterrupt
  by_cases hreg : isSoftInterruptRegistered K c type id = true
  · left
    exact ⟨hreg, by rw [if_pos hreg]⟩
  · right
    have hreg' : isSoftInterruptRegistered K c type id = false := by simpa using hreg
    rw [if_neg hreg]
    cases hfind : (List.range K.MICROAPP_MAX_SOFT_INTERRUPT_REGISTRATIONS).find? (fun i =>
        !(c._softInterruptRegistrations.getD i noRegistration).registered) with
    | none =>
      left
      refine ⟨hreg', ?_, rfl⟩
      intro i hi
      have := List.find?_eq_none.mp hfind i (List.mem_range.mpr hi)
      simpa using this
    | some slot =>
      right
      refine ⟨hreg', slot, List.mem_range.mp (List.mem_of_find?_eq_some hfind), ?_, rfl⟩
      simpa using List.find?_some hfind

theorem noDuplicate_set (K : Constants) (c : MicroappController) (type id slot : Nat)
    (hlen : c._softInterruptRegistrations.length = K.MICROAPP_MAX_SOFT_INTERRUPT_REGISTRATIONS)
    (hreg : isSoftInterruptRegistered K c type id = false)
    (hnd : NoDuplicate c._softInterruptRegistrations) :
    NoDuplicate (c._softInterruptRegistrations.set slot ⟨true, type, id⟩) := by
  have hnot : ∀ j, (c._softInterruptRegistrations.getD j noRegistration).registered = true →
      (c._softInterruptRegistrations.getD j noRegistration).type = type →
      (c._softInterruptRegistrations.getD j noRegistration).id = id → False := by
    intro j h1 h2 h3
    have hj : j < K.MICROAPP_MAX_SOFT_INTERRUPT_REGISTRATIONS := by
      rw [← hlen]
      exact registered_lt _ _ h1
    have := (isSoftInterruptRegistered_iff K c type id).mpr ⟨j, hj, h1, h2, h3⟩
    rw [hreg] at this
    exact absurd this (by decide)
  intro i j hi hj ht hid
  rw [getD_set_any] at hi hj ht hid
  rw [getD_set_any] at ht hid
  by_cases hci : slot = i ∧ slot < c._softInterruptRegistrations.length
  · by_cases hcj : slot = j ∧ slot < c._softInterruptRegistrations.length
    · rw [← hci.1, ← hcj.1]
    · exfalso
      rw [if_pos hci] at ht hid
      rw [if_neg hcj] at hj ht hid
      exact hnot j hj ht.symm hid.symm
  · rw [if_neg hci] at hi ht hid
    by_cases hcj : slot = j ∧ slot < c._softInterruptRegistrations.length
    · exfalso
      rw [if_pos hcj] at ht hid
      exact hnot i hi ht hid
    · rw [if_neg hcj] at hj ht hid
      exact hnd i j hi hj ht hid

/-- C18: on a table of MICROAPP_MAX_SOFT_INTERRUPT_REGISTRATIONS slots, registerSoftInterrupt
returns ERR_ALREADY_EXISTS for a registered pair and ERR_NO_SPACE for an unregistered pair
when every slot is taken, and leaves the controller unchanged in both cases; otherwise it
returns ERR_SUCCESS, the pair is registered in one slot that was empty, every other slot and
the registration of every other pair are unchanged; and a table without a pair in two slots,
such as the cleared table, stays so. -/
theorem registerSoftInterrupt_spec (K : Constants) (c : MicroappController) (type id : Nat)
    (hlen : c._softInterruptRegistrations.length = K.MICROAPP_MAX_SOFT_INTERRUPT_REGISTRATIONS) :
    (isSoftInterruptRegistered K c type id = true →
      registerSoftInterrupt K c type id = (cs_ret_code_t.ERR_ALREADY_EXISTS, c)) ∧
    (isSoftInterruptRegistered K c type id = false →
      (∀ r, r ∈ c._softInterruptRegistrations → r.registered = true) →
      registerSoftInterrupt K c type id = (cs_ret_code_t.ERR_NO_SPACE, c)) ∧
    (isSoftInterruptRegistered K c type id = false →
      (∃ r, r ∈ c._softInterruptRegistrations ∧ r.registered = false) →
      (registerSoftInterrupt K c type id).1 = cs_ret_code_t.ERR_SUCCESS ∧
      isSoftInterruptRegistered K (registerSoftInterrupt K c type id).2 type id = true ∧
      (∃ slot, slot < K.MICROAPP_MAX_SOFT_INTERRUPT_REGISTRATIONS ∧
        (c._softInterruptRegistrations.getD slot noRegistration).registered = false ∧
        (registerSoftInterrupt K c type id).2 =
          { c with _softInterruptRegistrations :=
              c._softInterruptRegistrations.set slot ⟨true, type, id⟩ }) ∧
      (∀ t i, (t ≠ type ∨ i ≠ id) →
        isSoftInterruptRegistered K (registerSoftInterrupt K c type id).2 t i
          = isSoftInterruptRegistered K c t i)) ∧
    (NoDuplicate c._softInterruptRegistrations →
      NoDuplicate (registerSoftInterrupt K c type id).2._softInterruptRegistrations) ∧
    NoDuplicate (clear K c)._softInterruptRegistrations := by
  refine ⟨?_, ?_, ?_, ?_, ?_⟩
  · intro hreg
    rcases registerSoftInterrupt_cases K c type id with ⟨_, h⟩ | ⟨h0, _⟩ | ⟨h0, _⟩
    · exact h
    · rw [hreg] at h0; exact absurd h0 (by decide)
    · rw [hreg] at h0; exact absurd h0 (by decide)
  · intro hreg hall
    rcases registerSoftInterrupt_cases K c type id with ⟨h0, _⟩ | ⟨_, _, h⟩ | ⟨_, slot, hs, hfree, _⟩
    · rw [hreg] at h0; exact absurd h0 (by decide)
    · exact h
    · exfalso
      have hmem : c._softInterruptRegistrations.getD slot noRegistration
          ∈ c._softInterruptRegistrations := by
        rw [List.getD_eq_getElem _ _ (by rw [hlen]; exact hs)]
        exact List.getElem_mem _
      rw [hall _ hmem] at hfree
      exact absurd hfree (by decide)
  · intro hreg hex
    rcases registerSoftInterrupt_cases K c type id with ⟨h0, _⟩ | ⟨_, hall, _⟩ | ⟨_, slot, hs, hfree, h⟩
    · rw [hreg] at h0; exact absurd h0 (by decide)
    · exfalso
      obtain ⟨r, hr, hrf⟩ := hex
      obtain ⟨i, hi, hget⟩ := List.getElem_of_mem hr
      have := hall i (by rw [← hlen]; exact hi)
      rw [List.getD_eq_getElem _ _ hi, hget, hrf] at this
      exact absurd this (by decide)
    · have hslot : slot < c._softInterruptRegistrations.length := by rw [hlen]; exact hs
      rw [h]
      refine ⟨rfl, ?_, ⟨slot, hs, hfree, rfl⟩, ?_⟩
      · rw [isSoftInterruptRegistered_iff]
        refine ⟨slot, hs, ?_⟩
        simp only [getD_set_any, hslot, and_self, if_true]
      · intro t i hne
        rw [Bool.eq_iff_iff, isSoftInterruptRegistered_iff, isSoftInterruptRegistered_iff]
        constructor
        · rintro ⟨k, hk, h1, h2, h3⟩
          simp only [getD_set_any] at h1 h2 h3
          by_cases hc : slot = k ∧ slot < c._softInterruptRegistrations.length
          · exfalso
            rw [if_pos hc] at h2 h3
            rcases hne with hne | hne
            · exact hne h2.symm
            · exact hne h3.symm
          · rw [if_neg hc] at h1 h2 h3
            exact ⟨k, hk, h1, h2, h3⟩
        · rintro ⟨k, hk, h1, h2, h3⟩
          refine ⟨k, hk, ?_⟩
          have hc : ¬ (slot = k ∧ slot < c._softInterruptRegistrations.length) := by
            rintro ⟨hsk, _⟩
            rw [hsk, h1] at hfree
            exact absurd hfree (by decide)
          simp only [getD_set_any, if_neg hc]
          exact ⟨h1, h2, h3⟩
  · intro hnd
    rcases registerSoftInterrupt_cases K c type id with ⟨_, h⟩ | ⟨_, _, h⟩ | ⟨hreg, slot, _, _, h⟩
    · rw [h]; exact hnd
    · rw [h]; exact hnd
    · rw [h]
      exact noDuplicate_set K c type id slot hlen hreg hnd
  · intro i j hi _ _ _
    exfalso
    have hlt := registered_lt _ _ hi
    simp only [clear] at hi hlt
    rw [List.getD_eq_getElem _ _ hlt] at hi
    simp [noRegistration] at hi

theorem registerSoftInterrupt_spec_witness :
    registerSoftInterrupt (sampleConstants true)
        (registerSoftInterrupt (sampleConstants true) sampleController 2 5).2 2 5
      = (cs_ret_code_t.ERR_ALREADY_EXISTS,
          (registerSoftInterrupt (sampleConstants true) sampleController 2 5).2) ∧
    (registerSoftInterrupt (sampleConstants true) sampleController 2 5).1
      = cs_ret_code_t.ERR_SUCCESS ∧
    registerSoftInterrupt (sampleConstants true)
        { sampleController with _softInterruptRegistrations := [⟨true, 2, 5⟩, ⟨true, 7, 4⟩] } 6 4
      = (cs_ret_code_t.ERR_NO_SPACE,
          { sampleController with _softInterruptRegistrations := [⟨true, 2, 5⟩, ⟨true, 7, 4⟩] }) :=
  ⟨(registerSoftInterrupt_spec (sampleConstants true)
      (registerSoftInterrupt (sampleConstants true) sampleController 2 5).2 2 5 (by decide)).1
      (by decide),
    ((registerSoftInterrupt_spec (sampleConstants true) sampleController 2 5 (by decide)).2.2.1
      (by decide) ⟨noRegistration, by decide, by decide⟩).1,
    (registerSoftInterrupt_spec (sampleConstants true)
      { sampleController with _softInterruptRegistrations := [⟨true, 2, 5⟩, ⟨true, 7, 4⟩] } 6 4
      (by decide)).2.1 (by decide) (by decide)⟩

end Microapp

namespace Microapp

/-! ## Size checks of the request handlers -/

theorem lt_length_of_getByte_pos (buf : List Nat) (off : Nat) (h : 0 < getByte buf off) :
    off < buf.length := by
  by_contra hlt
  unfold getByte at h
  rw [List.getD_eq_default _ _ (Nat.le_of_not_lt hlt)] at h
  exact absurd h (by decide)

theorem ack_setAck (buf : List Nat) (v : Nat) (h : 1 < buf.length) :
    ack (setAck buf v) = v % 256 := by
  unfold ack setAck getByte setByte
  rw [getD_set_any]
  simp [h]

theorem getLE_two (buf : List Nat) (off : Nat) :
    getLE buf off 2 = getByte buf off + 256 * getByte buf (off + 1) := by
  simp [getLE, List.range_succ]

/-- C20, as the code has it in a build without meshing: a mesh send request of 9 bytes is
answered with ack ErrDisabled and ERR_NOT_AVAILABLE, not with ErrTooLarge and
ERR_WRONG_PAYLOAD_LENGTH. -/
theorem mesh_too_large_without_meshing :
    9 > MAX_MICROAPP_MESH_PAYLOAD_SIZE ∧
    getByte (sampleSystem 0 [CS_MICROAPP_SDK_TYPE_MESH, 0, CS_MICROAPP_SDK_MESH_SEND, 0, 9]).input 4
      = 9 ∧
    (handleRequestMesh (sampleConstants false) sampleEnv
      (sampleSystem 0 [CS_MICROAPP_SDK_TYPE_MESH, 0, CS_MICROAPP_SDK_MESH_SEND, 0, 9])).1
      = cs_ret_code_t.ERR_NOT_AVAILABLE ∧
    ack (handleRequestMesh (sampleConstants false) sampleEnv
      (sampleSystem 0 [CS_MICROAPP_SDK_TYPE_MESH, 0, CS_MICROAPP_SDK_MESH_SEND, 0, 9])).2.input
      = CS_MICROAPP_SDK_ACK_ERR_DISABLED ∧
    (handleMicroappRequest (sampleConstants false) sampleEnv
      (sampleSystem 0 [CS_MICROAPP_SDK_TYPE_MESH, 0, CS_MICROAPP_SDK_MESH_SEND, 0, 9])).1
      ≠ cs_ret_code_t.ERR_WRONG_PAYLOAD_LENGTH := by
  decide

/-- C20, amended: a ServiceData request with size above MICROAPP_SDK_MAX_SERVICE_DATA_LENGTH and
a ControlCommand request with size above MICROAPP_SDK_MAX_CONTROL_COMMAND_PAYLOAD_SIZE get ack
ErrTooLarge and ERR_WRONG_PAYLOAD_LENGTH, and no event is dispatched; a Mesh send request with
size above MAX_MICROAPP_MESH_PAYLOAD_SIZE gets the same in a build with meshing, and ack
ErrDisabled with ERR_NOT_AVAILABLE in a build without; in each case only the ack byte of the
incoming buffer changes. -/
theorem size_checks {γ σ : Type} (K : Constants) (X : Env γ σ) (s : System γ σ) :
    (getByte s.input 4 > MICROAPP_SDK_MAX_SERVICE_DATA_LENGTH →
      handleRequestServiceData X s = (cs_ret_code_t.ERR_WRONG_PAYLOAD_LENGTH,
          { s with input := setAck s.input CS_MICROAPP_SDK_ACK_ERR_TOO_LARGE }) ∧
        ack (handleRequestServiceData X s).2.input = CS_MICROAPP_SDK_ACK_ERR_TOO_LARGE ∧
        dispatched (handleRequestServiceData X s).2.trace = dispatched s.trace) ∧
    (getLE s.input 5 2 > MICROAPP_SDK_MAX_CONTROL_COMMAND_PAYLOAD_SIZE →
      handleRequestControlCommand X s = (cs_ret_code_t.ERR_WRONG_PAYLOAD_LENGTH,
          { s with input := setAck s.input CS_MICROAPP_SDK_ACK_ERR_TOO_LARGE }) ∧
        ack (handleRequestControlCommand X s).2.input = CS_MICROAPP_SDK_ACK_ERR_TOO_LARGE ∧
        dispatched (handleRequestControlCommand X s).2.trace = dispatched s.trace) ∧
    (getByte s.input 2 = CS_MICROAPP_SDK_MESH_SEND →
      getByte s.input 4 > MAX_MICROAPP_MESH_PAYLOAD_SIZE →
      (K.BUILD_MESHING = true →
        handleRequestMesh K X s = (cs_ret_code_t.ERR_WRONG_PAYLOAD_LENGTH,
            { s with input := setAck s.input CS_MICROAPP_SDK_ACK_ERR_TOO_LARGE }) ∧
          ack (handleRequestMesh K X s).2.input = CS_MICROAPP_SDK_ACK_ERR_TOO_LARGE) ∧
      (K.BUILD_MESHING = false →
        handleRequestMesh K X s = (cs_ret_code_t.ERR_NOT_AVAILABLE,
            { s with input := setAck s.input CS_MICROAPP_SDK_ACK_ERR_DISABLED }) ∧
          ack (handleRequestMesh K X s).2.input = CS_MICROAPP_SDK_ACK_ERR_DISABLED) ∧
      dispatched (handleRequestMesh K X s).2.trace = dispatched s.trace) := by
  refine ⟨?_, ?_, ?_⟩
  · intro h
    have hlen : 1 < s.input.length := by
      have := lt_length_of_getByte_pos s.input 4 (by omega)
      omega
    have heq : handleRequestServiceData X s = (cs_ret_code_t.ERR_WRONG_PAYLOAD_LENGTH,
        { s with input := setAck s.input CS_MICROAPP_SDK_ACK_ERR_TOO_LARGE }) := by
      simp only [handleRequestServiceData, if_pos h, finish]
    rw [heq]
    exact ⟨rfl, by simp only [ack_setAck _ _ hlen]; decide, rfl⟩
  · intro h
    have hlen : 1 < s.input.length := by
      rw [getLE_two] at h
      have h41 : MICROAPP_SDK_MAX_CONTROL_COMMAND_PAYLOAD_SIZE = 41 := by decide
      have h6 : getByte s.input (5 + 1) = getByte s.input 6 := rfl
      rw [h41, h6] at h
      by_cases h5 : 0 < getByte s.input 5
      · have := lt_length_of_getByte_pos s.input 5 h5
        omega
      · have := lt_length_of_getByte_pos s.input 6 (by omega)
        omega
    have hne : ¬ getLE s.input 5 2 = 0 := by omega
    have heq : handleRequestControlCommand X s = (cs_ret_code_t.ERR_WRONG_PAYLOAD_LENGTH,
        { s with input := setAck s.input CS_MICROAPP_SDK_ACK_ERR_TOO_LARGE }) := by
      simp only [handleRequestControlCommand, if_neg hne, if_pos h, finish]
    rw [heq]
    exact ⟨rfl, by simp only [ack_setAck _ _ hlen]; decide, rfl⟩
  · intro hsend h
    have hlen : 1 < s.input.length := by
      have := lt_length_of_getByte_pos s.input 4 (by omega)
      omega
    have hne : ¬ getByte s.input 4 = 0 := by omega
    by_cases hb : K.BUILD_MESHING = true
    · have heq : handleRequestMesh K X s = (cs_ret_code_t.ERR_WRONG_PAYLOAD_LENGTH,
          { s with input := setAck s.input CS_MICROAPP_SDK_ACK_ERR_TOO_LARGE }) := by
        simp [handleRequestMesh, hb, hsend, hne, h, finish]
      rw [heq]
      refine ⟨fun _ => ⟨rfl, by simp only [ack_setAck _ _ hlen]; decide⟩, ?_, rfl⟩
      intro hf
      rw [hb] at hf
      exact absurd hf (by decide)
    · have hb' : K.BUILD_MESHING = false := by simpa using hb
      have heq : handleRequestMesh K X s = (cs_ret_code_t.ERR_NOT_AVAILABLE,
          { s with input := setAck s.input CS_MICROAPP_SDK_ACK_ERR_DISABLED }) := by
        simp [handleRequestMesh, hb', finish]
      rw [heq]
      exact ⟨fun ht => absurd ht hb, fun _ => ⟨rfl, by simp only [ack_setAck _ _ hlen]; decide⟩,
        rfl⟩

theorem size_checks_witness :
    (handleRequestMesh (sampleConstants true) sampleEnv
      (sampleSystem 0 [CS_MICROAPP_SDK_TYPE_MESH, 0, CS_MICROAPP_SDK_MESH_SEND, 0, 9])).1
      = cs_ret_code_t.ERR_WRONG_PAYLOAD_LENGTH ∧
    ack (handleRequestServiceData sampleEnv
      (sampleSystem 0 [CS_MICROAPP_SDK_TYPE_SERVICE_DATA, 0, 0, 0, 9])).2.input
      = CS_MICROAPP_SDK_ACK_ERR_TOO_LARGE ∧
    (handleRequestControlCommand sampleEnv
      (sampleSystem 0 [CS_MICROAPP_SDK_TYPE_CONTROL_COMMAND, 0, 5, 0, 0, 42, 0])).1
      = cs_ret_code_t.ERR_WRONG_PAYLOAD_LENGTH :=
  ⟨by
      rw [(((size_checks (sampleConstants true) sampleEnv
        (sampleSystem 0 [CS_MICROAPP_SDK_TYPE_MESH, 0, CS_MICROAPP_SDK_MESH_SEND, 0, 9])).2.2
        (by decide) (by decide)).1 (by decide)).1],
    ((size_checks (sampleConstants true) sampleEnv
      (sampleSystem 0 [CS_MICROAPP_SDK_TYPE_SERVICE_DATA, 0, 0, 0, 9])).1 (by decide)).2.1,
    by
      rw [((size_checks (sampleConstants true) sampleEnv
        (sampleSystem 0 [CS_MICROAPP_SDK_TYPE_CONTROL_COMMAND, 0, 5, 0, 0, 42, 0])).2.1
        (by decide)).1]⟩

end Microapp

namespace Microapp

/-! ## What the request handlers leave alone -/

theorem messageType_setByte (buf : List Nat) (off v : Nat) (h : off ≠ 0) :
    messageType (setByte buf off v) = messageType buf := by
  unfold messageType getByte setByte
  rw [getD_set_any]
  simp [h]

theorem messageType_setAck (buf : List Nat) (v : Nat) :
    messageType (setAck buf v) = messageType buf :=
  messageType_setByte buf 1 v (by decide)

theorem messageType_foldl_setByte {α : Type} (l : List α) (off : α → Nat) (val : α → Nat)
    (h : ∀ a, a ∈ l → off a ≠ 0) (buf : List Nat) :
    messageType (l.foldl (fun b a => setByte b (off a) (val a)) buf) = messageType buf := by
  induction l generalizing buf with
  | nil => rfl
  | cons a l ih =>
    rw [List.foldl_cons, ih (fun x hx => h x (List.mem_cons_of_mem _ hx)),
      messageType_setByte _ _ _ (h a (List.mem_cons_self _ _))]

theorem messageType_setLE (buf : List Nat) (off n v : Nat) (h : off ≠ 0) :
    messageType (setLE buf off n v) = messageType buf := by
  unfold setLE
  exact messageType_foldl_setByte (List.range n) (fun i => off + i) (fun i => v / 256 ^ i)
    (fun a _ => by dsimp only; omega) buf

theorem messageType_writeBytes (buf : List Nat) (off : Nat) (data : List Nat) (h : off ≠ 0) :
    messageType (writeBytes buf off data) = messageType buf := by
  unfold writeBytes
  exact messageType_foldl_setByte data.enum (fun p => off + p.1) (fun p => p.2)
    (fun a _ => by dsimp only; omega) buf

theorem resumeCount_append (t u : List Effect) :
    resumeCount (t ++ u) = resumeCount t + resumeCount u := by
  simp [resumeCount, List.countP_append]

theorem registerSoftInterrupt_frame (K : Constants) (c : MicroappController) (type id : Nat) :
    (registerSoftInterrupt K c type id).2._tickCounter = c._tickCounter ∧
      (registerSoftInterrupt K c type id).2._softInterruptCounter = c._softInterruptCounter ∧
      (registerSoftInterrupt K c type id).2._consecutiveMicroappCallCounter
        = c._consecutiveMicroappCallCounter ∧
      (registerSoftInterrupt K c type id).2._emptySoftInterruptSlots
        = c._emptySoftInterruptSlots := by
  rcases registerSoftInterrupt_cases K c type id with ⟨_, h⟩ | ⟨_, _, h⟩ | ⟨_, slot, _, _, h⟩ <;>
    rw [h] <;> exact ⟨rfl, rfl, rfl, rfl⟩

theorem Frame.refl {γ σ : Type} (s : System γ σ) : Frame s s :=
  ⟨rfl, rfl, rfl, rfl, rfl, rfl, rfl, rfl, [], (List.append_nil _).symm⟩

theorem Frame.trans {γ σ : Type} {s t u : System γ σ} (h1 : Frame s t) (h2 : Frame t u) :
    Frame s u := by
  obtain ⟨a1, a2, a3, a4, a5, a6, a7, a8, r1, a9⟩ := h1
  obtain ⟨b1, b2, b3, b4, b5, b6, b7, b8, r2, b9⟩ := h2
  exact ⟨b1.trans a1, b2.trans a2, b3.trans a3, b4.trans a4, b5.trans a5, b6.trans a6,
    b7.trans a7, b8.trans a8, r1 ++ r2, by rw [b9, a9, List.append_assoc]⟩

theorem finish_frame {γ σ : Type} (s : System γ σ) (a : Nat) (r : cs_ret_code_t) :
    Frame s (finish s a r).2 :=
  ⟨rfl, rfl, rfl, messageType_setAck _ _, rfl, rfl, rfl, rfl, [], (List.append_nil _).symm⟩

theorem dispatchEvent_frame {γ σ : Type} (X : Env γ σ) (s : System γ σ) (e : HostEvent) :
    Frame s (dispatchEvent X s e).2 :=
  ⟨rfl, rfl, rfl, rfl, rfl, rfl, rfl, by
    simp [dispatchEvent, resumeCount_append, resumeCount], [Effect.dispatch e], rfl⟩

theorem register_frame {γ σ : Type} (K : Constants) (s : System γ σ) (type id : Nat) :
    Frame s { s with controller := (registerSoftInterrupt K s.controller type id).2 } :=
  ⟨(registerSoftInterrupt_frame K s.controller type id).1,
    (registerSoftInterrupt_frame K s.controller type id).2.1,
    (registerSoftInterrupt_frame K s.controller type id).2.2.1, rfl, rfl, rfl, rfl, rfl, [],
    (List.append_nil _).symm⟩

theorem input_frame {γ σ : Type} (s : System γ σ) (input : List Nat)
    (h : messageType input = messageType s.input) : Frame s { s with input := input } :=
  ⟨rfl, rfl, rfl, h, rfl, rfl, rfl, rfl, [], (List.append_nil _).symm⟩

theorem log_frame {γ σ : Type} (s : System γ σ) (input : List Nat) (e : Effect)
    (h : messageType input = messageType s.input) (he : resumeCount [e] = 0) :
    Frame s { s with input := input, trace := s.trace ++ [e] } :=
  ⟨rfl, rfl, rfl, h, rfl, rfl, rfl, by simp [resumeCount_append, he], [e], rfl⟩

theorem ite_frame {γ σ : Type} {s : System γ σ} {c : Prop} [Decidable c]
    {a b : cs_ret_code_t × System γ σ} (ha : Frame s a.2) (hb : Frame s b.2) :
    Frame s (if c then a else b).2 := by
  split
  · exact ha
  · exact hb

theorem handleRequestLog_frame {γ σ : Type} (s : System γ σ) :
    Frame s (handleRequestLog s).2 := by
  unfold handleRequestLog logValue
  dsimp only
  repeat' first
    | apply ite_frame
    | exact finish_frame s _ _
    | refine Frame.trans (log_frame s _ _ ?_ ?_) (finish_frame _ _ _)
    | rfl
    | exact messageType_setByte _ _ _ (by simp [MICROAPP_SDK_LOG_HEADER_SIZE])
    | (split <;> first | rfl | exact messageType_setByte _ _ _ (by decide))

end Microapp

namespace Microapp

theorem controller_frame {γ σ : Type} (s : System γ σ) (c : MicroappController)
    (h1 : c._tickCounter = s.controller._tickCounter)
    (h2 : c._softInterruptCounter = s.controller._softInterruptCounter)
    (h3 : c._consecutiveMicroappCallCounter = s.controller._consecutiveMicroappCallCounter) :
    Frame s { s with controller := c } :=
  ⟨h1, h2, h3, rfl, rfl, rfl, rfl, rfl, [], (List.append_nil _).symm⟩

theorem handleRequestPin_frame {γ σ : Type} (K : Constants) (X : Env γ σ) (s : System γ σ) :
    Frame s (handleRequestPin K X s).2 := by
  unfold handleRequestPin
  dsimp only
  repeat' first
    | apply ite_frame
    | exact finish_frame s _ _
    | exact (dispatchEvent_frame X s _).trans (finish_frame _ _ _)
    | exact (dispatchEvent_frame X s _).trans ((register_frame K _ _ _).trans (finish_frame _ _ _))
    | split

theorem handleRequestSwitch_frame {γ σ : Type} (X : Env γ σ) (s : System γ σ) :
    Frame s (handleRequestSwitch X s).2 :=
  (dispatchEvent_frame X s _).trans (finish_frame _ _ _)

theorem handleRequestServiceData_frame {γ σ : Type} (X : Env γ σ) (s : System γ σ) :
    Frame s (handleRequestServiceData X s).2 := by
  unfold handleRequestServiceData
  dsimp only
  repeat' first
    | apply ite_frame
    | exact finish_frame s _ _
    | exact (dispatchEvent_frame X s _).trans (finish_frame _ _ _)

theorem handleRequestTwi_frame {γ σ : Type} (K : Constants) (X : Env γ σ) (s : System γ σ) :
    Frame s (handleRequestTwi K X s).2 := by
  unfold handleRequestTwi
  dsimp only
  repeat' first
    | apply ite_frame
    | exact finish_frame s _ _
    | exact (dispatchEvent_frame X s _).trans (finish_frame _ _ _)
    | refine (dispatchEvent_frame X s _).trans (Frame.trans (input_frame _ _ ?_) (finish_frame _ _ _))
    | rw [messageType_setByte _ _ _ (by decide), messageType_setAck,
        messageType_writeBytes _ _ _ (by decide)]

theorem handleRequestBle_frame {γ σ : Type} (K : Constants) (X : Env γ σ) (s : System γ σ) :
    Frame s (handleRequestBle K X s).2 := by
  unfold handleRequestBle
  dsimp only
  repeat' first
    | apply ite_frame
    | exact finish_frame s _ _
    | exact (dispatchEvent_frame X s _).trans (finish_frame _ _ _)
    | exact (register_frame K _ _ _).trans (finish_frame _ _ _)
    | exact (controller_frame s _ rfl rfl rfl).trans (finish_frame _ _ _)

theorem handleRequestMesh_frame {γ σ : Type} (K : Constants) (X : Env γ σ) (s : System γ σ) :
    Frame s (handleRequestMesh K X s).2 := by
  unfold handleRequestMesh
  dsimp only
  repeat' first
    | apply ite_frame
    | exact finish_frame s _ _
    | exact (dispatchEvent_frame X s _).trans (finish_frame _ _ _)
    | exact (register_frame K _ _ _).trans (finish_frame _ _ _)
    | exact (input_frame s _ (messageType_setByte _ _ _ (by decide))).trans (finish_frame _ _ _)

theorem handleRequestPowerUsage_frame {γ σ : Type} (X : Env γ σ) (s : System γ σ) :
    Frame s (handleRequestPowerUsage X s).2 :=
  (input_frame s _ (messageType_setLE _ _ _ _ (by decide))).trans (finish_frame _ _ _)

theorem handleRequestPresence_frame {γ σ : Type} (K : Constants) (X : Env γ σ)
    (s : System γ σ) : Frame s (handleRequestPresence K X s).2 := by
  unfold handleRequestPresence
  dsimp only
  repeat' first
    | apply ite_frame
    | exact finish_frame s _ _
    | exact (dispatchEvent_frame X s _).trans (finish_frame _ _ _)
    | exact (dispatchEvent_frame X s _).trans
        ((input_frame _ _ (messageType_setLE _ _ _ _ (by decide))).trans (finish_frame _ _ _))

theorem handleRequestControlCommand_frame {γ σ : Type} (X : Env γ σ) (s : System γ σ) :
    Frame s (handleRequestControlCommand X s).2 := by
  unfold handleRequestControlCommand
  dsimp only
  repeat' first
    | apply ite_frame
    | exact finish_frame s _ _
    | exact (dispatchEvent_frame X s _).trans (finish_frame _ _ _)

theorem handleRequestYield_frame {γ σ : Type} (s : System γ σ) :
    Frame s (handleRequestYield s).2 :=
  (controller_frame s _ rfl rfl rfl).trans (finish_frame _ _ _)

theorem handleMicroappRequest_frame {γ σ : Type} (K : Constants) (X : Env γ σ)
    (s : System γ σ) : Frame s (handleMicroappRequest K X s).2 := by
  unfold handleMicroappRequest
  dsimp only
  exact ite_frame (Frame.refl s)
    (ite_frame (handleRequestLog_frame s)
    (ite_frame (handleRequestPin_frame K X s)
    (ite_frame (handleRequestSwitch_frame X s)
    (ite_frame (handleRequestServiceData_frame X s)
    (ite_frame (handleRequestTwi_frame K X s)
    (ite_frame (handleRequestBle_frame K X s)
    (ite_frame (handleRequestMesh_frame K X s)
    (ite_frame (handleRequestPowerUsage_frame X s)
    (ite_frame (handleRequestPresence_frame K X s)
    (ite_frame (handleRequestControlCommand_frame X s)
    (ite_frame (handleRequestYield_frame s) (finish_frame s _ _))))))))))))

end Microapp

namespace Microapp

/-! ## The call loop -/

theorem stopAfterMicroappRequest_eq_false_iff (t : Nat) :
    stopAfterMicroappRequest t = false ↔
      CS_MICROAPP_SDK_TYPE_LOG ≤ t ∧ t ≤ CS_MICROAPP_SDK_TYPE_CONTROL_COMMAND := by
  unfold stopAfterMicroappRequest
  simp only [CS_MICROAPP_SDK_TYPE_LOG, CS_MICROAPP_SDK_TYPE_PIN, CS_MICROAPP_SDK_TYPE_SWITCH,
    CS_MICROAPP_SDK_TYPE_SERVICE_DATA, CS_MICROAPP_SDK_TYPE_TWI, CS_MICROAPP_SDK_TYPE_BLE,
    CS_MICROAPP_SDK_TYPE_MESH, CS_MICROAPP_SDK_TYPE_POWER_USAGE, CS_MICROAPP_SDK_TYPE_PRESENCE,
    CS_MICROAPP_SDK_TYPE_CONTROL_COMMAND, CS_MICROAPP_SDK_TYPE_NONE, CS_MICROAPP_SDK_TYPE_YIELD,
    CS_MICROAPP_SDK_TYPE_CONTINUE]
  by_cases h : t = 1 ∨ t = 2 ∨ t = 3 ∨ t = 4 ∨ t = 5 ∨ t = 6 ∨ t = 7 ∨ t = 8 ∨ t = 9 ∨ t = 10
  · rw [if_pos h]
    simp only [true_iff]
    omega
  · rw [if_neg h]
    have hn : ¬ (1 ≤ t ∧ t ≤ 10) := by omega
    simp [hn]

theorem handleRequest_fst {γ σ : Type} (K : Constants) (X : Env γ σ) (s : System γ σ) :
    (handleRequest K X s).1 = true ↔
      (CS_MICROAPP_SDK_TYPE_LOG ≤ messageType s.input ∧
        messageType s.input ≤ CS_MICROAPP_SDK_TYPE_CONTROL_COMMAND) ∧
      s.controller._consecutiveMicroappCallCounter < K.MICROAPP_MAX_NUMBER_CONSECUTIVE_CALLS := by
  have hf := handleMicroappRequest_frame K X s
  rw [← stopAfterMicroappRequest_eq_false_iff, ← hf.2.2.2.1, ← hf.2.2.1]
  unfold handleRequest
  dsimp only
  cases hstop : stopAfterMicroappRequest (messageType (handleMicroappRequest K X s).2.input)
  · by_cases hc : (handleMicroappRequest K X s).2.controller._consecutiveMicroappCallCounter
        ≥ K.MICROAPP_MAX_NUMBER_CONSECUTIVE_CALLS
    · have hn : ¬ (handleMicroappRequest K X s).2.controller._consecutiveMicroappCallCounter
          < K.MICROAPP_MAX_NUMBER_CONSECUTIVE_CALLS := by omega
      simp [hc, hn]
    · have hn : (handleMicroappRequest K X s).2.controller._consecutiveMicroappCallCounter
          < K.MICROAPP_MAX_NUMBER_CONSECUTIVE_CALLS := by omega
      simp [hc, hn]
  · simp

theorem handleRequest_counter {γ σ : Type} (K : Constants) (X : Env γ σ) (s : System γ σ) :
    (handleRequest K X s).2.controller._consecutiveMicroappCallCounter
      = if (handleRequest K X s).1 then s.controller._consecutiveMicroappCallCounter + 1
        else 0 := by
  have hf := handleMicroappRequest_frame K X s
  rw [← hf.2.2.1]
  unfold handleRequest
  dsimp only
  split
  · rfl
  · split
    · rfl
    · rfl

theorem handleRequest_frame {γ σ : Type} (K : Constants) (X : Env γ σ) (s : System γ σ) :
    (handleRequest K X s).2.controller._tickCounter = s.controller._tickCounter ∧
      (handleRequest K X s).2.controller._softInterruptCounter
        = s.controller._softInterruptCounter ∧
      (handleRequest K X s).2.output = s.output ∧
      (handleRequest K X s).2.ipcRam = s.ipcRam ∧
      (handleRequest K X s).2.guest = s.guest ∧
      resumeCount (handleRequest K X s).2.trace = resumeCount s.trace ∧
      ∃ rest, (handleRequest K X s).2.trace = s.trace ++ rest := by
  obtain ⟨h1, h2, _, _, h5, h6, h7, h8, h9⟩ := handleMicroappRequest_frame K X s
  unfold handleRequest
  dsimp only
  split
  · exact ⟨h1, h2, h5, h6, h7, h8, h9⟩
  · split
    · exact ⟨h1, h2, h5, h6, h7, h8, h9⟩
    · exact ⟨h1, h2, h5, h6, h7, h8, h9⟩

/-- C16, as the code has it: below the limit of consecutive calls, a Yield request and a
Continue request hand control back to the host, and a Log request has the coroutine
resumed again. -/
theorem yield_returns_to_host :
    (sampleSystem 0 [CS_MICROAPP_SDK_TYPE_YIELD, 0, 0, 1]).controller._consecutiveMicroappCallCounter
      < (sampleConstants true).MICROAPP_MAX_NUMBER_CONSECUTIVE_CALLS ∧
    (handleRequest (sampleConstants true) sampleEnv
      (sampleSystem 0 [CS_MICROAPP_SDK_TYPE_YIELD, 0, 0, 1])).1 = false ∧
    (handleRequest (sampleConstants true) sampleEnv
      (sampleSystem 0 [CS_MICROAPP_SDK_TYPE_CONTINUE, 0])).1 = false ∧
    (handleRequest (sampleConstants true) sampleEnv
      (sampleSystem 0 [CS_MICROAPP_SDK_TYPE_LOG, 0, CS_MICROAPP_SDK_LOG_CHAR, 0, 1, 65])).1
      = true := by
  decide

/-- C16, amended: after handling the request, handleRequest asks for another resume exactly
when the message type is one of Log, Pin, Switch, ServiceData, Twi, Ble, Mesh, PowerUsage,
Presence and ControlCommand and the counter of consecutive calls is below
MICROAPP_MAX_NUMBER_CONSECUTIVE_CALLS; the counter is then incremented, and for every other
message type, Yield and Continue among them, or at the limit, control returns to the host with
the counter reset to 0. -/
theorem handleRequest_callAgain_iff {γ σ : Type} (K : Constants) (X : Env γ σ)
    (s : System γ σ) :
    ((handleRequest K X s).1 = true ↔
      (CS_MICROAPP_SDK_TYPE_LOG ≤ messageType s.input ∧
        messageType s.input ≤ CS_MICROAPP_SDK_TYPE_CONTROL_COMMAND) ∧
      s.controller._consecutiveMicroappCallCounter < K.MICROAPP_MAX_NUMBER_CONSECUTIVE_CALLS) ∧
    (handleRequest K X s).2.controller._consecutiveMicroappCallCounter
      = (if (handleRequest K X s).1 then s.controller._consecutiveMicroappCallCounter + 1
        else 0) ∧
    ∀ fuel, (handleAck (callMicroapp K X s)).1 = true →
      callLoop K X (fuel + 1) s
        = if (handleRequest K X (handleAck (callMicroapp K X s)).2).1 then
            callLoop K X fuel (handleRequest K X (handleAck (callMicroapp K X s)).2).2
          else some (handleRequest K X (handleAck (callMicroapp K X s)).2).2 :=
  ⟨handleRequest_fst K X s, handleRequest_counter K X s, fun fuel h => by
    rw [callLoop]
    simp only [h, Bool.not_true, Bool.false_eq_true, if_false]⟩

theorem handleRequest_callAgain_iff_witness :
    (handleRequest (sampleConstants true) sampleEnv
      (sampleSystem 0 [CS_MICROAPP_SDK_TYPE_SWITCH, 0, 100])).1 = true ∧
    (handleRequest (sampleConstants true) sampleEnv
      (sampleSystem 0 [CS_MICROAPP_SDK_TYPE_SWITCH, 0, 100])).2.controller._consecutiveMicroappCallCounter
      = 1 :=
  ⟨(handleRequest_callAgain_iff (sampleConstants true) sampleEnv
      (sampleSystem 0 [CS_MICROAPP_SDK_TYPE_SWITCH, 0, 100])).1.mpr (by decide),
    by
      rw [(handleRequest_callAgain_iff (sampleConstants true) sampleEnv
        (sampleSystem 0 [CS_MICROAPP_SDK_TYPE_SWITCH, 0, 100])).2.1]
      decide⟩

end Microapp

namespace Microapp

theorem callMicroapp_spec {γ σ : Type} (K : Constants) (X : Env γ σ) (s : System γ σ) :
    (callMicroapp K X s).controller = s.controller ∧
      (callMicroapp K X s).trace = s.trace ++ [Effect.resumeCoroutine
        (setOperatingState K s 0 MicroappOperatingState.CS_MICROAPP_RUNNING).ipcRam s.output] := by
  by_cases hy : (X.resume s.guest s.input s.output).yielded = true
  · simp [callMicroapp, resumeCoroutine, setOperatingState, MAX_MICROAPPS, hy]
  · simp [callMicroapp, resumeCoroutine, setOperatingState, MAX_MICROAPPS, hy]

theorem handleAck_spec {γ σ : Type} (s : System γ σ) :
    ((handleAck s).1 = true → (handleAck s).2 = s) ∧
      ((handleAck s).1 = false →
        (handleAck s).2.controller._consecutiveMicroappCallCounter = 0) ∧
      (handleAck s).2.controller._tickCounter = s.controller._tickCounter ∧
      (handleAck s).2.controller._softInterruptCounter = s.controller._softInterruptCounter ∧
      (handleAck s).2.trace = s.trace := by
  unfold handleAck
  split
  · exact ⟨fun _ => rfl, fun h => by simp at h, rfl, rfl, rfl⟩
  · split
    · exact ⟨fun _ => rfl, fun h => by simp at h, rfl, rfl, rfl⟩
    · refine ⟨fun h => by simp at h, fun _ => rfl, ?_, ?_, rfl⟩
      · dsimp only
        split
        · rfl
        · unfold incrementEmptySoftInterruptSlots
          split <;> rfl
      · dsimp only
        split
        · rfl
        · unfold incrementEmptySoftInterruptSlots
          split <;> rfl

theorem resumeCount_resume (ipcRam : Option bluenet_ipc_bluenet_data_t) (output : List Nat) :
    resumeCount [Effect.resumeCoroutine ipcRam output] = 1 := rfl

theorem callLoop_succ {γ σ : Type} (K : Constants) (X : Env γ σ) (fuel : Nat)
    (s : System γ σ) :
    callLoop K X (fuel + 1) s =
      if !(handleAck (callMicroapp K X s)).1 then some (handleAck (callMicroapp K X s)).2
      else if (handleRequest K X (handleAck (callMicroapp K X s)).2).1 then
        callLoop K X fuel (handleRequest K X (handleAck (callMicroapp K X s)).2).2
      else some (handleRequest K X (handleAck (callMicroapp K X s)).2).2 := by
  rw [callLoop]

/-- With fuel above the calls that are left, the loop returns: the counter of consecutive
calls is 0 again, the other counters are as before, the coroutine was resumed at least once
and at most once more than the calls that were left, and the first resume saw the outgoing
buffer of the entry. -/
theorem callLoop_returns {γ σ : Type} (K : Constants) (X : Env γ σ) :
    ∀ (fuel : Nat) (s : System γ σ),
      K.MICROAPP_MAX_NUMBER_CONSECUTIVE_CALLS - s.controller._consecutiveMicroappCallCounter
        < fuel →
      ∃ s', callLoop K X fuel s = some s' ∧
        s'.controller._consecutiveMicroappCallCounter = 0 ∧
        s'.controller._tickCounter = s.controller._tickCounter ∧
        s'.controller._softInterruptCounter = s.controller._softInterruptCounter ∧
        resumeCount s.trace + 1 ≤ resumeCount s'.trace ∧
        resumeCount s'.trace ≤ resumeCount s.trace + 1 +
          (K.MICROAPP_MAX_NUMBER_CONSECUTIVE_CALLS
            - s.controller._consecutiveMicroappCallCounter) ∧
        ∃ rest, s'.trace = s.trace ++ Effect.resumeCoroutine
          (setOperatingState K s 0 MicroappOperatingState.CS_MICROAPP_RUNNING).ipcRam s.output
            :: rest := by
  intro fuel
  induction fuel with
  | zero => intro s h; omega
  | succ fuel ih =>
    intro s h
    obtain ⟨hc, ht⟩ := callMicroapp_spec K X s
    obtain ⟨ha1, ha2, ha3, ha4, ha5⟩ := handleAck_spec (callMicroapp K X s)
    have hrc : resumeCount (callMicroapp K X s).trace = resumeCount s.trace + 1 := by
      rw [ht, resumeCount_append, resumeCount_resume]
    rw [callLoop_succ]
    cases hack : (handleAck (callMicroapp K X s)).1
    · refine ⟨(handleAck (callMicroapp K X s)).2, by simp, ha2 hack, ?_, ?_, ?_, ?_, [], ?_⟩
      · rw [ha3, hc]
      · rw [ha4, hc]
      · rw [ha5, hrc]
      · rw [ha5, hrc]; omega
      · rw [ha5, ht]
    · have hsame := ha1 hack
      rw [hsame]
      obtain ⟨hr1, hr2, _, _, _, hr6, rest, hr7⟩ := handleRequest_frame K X (callMicroapp K X s)
      have hcnt := handleRequest_counter K X (callMicroapp K X s)
      cases hreq : (handleRequest K X (callMicroapp K X s)).1
      · rw [hreq] at hcnt
        refine ⟨(handleRequest K X (callMicroapp K X s)).2, by simp, by simpa using hcnt,
          ?_, ?_, ?_, ?_, rest, ?_⟩
        · rw [hr1, hc]
        · rw [hr2, hc]
        · rw [hr6, hrc]
        · rw [hr6, hrc]; omega
        · rw [hr7, ht]; simp
      · rw [hreq] at hcnt
        have hlt := ((handleRequest_fst K X (callMicroapp K X s)).mp hreq).2
        rw [hc] at hlt hcnt
        simp only [if_true] at hcnt
        obtain ⟨s', hs', h0, h1, h2, h3, h4, rest', h5⟩ :=
          ih (handleRequest K X (callMicroapp K X s)).2 (by rw [hcnt]; omega)
        refine ⟨s', by simpa using hs', h0, ?_, ?_, ?_, ?_, rest ++ Effect.resumeCoroutine
          (setOperatingState K (handleRequest K X (callMicroapp K X s)).2 0
            MicroappOperatingState.CS_MICROAPP_RUNNING).ipcRam
          (handleRequest K X (callMicroapp K X s)).2.output :: rest', ?_⟩
        · rw [h1, hr1, hc]
        · rw [h2, hr2, hc]
        · rw [hr6, hrc] at h3; omega
        · rw [hr6, hrc, hcnt] at h4; omega
        · rw [h5, hr7, ht]; simp

end Microapp

namespace Microapp

theorem callLoop_mono {γ σ : Type} (K : Constants) (X : Env γ σ) :
    ∀ (fuel : Nat) (s s' : System γ σ), callLoop K X fuel s = some s' →
      ∀ more, callLoop K X (fuel + more) s = some s' := by
  intro fuel
  induction fuel with
  | zero => intro s s' h; simp [callLoop] at h
  | succ fuel ih =>
    intro s s' h more
    have hadd : fuel + 1 + more = (fuel + more) + 1 := by omega
    rw [hadd, callLoop_succ]
    rw [callLoop_succ] at h
    cases hack : (handleAck (callMicroapp K X s)).1
    · simpa [hack] using h
    · cases hreq : (handleRequest K X (handleAck (callMicroapp K X s)).2).1
      · simpa [hack, hreq] using h
      · simp only [hack, hreq, Bool.not_true, Bool.false_eq_true, if_false, if_true] at h ⊢
        exact ih _ _ h more

theorem callLoop_counter {γ σ : Type} (K : Constants) (X : Env γ σ) :
    ∀ (fuel : Nat) (s s' : System γ σ), callLoop K X fuel s = some s' →
      s'.controller._consecutiveMicroappCallCounter = 0 := by
  intro fuel
  induction fuel with
  | zero => intro s s' h; simp [callLoop] at h
  | succ fuel ih =>
    intro s s' h
    rw [callLoop_succ] at h
    cases hack : (handleAck (callMicroapp K X s)).1
    · simp only [hack, Bool.not_false, if_true, Option.some.injEq] at h
      rw [← h]
      exact (handleAck_spec _).2.1 hack
    · cases hreq : (handleRequest K X (handleAck (callMicroapp K X s)).2).1
      · simp only [hack, hreq, Bool.not_true, Bool.false_eq_true, if_false,
          Option.some.injEq] at h
        rw [← h, handleRequest_counter, hreq]
        rfl
      · simp only [hack, hreq, Bool.not_true, Bool.false_eq_true, if_false, if_true] at h
        exact ih _ _ h

theorem reachable_counter {γ σ : Type} (K : Constants) (X : Env γ σ) (start s : System γ σ)
    (h0 : start.controller._consecutiveMicroappCallCounter = 0) (hr : Reachable K X start s) :
    s.controller._consecutiveMicroappCallCounter = 0 := by
  induction hr with
  | start => exact h0
  | tick fuel s s' _ hstep ih =>
    unfold tickMicroapp at hstep
    split at hstep
    · simp only [Option.some.injEq] at hstep
      rw [← hstep]
      exact ih
    · exact callLoop_counter K X fuel _ s' hstep
  | softInterrupt fuel s s' _ hstep ih =>
    unfold generateSoftInterrupt at hstep
    split at hstep
    · simp only [Option.some.injEq] at hstep
      rw [← hstep]
      exact ih
    · exact callLoop_counter K X fuel _ s' hstep
  | hostWrite s output host _ ih => exact ih

theorem allowSoftInterrupts_iff (K : Constants) (c : MicroappController) :
    allowSoftInterrupts K c = true ↔
      0 < c._emptySoftInterruptSlots ∧
        c._softInterruptCounter < K.MICROAPP_MAX_SOFT_INTERRUPTS_WITHIN_A_TICK := by
  unfold allowSoftInterrupts
  split
  · simp only [Bool.false_eq_true, false_iff]
    omega
  · split
    · simp only [Bool.false_eq_true, false_iff]
      omega
    · simp only [true_iff]
      omega

/-- C14: generateSoftInterrupt proceeds exactly when emptyInterruptSlots > 0 and
softInterruptCounter < MICROAPP_MAX_SOFT_INTERRUPTS_WITHIN_A_TICK at entry. Otherwise it returns
the state as it was: no resume, the outgoing buffer, softInterruptCounter and
emptyInterruptSlots unchanged. When it proceeds it returns, the first effect is a resume of
the coroutine on the outgoing buffer with ack Request written into its header, and
softInterruptCounter is one more than at entry. -/
theorem generateSoftInterrupt_gate {γ σ : Type} (K : Constants) (X : Env γ σ)
    (s : System γ σ) :
    (¬ (0 < s.controller._emptySoftInterruptSlots ∧
        s.controller._softInterruptCounter < K.MICROAPP_MAX_SOFT_INTERRUPTS_WITHIN_A_TICK) →
      ∀ fuel, generateSoftInterrupt K X fuel s = some s) ∧
    (0 < s.controller._emptySoftInterruptSlots ∧
        s.controller._softInterruptCounter < K.MICROAPP_MAX_SOFT_INTERRUPTS_WITHIN_A_TICK →
      ∃ s' rest,
        (∀ fuel, K.MICROAPP_MAX_NUMBER_CONSECUTIVE_CALLS
            - s.controller._consecutiveMicroappCallCounter < fuel →
          generateSoftInterrupt K X fuel s = some s') ∧
        s'.controller._softInterruptCounter = s.controller._softInterruptCounter + 1 ∧
        s'.trace = s.trace ++ Effect.resumeCoroutine
          (setOperatingState K s 0 MicroappOperatingState.CS_MICROAPP_RUNNING).ipcRam
          (setAck s.output CS_MICROAPP_SDK_ACK_REQUEST) :: rest) := by
  constructor
  · intro hno fuel
    have hf : allowSoftInterrupts K s.controller = false := by
      rw [← Bool.not_eq_true, allowSoftInterrupts_iff]
      exact hno
    simp [generateSoftInterrupt, hf]
  · intro hyes
    have ht : allowSoftInterrupts K s.controller = true := (allowSoftInterrupts_iff K _).mpr hyes
    obtain ⟨s', hs', _, _, h2, _, _, rest, h5⟩ := callLoop_returns K X
      (K.MICROAPP_MAX_NUMBER_CONSECUTIVE_CALLS - s.controller._consecutiveMicroappCallCounter + 1)
      { s with
        controller :=
          { s.controller with _softInterruptCounter := s.controller._softInterruptCounter + 1 }
        output := setAck s.output CS_MICROAPP_SDK_ACK_REQUEST } (by dsimp only; omega)
    refine ⟨s', rest, ?_, h2, h5⟩
    intro fuel hfuel
    have hm := callLoop_mono K X _ _ s' hs'
      (fuel - (K.MICROAPP_MAX_NUMBER_CONSECUTIVE_CALLS
        - s.controller._consecutiveMicroappCallCounter + 1))
    have hfe : K.MICROAPP_MAX_NUMBER_CONSECUTIVE_CALLS
        - s.controller._consecutiveMicroappCallCounter + 1
        + (fuel - (K.MICROAPP_MAX_NUMBER_CONSECUTIVE_CALLS
          - s.controller._consecutiveMicroappCallCounter + 1)) = fuel := by omega
    rw [hfe] at hm
    simp only [generateSoftInterrupt, ht, Bool.not_true, Bool.false_eq_true, if_false]
    exact hm

theorem generateSoftInterrupt_gate_witness :
    generateSoftInterrupt (sampleConstants true) sampleEnv 0
        { sampleSystem 0 [] with
          controller := { sampleController with _emptySoftInterruptSlots := 0 } }
      = some { sampleSystem 0 [] with
          controller := { sampleController with _emptySoftInterruptSlots := 0 } } ∧
    ∃ s' rest,
      (∀ fuel, (sampleConstants true).MICROAPP_MAX_NUMBER_CONSECUTIVE_CALLS
          - (sampleSystem 0 [0]).controller._consecutiveMicroappCallCounter < fuel →
        generateSoftInterrupt (sampleConstants true) sampleEnv fuel (sampleSystem 0 [0])
          = some s') ∧
      s'.controller._softInterruptCounter
        = (sampleSystem 0 [0]).controller._softInterruptCounter + 1 ∧
      s'.trace = (sampleSystem 0 [0]).trace ++ Effect.resumeCoroutine
        (setOperatingState (sampleConstants true) (sampleSystem 0 [0]) 0
          MicroappOperatingState.CS_MICROAPP_RUNNING).ipcRam
        (setAck (sampleSystem 0 [0]).output CS_MICROAPP_SDK_ACK_REQUEST) :: rest :=
  ⟨(generateSoftInterrupt_gate (sampleConstants true) sampleEnv
      { sampleSystem 0 [] with
        controller := { sampleController with _emptySoftInterruptSlots := 0 } }).1
      (by decide) 0,
    (generateSoftInterrupt_gate (sampleConstants true) sampleEnv (sampleSystem 0 [0])).2
      (by decide)⟩

end Microapp

namespace Microapp

/-- C13: in every state reachable by ticks and soft interrupts from a state with
_consecutiveMicroappCallCounter at 0, whatever the guest does at each resume, one call of
tickMicroapp returns (with any fuel above MICROAPP_MAX_NUMBER_CONSECUTIVE_CALLS, and the same
state for each), the coroutine is resumed at most 1 + MICROAPP_MAX_NUMBER_CONSECUTIVE_CALLS
times during the call, and _consecutiveMicroappCallCounter is 0 when it returns. -/
theorem tickMicroapp_bounded {γ σ : Type} (K : Constants) (X : Env γ σ)
    (start s : System γ σ) (h0 : start.controller._consecutiveMicroappCallCounter = 0)
    (hr : Reachable K X start s) :
    ∃ s', (∀ fuel, K.MICROAPP_MAX_NUMBER_CONSECUTIVE_CALLS < fuel →
        tickMicroapp K X fuel s = some s') ∧
      resumeCount s'.trace ≤ resumeCount s.trace + (1 + K.MICROAPP_MAX_NUMBER_CONSECUTIVE_CALLS) ∧
      s'.controller._consecutiveMicroappCallCounter = 0 := by
  have hzero := reachable_counter K X start s h0 hr
  by_cases htick : s.controller._tickCounter + 1 < MICROAPP_LOOP_FREQUENCY
  · refine ⟨{ s with controller :=
        { s.controller with _tickCounter := s.controller._tickCounter + 1 } }, ?_, ?_, hzero⟩
    · intro fuel _
      simp only [tickMicroapp, if_pos htick]
    · exact Nat.le_add_right _ _
  · obtain ⟨s', hs', hc, _, _, _, hle, _⟩ := callLoop_returns K X
      (K.MICROAPP_MAX_NUMBER_CONSECUTIVE_CALLS + 1)
      { s with
        controller := { s.controller with _tickCounter := 0, _softInterruptCounter := 0 }
        output := setAck (setByte s.output 0 CS_MICROAPP_SDK_TYPE_CONTINUE)
          CS_MICROAPP_SDK_ACK_NO_REQUEST } (by dsimp only; omega)
    refine ⟨s', ?_, ?_, hc⟩
    · intro fuel hfuel
      have hm := callLoop_mono K X _ _ s' hs'
        (fuel - (K.MICROAPP_MAX_NUMBER_CONSECUTIVE_CALLS + 1))
      have hfe : K.MICROAPP_MAX_NUMBER_CONSECUTIVE_CALLS + 1
          + (fuel - (K.MICROAPP_MAX_NUMBER_CONSECUTIVE_CALLS + 1)) = fuel := by omega
      rw [hfe] at hm
      simp only [tickMicroapp, if_neg htick]
      exact hm
    · dsimp only at hle
      omega

theorem tickMicroapp_bounded_witness :
    (∃ s', (∀ fuel, (sampleConstants true).MICROAPP_MAX_NUMBER_CONSECUTIVE_CALLS < fuel →
        tickMicroapp (sampleConstants true) sampleEnv fuel (sampleDue 1 [0, 0, 0, 0, 0, 0])
          = some s') ∧
      resumeCount s'.trace ≤ resumeCount (sampleDue 1 [0, 0, 0, 0, 0, 0]).trace
        + (1 + (sampleConstants true).MICROAPP_MAX_NUMBER_CONSECUTIVE_CALLS) ∧
      s'.controller._consecutiveMicroappCallCounter = 0) ∧
    ((tickMicroapp (sampleConstants true) sampleEnv 4 (sampleDue 1 [0, 0, 0, 0, 0, 0])).map
      (fun s' => resumeCount s'.trace)) = some 4 :=
  ⟨tickMicroapp_bounded (sampleConstants true) sampleEnv (sampleDue 1 [0, 0, 0, 0, 0, 0])
      (sampleDue 1 [0, 0, 0, 0, 0, 0]) rfl Reachable.start,
    by decide⟩

end Microapp

namespace AssetFiltering

/-! ## The masked input of a filter -/

theorem maskedBytes_snoc (mask : Nat) (d : List Nat) (a : Nat) :
    maskedBytes mask (d ++ [a])
      = maskedBytes mask d ++ (if Nat.testBit mask d.length then [a] else []) := by
  unfold maskedBytes
  rw [List.enum_append, List.filter_append, List.map_append]
  congr 1
  by_cases h : Nat.testBit mask d.length = true
  · simp [List.enumFrom, h]
  · simp [List.enumFrom, h]

theorem gather_eq_maskedBytes (mask : Nat) (d : List Nat) :
    ((List.range d.length).filter (fun bitIndex => isBitSet mask bitIndex)).map
        (fun bitIndex => d.getD bitIndex 0)
      = maskedBytes mask d := by
  induction d using List.reverseRecOn with
  | nil => rfl
  | append_singleton d a ih =>
    rw [maskedBytes_snoc, ← ih, List.length_append, List.length_singleton, List.range_succ,
      List.filter_append, List.map_append]
    congr 1
    · apply List.map_congr_left
      intro i hi
      have hlt : i < d.length := List.mem_range.mp (List.mem_of_mem_filter hi)
      simp [List.getD_eq_getElem?_getD, List.getElem?_append_left hlt]
    · by_cases h : Nat.testBit mask d.length = true
      · simp [isBitSet, h]
      · simp [isBitSet, h]

theorem maskedBytes_length_le (mask : Nat) (d : List Nat) :
    (maskedBytes mask d).length ≤ d.length := by
  unfold maskedBytes
  rw [List.length_map]
  exact (List.length_filter_le _ _).trans (by rw [List.enum_length])

theorem maskedBytes_sublist (mask : Nat) (d : List Nat) : (maskedBytes mask d).Sublist d := by
  induction d using List.reverseRecOn with
  | nil => exact List.Sublist.refl _
  | append_singleton d a ih =>
    rw [maskedBytes_snoc]
    split
    · exact List.Sublist.append ih (List.Sublist.refl _)
    · rw [List.append_nil]
      exact ih.trans (List.sublist_append_left _ _)

end AssetFiltering

namespace AssetFiltering

/-- C11: for a filter with input type MaskedAdDataType(t, mask) and an advertisement whose
first field of type t has the bytes d: if d has more than 31 bytes the default value is
returned, so the filter does not accept; otherwise the delegate is called on the filter body
with exactly the bytes of d at the indices whose bit is set in the mask, in increasing order
of the index, a subsequence of d of at most 31 bytes. -/
theorem masked_input {σ α : Type} (X : Collaborators σ) (assetFilter : AssetFilter)
    (device : scanned_device_t) (selector : masked_ad_data_type_selector_t) (d : List Nat)
    (delegateExpression : FilterInterface → List Nat → α) (defaultValue : α)
    (hfield : X.findAdvType selector.adDataType device.data = some d) :
    (d.length > 31 →
      prepareFilterInputAndCallDelegate X assetFilter device
          (AssetFilterInput.MaskedAdDataType (some selector)) delegateExpression defaultValue
        = defaultValue ∧
      (assetFilter.inputType = AssetFilterInput.MaskedAdDataType (some selector) →
        filterAcceptsScannedDevice X assetFilter device = false)) ∧
    (d.length ≤ 31 →
      (maskedBytes selector.adDataMask d).length ≤ 31 ∧
      (maskedBytes selector.adDataMask d).Sublist d ∧
      (assetFilter.filterType = AssetFilterType.CuckooFilter →
        prepareFilterInputAndCallDelegate X assetFilter device
            (AssetFilterInput.MaskedAdDataType (some selector)) delegateExpression defaultValue
          = delegateExpression assetFilter.cuckooFilter (maskedBytes selector.adDataMask d) ∧
        (assetFilter.inputType = AssetFilterInput.MaskedAdDataType (some selector) →
          filterAcceptsScannedDevice X assetFilter device
            = assetFilter.cuckooFilter.contains (maskedBytes selector.adDataMask d))) ∧
      (assetFilter.filterType = AssetFilterType.ExactMatchFilter →
        prepareFilterInputAndCallDelegate X assetFilter device
            (AssetFilterInput.MaskedAdDataType (some selector)) delegateExpression defaultValue
          = delegateExpression assetFilter.exactMatchFilter (maskedBytes selector.adDataMask d) ∧
        (assetFilter.inputType = AssetFilterInput.MaskedAdDataType (some selector) →
          filterAcceptsScannedDevice X assetFilter device
            = assetFilter.exactMatchFilter.contains (maskedBytes selector.adDataMask d)))) := by
  have hlong : ∀ {β : Type} (delegate : FilterInterface → List Nat → β) (default : β),
      d.length > 31 →
      prepareFilterInputAndCallDelegate X assetFilter device
        (AssetFilterInput.MaskedAdDataType (some selector)) delegate default = default := by
    intro β delegate default hlen
    unfold prepareFilterInputAndCallDelegate
    cases assetFilter.filterType <;> simp [hfield, hlen]
  have hshort : ∀ {β : Type} (delegate : FilterInterface → List Nat → β) (default : β)
      (view : FilterInterface), d.length ≤ 31 →
      (assetFilter.filterType = AssetFilterType.CuckooFilter ∧ view = assetFilter.cuckooFilter ∨
        assetFilter.filterType = AssetFilterType.ExactMatchFilter ∧
          view = assetFilter.exactMatchFilter) →
      prepareFilterInputAndCallDelegate X assetFilter device
        (AssetFilterInput.MaskedAdDataType (some selector)) delegate default
        = delegate view (maskedBytes selector.adDataMask d) := by
    intro β delegate default view hlen hview
    have hn : ¬ d.length > 31 := by omega
    unfold prepareFilterInputAndCallDelegate
    rcases hview with ⟨ht, hv⟩ | ⟨ht, hv⟩
    · rw [ht, hv]
      simp only [hfield, if_neg hn, gather_eq_maskedBytes]
    · rw [ht, hv]
      simp only [hfield, if_neg hn, gather_eq_maskedBytes]
  refine ⟨fun hlen => ⟨hlong _ _ hlen, fun hin => ?_⟩, fun hlen =>
    ⟨(maskedBytes_length_le _ _).trans hlen, maskedBytes_sublist _ _,
      fun ht => ⟨hshort _ _ _ hlen (Or.inl ⟨ht, rfl⟩), fun hin => ?_⟩,
      fun ht => ⟨hshort _ _ _ hlen (Or.inr ⟨ht, rfl⟩), fun hin => ?_⟩⟩⟩
  · unfold filterAcceptsScannedDevice
    rw [hin]
    exact hlong _ _ hlen
  · unfold filterAcceptsScannedDevice
    rw [hin]
    exact hshort _ _ _ hlen (Or.inl ⟨ht, rfl⟩)
  · unfold filterAcceptsScannedDevice
    rw [hin]
    exact hshort _ _ _ hlen (Or.inr ⟨ht, rfl⟩)

theorem masked_input_witness :
    maskedBytes 0b10101 [0x01, 0x02, 0x03, 0x04, 0x05, 0x06] = [0x01, 0x03, 0x05] ∧
    filterAcceptsScannedDevice samplePayloadCollaborators sampleMaskedFilter
        ⟨[], [0x01, 0x02, 0x03, 0x04, 0x05, 0x06]⟩
      = sampleMaskedFilter.cuckooFilter.contains
          (maskedBytes 0b10101 [0x01, 0x02, 0x03, 0x04, 0x05, 0x06]) ∧
    filterAcceptsScannedDevice samplePayloadCollaborators sampleMaskedFilter
        ⟨[], List.replicate 32 0x01⟩ = false :=
  ⟨by decide,
    (((masked_input samplePayloadCollaborators sampleMaskedFilter
      ⟨[], [0x01, 0x02, 0x03, 0x04, 0x05, 0x06]⟩ ⟨0xFF, 0b10101⟩
      [0x01, 0x02, 0x03, 0x04, 0x05, 0x06] (fun filter data => filter.contains data) false
      rfl).2 (by decide)).2.2.1 rfl).2 rfl,
    ((masked_input samplePayloadCollaborators sampleMaskedFilter
      ⟨[], List.replicate 32 0x01⟩ ⟨0xFF, 0b10101⟩ (List.replicate 32 0x01)
      (fun filter data => filter.contains data) false rfl).1 (by decide)).2 rfl⟩

end AssetFiltering

namespace AssetFiltering

/-! ## The bitmasks and events of a scanned device -/

theorem isBitSet_setBit (value bit i : Nat) :
    isBitSet (setBit value bit) i = (decide (i < 32) && (isBitSet value i || decide (bit = i))) := by
  unfold isBitSet setBit
  rw [Nat.testBit_mod_two_pow, Nat.testBit_or, Nat.one_shiftLeft, Nat.testBit_two_pow]

theorem acceptedEvents_append (t u : List Effect) :
    acceptedEvents (t ++ u) = acceptedEvents t ++ acceptedEvents u := by
  simp [acceptedEvents, List.filterMap_append]

theorem handleAssetAcceptedMacOverMesh_events {σ : Type} (X : Collaborators σ) (w : World σ)
    (filterId : Nat) (filter : AssetFilter) (asset : scanned_device_t) :
    acceptedEvents (handleAssetAcceptedMacOverMesh X w filterId filter asset).trace
      = acceptedEvents w.trace := by
  unfold handleAssetAcceptedMacOverMesh
  dsimp only
  split
  · simp [acceptedEvents_append, acceptedEvents]
  · rfl

theorem handleAssetAcceptedAssetIdOverMesh_events {σ : Type} (X : Collaborators σ) (w : World σ)
    (filterId : Nat) (filter : AssetFilter) (asset : scanned_device_t) :
    acceptedEvents (handleAssetAcceptedAssetIdOverMesh X w filterId filter asset).trace
      = acceptedEvents w.trace := by
  unfold handleAssetAcceptedAssetIdOverMesh
  dsimp only
  split
  · simp [acceptedEvents_append, acceptedEvents]
  · rfl

theorem handleAssetAcceptedNearestAssetId_events {σ : Type} (X : Collaborators σ) (w : World σ)
    (filterId : Nat) (filter : AssetFilter) (asset : scanned_device_t) :
    acceptedEvents (handleAssetAcceptedNearestAssetId X w filterId filter asset).trace
      = acceptedEvents w.trace := by
  unfold handleAssetAcceptedNearestAssetId
  dsimp only
  split
  · split
    · simp [acceptedEvents_append, acceptedEvents]
    · rfl
  · rfl

theorem handleAcceptFilter_cases {σ : Type} (X : Collaborators σ) (n : Nat) (f : AssetFilter)
    (asset : scanned_device_t) (m : filter_output_bitmasks_t) (w : World σ) :
    acceptedEvents (handleAcceptFilter X n f asset m w).2.2.trace = acceptedEvents w.trace ∧
    ((f.exclude = false ∧ filterAcceptsScannedDevice X f asset = true ∧
        f.outFormat = AssetFilterOutputFormat.Mac ∧
        (handleAcceptFilter X n f asset m w).2.1
          = { m with _forwardMac := setBit m._forwardMac n }) ∨
      (f.exclude = false ∧ filterAcceptsScannedDevice X f asset = true ∧
        f.outFormat = AssetFilterOutputFormat.AssetId ∧
        (handleAcceptFilter X n f asset m w).2.1
          = { m with _forwardAssetId := setBit m._forwardAssetId n }) ∨
      (f.exclude = false ∧ filterAcceptsScannedDevice X f asset = true ∧
        f.outFormat = AssetFilterOutputFormat.AssetIdNearest ∧
        X.BUILD_CLOSEST_CROWNSTONE_TRACKER = true ∧
        (handleAcceptFilter X n f asset m w).2.1
          = { m with _nearestAssetId := setBit m._nearestAssetId n }) ∨
      ((f.exclude = true ∨ filterAcceptsScannedDevice X f asset = false ∨
          (f.outFormat = AssetFilterOutputFormat.AssetIdNearest ∧
            X.BUILD_CLOSEST_CROWNSTONE_TRACKER = false) ∨
          ∃ formatByte, f.outFormat = AssetFilterOutputFormat.other formatByte) ∧
        (handleAcceptFilter X n f asset m w).2.1 = m)) := by
  unfold handleAcceptFilter
  cases hex : f.exclude
  · cases hacc : filterAcceptsScannedDevice X f asset
    · exact ⟨by simp, Or.inr (Or.inr (Or.inr ⟨Or.inr (Or.inl rfl), by simp⟩))⟩
    · cases hfmt : f.outFormat with
      | Mac =>
        exact ⟨by simpa using handleAssetAcceptedMacOverMesh_events X w n f asset,
          Or.inl ⟨rfl, rfl, rfl, by simp⟩⟩
      | AssetId =>
        exact ⟨by simpa using handleAssetAcceptedAssetIdOverMesh_events X w n f asset,
          Or.inr (Or.inl ⟨rfl, rfl, rfl, by simp⟩)⟩
      | AssetIdNearest =>
        cases hb : X.BUILD_CLOSEST_CROWNSTONE_TRACKER
        · exact ⟨by simp, Or.inr (Or.inr (Or.inr ⟨Or.inr (Or.inr (Or.inl ⟨rfl, rfl⟩)), by simp⟩))⟩
        · exact ⟨by simpa using handleAssetAcceptedNearestAssetId_events X w n f asset,
            Or.inr (Or.inr (Or.inl ⟨rfl, rfl, rfl, rfl, by simp⟩))⟩
      | other formatByte =>
        exact ⟨by simp, Or.inr (Or.inr (Or.inr ⟨Or.inr (Or.inr (Or.inr ⟨formatByte, rfl⟩)),
          by simp⟩))⟩
  · exact ⟨by simp, Or.inr (Or.inr (Or.inr ⟨Or.inl rfl, by simp⟩))⟩

theorem acceptLoop_snoc {σ : Type} (X : Collaborators σ) (ready : Bool) (l : List AssetFilter)
    (f : AssetFilter) (asset : scanned_device_t) (w : World σ) :
    acceptLoop X ⟨ready, l ++ [f]⟩ asset w
      = (handleAcceptFilter X l.length f asset (acceptLoop X ⟨ready, l⟩ asset w).1
          (acceptLoop X ⟨ready, l⟩ asset w).2).2 := by
  unfold acceptLoop
  simp [List.enum_append, List.foldl_append, List.enumFrom]

end AssetFiltering

namespace AssetFiltering

theorem isBitSet_setBit_low (value bit i : Nat) (hbit : bit < 32)
    (hhigh : ∀ j, bit ≤ j → isBitSet value j = false) :
    isBitSet (setBit value bit) i = (isBitSet value i || decide (bit = i)) := by
  rw [isBitSet_setBit]
  by_cases hi : i < 32
  · simp [hi]
  · have hv := hhigh i (by omega)
    have hne : ¬ bit = i := by omega
    simp [hi, hv, hne]

theorem masksFor_snoc {σ : Type} (X : Collaborators σ) (asset : scanned_device_t)
    (l : List AssetFilter) (f : AssetFilter) (m m' : filter_output_bitmasks_t)
    (hm : MasksFor X asset l m)
    (hmac : ∀ i, isBitSet m'._forwardMac i = (isBitSet m._forwardMac i ||
      (decide (l.length = i) && decide (f.exclude = false ∧
        filterAcceptsScannedDevice X f asset = true ∧
        f.outFormat = AssetFilterOutputFormat.Mac))))
    (hass : ∀ i, isBitSet m'._forwardAssetId i = (isBitSet m._forwardAssetId i ||
      (decide (l.length = i) && decide (f.exclude = false ∧
        filterAcceptsScannedDevice X f asset = true ∧
        f.outFormat = AssetFilterOutputFormat.AssetId))))
    (hnear : ∀ i, isBitSet m'._nearestAssetId i = (isBitSet m._nearestAssetId i ||
      (decide (l.length = i) && decide (f.exclude = false ∧
        filterAcceptsScannedDevice X f asset = true ∧
        f.outFormat = AssetFilterOutputFormat.AssetIdNearest ∧
        X.BUILD_CLOSEST_CROWNSTONE_TRACKER = true)))) :
    MasksFor X asset (l ++ [f]) m' := by
  constructor
  · intro i filter h
    rcases Nat.lt_trichotomy i l.length with hi | hi | hi
    · rw [List.getElem?_append_left hi] at h
      obtain ⟨a, b, c⟩ := hm.1 i filter h
      have hne : ¬ l.length = i := by omega
      rw [hmac, hass, hnear]
      simp only [hne, decide_False, Bool.false_and, Bool.or_false]
      exact ⟨a, b, c⟩
    · subst hi
      have hf : filter = f := by simpa using h.symm
      subst hf
      obtain ⟨a, b, c⟩ := hm.2 l.length (Nat.le_refl _)
      rw [hmac, hass, hnear, a, b, c]
      simp
    · exfalso
      rw [List.getElem?_eq_none (by simp; omega)] at h
      exact absurd h (by simp)
  · intro i hi
    rw [List.length_append, List.length_singleton] at hi
    obtain ⟨a, b, c⟩ := hm.2 i (by omega)
    have hne : ¬ l.length = i := by omega
    rw [hmac, hass, hnear, a, b, c]
    simp [hne]

theorem acceptLoop_masks {σ : Type} (X : Collaborators σ) (ready : Bool)
    (asset : scanned_device_t) (w : World σ) (l : List AssetFilter) (hlen : l.length ≤ 32) :
    MasksFor X asset l (acceptLoop X ⟨ready, l⟩ asset w).1 ∧
      acceptedEvents (acceptLoop X ⟨ready, l⟩ asset w).2.trace = acceptedEvents w.trace := by
  induction l using List.reverseRecOn with
  | nil =>
    refine ⟨⟨fun i filter h => by simp at h, fun i _ => ?_⟩, rfl⟩
    simp [acceptLoop, isBitSet]
  | append_singleton l f ih =>
    rw [List.length_append, List.length_singleton] at hlen
    obtain ⟨hm, hev⟩ := ih (by omega)
    rw [acceptLoop_snoc]
    obtain ⟨hev', hcase⟩ := handleAcceptFilter_cases X l.length f asset
      (acceptLoop X ⟨ready, l⟩ asset w).1 (acceptLoop X ⟨ready, l⟩ asset w).2
    refine ⟨?_, hev'.trans hev⟩
    have hhigh := hm.2
    rcases hcase with ⟨h1, h2, h3, h4⟩ | ⟨h1, h2, h3, h4⟩ | ⟨h1, h2, h3, hb, h4⟩ | ⟨hnot, h4⟩
    · rw [h4]
      refine masksFor_snoc X asset l f _ _ hm ?_ ?_ ?_
      · intro i
        dsimp only
        rw [isBitSet_setBit_low _ _ _ (by omega) (fun j hj => (hhigh j hj).1)]
        simp [h1, h2, h3]
      · intro i; simp [h3]
      · intro i; simp [h3]
    · rw [h4]
      refine masksFor_snoc X asset l f _ _ hm ?_ ?_ ?_
      · intro i; simp [h3]
      · intro i
        dsimp only
        rw [isBitSet_setBit_low _ _ _ (by omega) (fun j hj => (hhigh j hj).2.1)]
        simp [h1, h2, h3]
      · intro i; simp [h3]
    · rw [h4]
      refine masksFor_snoc X asset l f _ _ hm ?_ ?_ ?_
      · intro i; simp [h3]
      · intro i; simp [h3]
      · intro i
        dsimp only
        rw [isBitSet_setBit_low _ _ _ (by omega) (fun j hj => (hhigh j hj).2.2)]
        simp [h1, h2, h3, hb]
    · rw [h4]
      refine masksFor_snoc X asset l f _ _ hm ?_ ?_ ?_ <;> intro i <;>
        rcases hnot with h | h | ⟨h, hb⟩ | ⟨formatByte, h⟩ <;>
        first
          | simp [h, hb]
          | simp [h]

end AssetFiltering

namespace AssetFiltering

theorem acceptedEvents_dispatchLoop (filterCount combinedMasks : Nat) :
    acceptedEvents (dispatchLoop filterCount combinedMasks)
      = ((List.range filterCount).filter (fun i => isBitSet combinedMasks i)).map
          (fun i => (i, combinedMasks)) := by
  unfold dispatchLoop
  generalize (List.range filterCount).filter (fun i => isBitSet combinedMasks i) = l
  induction l with
  | nil => rfl
  | cons a l ih =>
    simp only [List.map_cons]
    rw [← ih]
    rfl

theorem isBitSet_combined (m : filter_output_bitmasks_t) (i : Nat) :
    isBitSet m.combined i
      = (isBitSet m._forwardAssetId i || isBitSet m._forwardMac i
          || isBitSet m._nearestAssetId i) := by
  unfold isBitSet filter_output_bitmasks_t.combined
  rw [Nat.testBit_or, Nat.testBit_or]

/-- C12, as the code has it in a build without BUILD_CLOSEST_CROWNSTONE_TRACKER: the only
filter of a ready store is not an exclude filter, accepts the device and has output format
AssetIdNearest, yet no bit is set in any bitmask and no event is dispatched. -/
theorem nearest_without_tracker :
    sampleNearestStore.isReady = true ∧
    isAssetRejected sampleNoTracker sampleNearestStore sampleDevice = false ∧
    sampleNearestStore.filters.map (fun filter =>
        (filter.exclude, filterAcceptsScannedDevice sampleNoTracker filter sampleDevice,
          filter.outFormat))
      = [(false, true, AssetFilterOutputFormat.AssetIdNearest)] ∧
    (acceptLoop sampleNoTracker sampleNearestStore sampleDevice ⟨0, []⟩).1 = ⟨0, 0, 0⟩ ∧
    (handleScannedDevice sampleNoTracker sampleNearestStore ⟨0, []⟩ sampleDevice).trace = [] := by
  decide

/-- C12, amended: for a ready store of at most 8 filters and a device that no exclude filter
rejects, after the loop over the filters bit i of forwardMac, forwardAssetId or nearestAssetId
is set exactly when the filter at index i is not an exclude filter, accepts the device and
has that output format, for nearestAssetId only in a build with
BUILD_CLOSEST_CROWNSTONE_TRACKER; no bit is set at an index without a filter. Afterwards one
EVT_ASSET_ACCEPTED event with the combined masks is dispatched for every filter index whose
bit is set in the combined masks, in increasing order of the index, and these are the only
such events; none is dispatched when the combined masks are zero. -/
theorem handleScannedDevice_masks_events {σ : Type} (X : Collaborators σ)
    (store : AssetFilterStore) (w : World σ) (asset : scanned_device_t)
    (hready : store.isReady = true) (hrej : isAssetRejected X store asset = false)
    (hcount : store.filters.length ≤ 8) :
    (∀ i filter, store.filters[i]? = some filter →
      (isBitSet (acceptLoop X store asset w).1._forwardMac i = true ↔
        filter.exclude = false ∧ filterAcceptsScannedDevice X filter asset = true ∧
          filter.outFormat = AssetFilterOutputFormat.Mac) ∧
      (isBitSet (acceptLoop X store asset w).1._forwardAssetId i = true ↔
        filter.exclude = false ∧ filterAcceptsScannedDevice X filter asset = true ∧
          filter.outFormat = AssetFilterOutputFormat.AssetId) ∧
      (isBitSet (acceptLoop X store asset w).1._nearestAssetId i = true ↔
        filter.exclude = false ∧ filterAcceptsScannedDevice X filter asset = true ∧
          filter.outFormat = AssetFilterOutputFormat.AssetIdNearest ∧
          X.BUILD_CLOSEST_CROWNSTONE_TRACKER = true)) ∧
    (∀ i, store.filters.length ≤ i →
      isBitSet (acceptLoop X store asset w).1.combined i = false) ∧
    acceptedEvents (handleScannedDevice X store w asset).trace
      = acceptedEvents w.trace ++
        ((List.range store.filters.length).filter
          (fun i => isBitSet (acceptLoop X store asset w).1.combined i)).map
          (fun i => (i, (acceptLoop X store asset w).1.combined)) ∧
    ((acceptLoop X store asset w).1.combined = 0 →
      acceptedEvents (handleScannedDevice X store w asset).trace = acceptedEvents w.trace) := by
  obtain ⟨hm, hev⟩ := acceptLoop_masks X store.isReady asset w store.filters (by omega)
  have heta : (⟨store.isReady, store.filters⟩ : AssetFilterStore) = store := rfl
  rw [heta] at hm hev
  have hhigh : ∀ i, store.filters.length ≤ i →
      isBitSet (acceptLoop X store asset w).1.combined i = false := by
    intro i hi
    obtain ⟨a, b, c⟩ := hm.2 i hi
    rw [isBitSet_combined, a, b, c]
    rfl
  have hlt : (acceptLoop X store asset w).1.combined < 2 ^ 8 :=
    Nat.lt_pow_two_of_testBit _ (fun i hi => hhigh i (by omega))
  have htrace : acceptedEvents (handleScannedDevice X store w asset).trace
      = acceptedEvents w.trace ++
        ((List.range store.filters.length).filter
          (fun i => isBitSet (acceptLoop X store asset w).1.combined i)).map
          (fun i => (i, (acceptLoop X store asset w).1.combined)) := by
    unfold handleScannedDevice
    simp only [hready, hrej, Bool.not_true, Bool.false_eq_true, if_false]
    by_cases hz : (acceptLoop X store asset w).1.combined = 0
    · rw [if_pos hz, hev, hz]
      simp [isBitSet]
    · rw [if_neg hz, Nat.mod_eq_of_lt hlt]
      dsimp only
      rw [acceptedEvents_append, acceptedEvents_dispatchLoop, hev]
  refine ⟨hm.1, hhigh, htrace, ?_⟩
  intro hz
  rw [htrace, hz]
  simp [isBitSet]

theorem handleScannedDevice_masks_events_witness :
    acceptedEvents
        (handleScannedDevice (sampleCollaborators 0) sampleForwardStore ⟨0, []⟩ sampleDevice).trace
      = [(0, 7), (1, 7), (2, 7)] ∧
    (acceptLoop (sampleCollaborators 0) sampleForwardStore sampleDevice ⟨0, []⟩).1
      = ⟨0b010, 0b101, 0⟩ := by
  refine ⟨?_, by decide⟩
  rw [(handleScannedDevice_masks_events (sampleCollaborators 0) sampleForwardStore ⟨0, []⟩
    sampleDevice (by decide) (by decide) (by decide)).2.2.1]
  decide

end AssetFiltering

namespace CuckooFilter

/-! ## The cleared filter -/

theorem lookup_clear (d : cuckoo_filter_data_t) (b ii : Nat) :
    lookupFingerprint (clear d) b ii = 0 := by
  unfold lookupFingerprint clear
  dsimp only
  by_cases h : b * d.nestsPerBucket + ii < (List.replicate (bucketCount d * d.nestsPerBucket) 0).length
  · rw [List.getD_eq_getElem _ _ h, List.getElem_replicate]
  · rw [List.getD_eq_default _ _ (Nat.le_of_not_lt h)]

theorem contains_clear_iff (d : cuckoo_filter_data_t) (efp : cuckoo_extended_fingerprint_t)
    (hn : 1 ≤ d.nestsPerBucket) :
    contains (clear d) efp = false ↔ efp.fingerprint ≠ 0 := by
  rw [contains_eq_false_iff]
  constructor
  · intro h hz
    have := (h 0 hn).1
    rw [lookup_clear] at this
    exact this hz.symm
  · intro h ii _
    rw [lookup_clear, lookup_clear]
    exact ⟨fun hz => h hz.symm, fun hz => h hz.symm⟩

theorem init_eq_clear (bucketCount nestsPerBucket : Nat) :
    init bucketCount nestsPerBucket = clear (init bucketCount nestsPerBucket) := by
  simp [init, clear, CuckooFilter.bucketCount]

/-- C28: on a filter that has just been cleared, by clear or by init, with at least one nest
per bucket, contains(efp) is false exactly when the fingerprint of efp is not 0, whatever its
buckets; and hash is the CRC-16 cast to 16 bits, so a key whose CRC-16 is 0 has fingerprint 0
and is reported as contained by the empty filter. -/
theorem contains_cleared_iff (E : Ext) (d : cuckoo_filter_data_t)
    (efp : cuckoo_extended_fingerprint_t) (bucketCount nestsPerBucket : Nat) :
    (1 ≤ d.nestsPerBucket → (contains (clear d) efp = false ↔ efp.fingerprint ≠ 0)) ∧
    (1 ≤ (init bucketCount nestsPerBucket).nestsPerBucket →
      (contains (init bucketCount nestsPerBucket) efp = false ↔ efp.fingerprint ≠ 0)) ∧
    (∀ key, hash E key = E.crc16 key % 2 ^ 16) ∧
    (1 ≤ d.nestsPerBucket → ∀ key, E.crc16 key % 2 ^ 16 = 0 →
      containsKey E (clear d) key = true) := by
  refine ⟨contains_clear_iff d efp, ?_, fun _ => rfl, ?_⟩
  · intro hn
    rw [init_eq_clear]
    exact contains_clear_iff _ efp hn
  · intro hn key hkey
    have hiff := contains_clear_iff d (getExtendedFingerprintOfKey E (clear d) key) hn
    have hz : (getExtendedFingerprintOfKey E (clear d) key).fingerprint = 0 := hkey
    unfold containsKey
    by_contra hc
    exact (hiff.mp (by simpa using hc)) hz

theorem contains_cleared_iff_witness :
    (contains (clear sampleFilter) ⟨7, 0, 1⟩ = false ↔ (7 : Nat) ≠ 0) ∧
    (contains (init 2 2) ⟨0, 0, 1⟩ = false ↔ (0 : Nat) ≠ 0) ∧
    containsKey sampleExt (clear sampleFilter) [0, 0] = true :=
  ⟨(contains_cleared_iff sampleExt sampleFilter ⟨7, 0, 1⟩ 2 2).1 (by decide),
    (contains_cleared_iff sampleExt sampleFilter ⟨0, 0, 1⟩ 2 2).2.1 (by decide),
    (contains_cleared_iff sampleExt sampleFilter ⟨0, 0, 1⟩ 2 2).2.2.2 (by decide) [0, 0]
      (by decide)⟩

end CuckooFilter

namespace CuckooFilter

/-! ## Front-loading after a removal -/

theorem store_store (d : cuckoo_filter_data_t) (b i v w : Nat) :
    storeFingerprint (storeFingerprint d b i v) b i w = storeFingerprint d b i w := by
  simp [storeFingerprint, List.set_set]

theorem frontLoad_fold_eq (d : cuckoo_filter_data_t) (b ii : Nat) :
    ∀ (js : List Nat), (∀ jj, jj ∈ js → ii < jj) →
      js.reverse.foldl
          (fun acc jj =>
            if lookupFingerprint acc b jj ≠ 0 then
              storeFingerprint acc b ii (lookupFingerprint acc b jj)
            else acc)
          d
        = match js.find? (fun jj => decide (lookupFingerprint d b jj ≠ 0)) with
          | some jj => storeFingerprint d b ii (lookupFingerprint d b jj)
          | none => d := by
  intro js
  induction js with
  | nil => intro _; rfl
  | cons a js ih =>
    intro hall
    have hlt : ii < a := hall a (List.mem_cons_self _ _)
    rw [List.reverse_cons, List.foldl_append, ih (fun jj hjj => hall jj (List.mem_cons_of_mem _ hjj))]
    simp only [List.foldl_cons, List.foldl_nil, List.find?_cons]
    have hread : ∀ acc : cuckoo_filter_data_t,
        (acc = d ∨ ∃ v, acc = storeFingerprint d b ii v) →
        lookupFingerprint acc b a = lookupFingerprint d b a := by
      intro acc hacc
      rcases hacc with h | ⟨v, h⟩
      · rw [h]
      · rw [h, lookup_store, if_neg]
        intro hc
        omega
    cases hfind : js.find? (fun jj => decide (lookupFingerprint d b jj ≠ 0)) with
    | none =>
      simp only []
      by_cases hz : lookupFingerprint d b a ≠ 0
      · simp [hz]
      · simp [hz]
    | some jj =>
      simp only []
      rw [hread _ (Or.inr ⟨_, rfl⟩)]
      by_cases hz : lookupFingerprint d b a ≠ 0
      · simp [hz, store_store]
      · simp [hz]

theorem firstNonzeroBehind_eq (d : cuckoo_filter_data_t) (b ii : Nat) :
    ((List.range d.nestsPerBucket).filter (fun jj => decide (ii < jj))).find?
        (fun jj => decide (lookupFingerprint d b jj ≠ 0))
      = firstNonzeroBehind d b ii := by
  unfold firstNonzeroBehind
  rw [List.find?_filter]
  congr 1
  funext jj
  simp

theorem frontLoad_eq (d : cuckoo_filter_data_t) (b ii : Nat) :
    frontLoad d b ii
      = match firstNonzeroBehind d b ii with
        | some jj => storeFingerprint d b ii (lookupFingerprint d b jj)
        | none => d := by
  unfold frontLoad
  rw [List.filter_reverse, frontLoad_fold_eq d b ii _
    (fun jj hjj => by simpa using (List.mem_filter.mp hjj).2), firstNonzeroBehind_eq]

theorem firstNonzeroBehind_some (d : cuckoo_filter_data_t) (b ii jj : Nat)
    (h : firstNonzeroBehind d b ii = some jj) :
    ii < jj ∧ jj < d.nestsPerBucket ∧ lookupFingerprint d b jj ≠ 0 ∧
      ∀ k, ii < k → k < jj → lookupFingerprint d b k = 0 := by
  unfold firstNonzeroBehind at h
  rw [List.find?_range_eq_some] at h
  obtain ⟨hp, hmem, hmin⟩ := h
  have hp' := of_decide_eq_true hp
  refine ⟨hp'.1, List.mem_range.mp hmem, hp'.2, ?_⟩
  intro k hk hkj
  have := hmin k hkj
  by_contra hne
  simp [hk, hne] at this

theorem firstNonzeroBehind_none (d : cuckoo_filter_data_t) (b ii : Nat)
    (h : firstNonzeroBehind d b ii = none) :
    ∀ k, ii < k → k < d.nestsPerBucket → lookupFingerprint d b k = 0 := by
  unfold firstNonzeroBehind at h
  rw [List.find?_eq_none] at h
  intro k hk hkn
  have := h k (List.mem_range.mpr hkn)
  by_contra hne
  simp [hk, hne] at this

/-- C25, the code on a failing input: in the bucket 1 2 3 4 the fingerprint 1 is removed from
nest 0; the highest nonzero nest behind nest 0 is nest 3 with fingerprint 4, yet nest 0 ends up
with the fingerprint 2 of nest 1, the lowest nonzero nest behind it, and nest 1 keeps its
copy. -/
theorem frontLoad_copies_first :
    lookupFingerprint sampleBucket 0 0 = 1 ∧
    lastNonzeroBehind sampleBucket 0 0 = some 3 ∧
    lookupFingerprint sampleBucket 0 3 = 4 ∧
    removeFingerprintFromBucket sampleBucket 1 0
      = (true, { sampleBucket with bucketArray := [2, 2, 3, 4] }) ∧
    lookupFingerprint (removeFingerprintFromBucket sampleBucket 1 0).2 0 0 ≠ 4 := by
  decide

end CuckooFilter

namespace CuckooFilter

/-! ## Front-loading is an invariant -/

theorem lookup_store_nest (d : cuckoo_filter_data_t) (b i v b' k : Nat)
    (hi : i < d.nestsPerBucket) (hk : k < d.nestsPerBucket) :
    lookupFingerprint (storeFingerprint d b i v) b' k =
      if b = b' ∧ i = k ∧ b * d.nestsPerBucket + i < d.bucketArray.length then v
      else lookupFingerprint d b' k := by
  rw [lookup_store]
  by_cases h : b * d.nestsPerBucket + i = b' * d.nestsPerBucket + k
      ∧ b * d.nestsPerBucket + i < d.bucketArray.length
  · obtain ⟨hb, hik⟩ := flat_inj d.nestsPerBucket b i b' k hi hk h.1
    rw [if_pos h, if_pos ⟨hb, hik, h.2⟩]
  · rw [if_neg h, if_neg]
    rintro ⟨hb, hik, hlt⟩
    exact h ⟨by rw [hb, hik], hlt⟩

theorem frontLoaded_congr (d d' : cuckoo_filter_data_t) (ha : d'.bucketArray = d.bucketArray)
    (hn : d'.nestsPerBucket = d.nestsPerBucket) (h : FrontLoaded d) : FrontLoaded d' := by
  intro b i j hij hj h0
  unfold lookupFingerprint at h0 ⊢
  rw [ha, hn] at h0 ⊢
  rw [hn] at hj
  exact h b i j hij hj h0

theorem frontLoaded_of_no_nests (d : cuckoo_filter_data_t) (h : d.nestsPerBucket = 0) :
    FrontLoaded d := by
  intro b i j _ hj
  omega

theorem frontLoaded_store (d : cuckoo_filter_data_t) (b i v : Nat) (h : FrontLoaded d)
    (hv : v ≠ 0) (hi : i < d.nestsPerBucket)
    (hfull : ∀ k, k < i → lookupFingerprint d b k ≠ 0) :
    FrontLoaded (storeFingerprint d b i v) := by
  intro b' i' j' hij hj h0
  have hj' : j' < d.nestsPerBucket := hj
  have hi' : i' < d.nestsPerBucket := by omega
  rw [lookup_store_nest d b i v b' i' hi hi'] at h0
  rw [lookup_store_nest d b i v b' j' hi hj']
  split at h0
  · exact absurd h0 hv
  · have hz := h b' i' j' hij hj' h0
    split
    · rename_i hc
      exfalso
      obtain ⟨hb, hik, _⟩ := hc
      subst hb
      subst hik
      exact hfull i' hij h0
    · exact hz

theorem frontLoaded_store_zero (d : cuckoo_filter_data_t) (b i : Nat) (h : FrontLoaded d)
    (hi : i < d.nestsPerBucket)
    (hbehind : ∀ k, i < k → k < d.nestsPerBucket → lookupFingerprint d b k = 0) :
    FrontLoaded (storeFingerprint d b i 0) := by
  intro b' i' j' hij hj h0
  have hj' : j' < d.nestsPerBucket := hj
  have hi' : i' < d.nestsPerBucket := by omega
  rw [lookup_store_nest d b i 0 b' i' hi hi'] at h0
  rw [lookup_store_nest d b i 0 b' j' hi hj']
  split
  · rfl
  · split at h0
    · rename_i hc
      obtain ⟨hb, hik, _⟩ := hc
      subst hb
      subst hik
      exact hbehind j' hij hj'
    · exact h b' i' j' hij hj' h0

theorem addFingerprintToBucket_first (d : cuckoo_filter_data_t) (fingerprint b : Nat) :
    (∃ ii, ii < d.nestsPerBucket ∧ lookupFingerprint d b ii = 0 ∧
        (∀ k, k < ii → lookupFingerprint d b k ≠ 0) ∧
        addFingerprintToBucket d fingerprint b
          = (true, storeFingerprint d b ii fingerprint)) ∨
      ((∀ ii, ii < d.nestsPerBucket → lookupFingerprint d b ii ≠ 0) ∧
        addFingerprintToBucket d fingerprint b = (false, d)) := by
  cases hfind : (List.range d.nestsPerBucket).find?
      (fun ii => lookupFingerprint d b ii == 0) with
  | none =>
    right
    refine ⟨?_, by simp [addFingerprintToBucket, hfind]⟩
    intro ii hii
    have := List.find?_eq_none.mp hfind ii (List.mem_range.mpr hii)
    simpa using this
  | some ii =>
    left
    have hspec := List.find?_range_eq_some.mp hfind
    refine ⟨ii, List.mem_range.mp hspec.2.1, by simpa using hspec.1, ?_,
      by simp [addFingerprintToBucket, hfind]⟩
    intro k hk
    simpa using hspec.2.2 k hk

theorem addFingerprintToBucket_frontLoaded (d : cuckoo_filter_data_t) (fingerprint b : Nat)
    (h : FrontLoaded d) (hf : fingerprint ≠ 0) :
    FrontLoaded (addFingerprintToBucket d fingerprint b).2 := by
  rcases addFingerprintToBucket_first d fingerprint b with ⟨ii, hii, _, hfirst, heq⟩ | ⟨_, heq⟩
  · rw [heq]
    exact frontLoaded_store d b ii fingerprint h hf hii hfirst
  · rw [heq]
    exact h

theorem moveLoop_frontLoaded (E : Ext) (seed : Nat) :
    ∀ (n calls : Nat) (d : cuckoo_filter_data_t) (e : cuckoo_extended_fingerprint_t),
      FrontLoaded d → e.fingerprint ≠ 0 → FrontLoaded (moveLoop E seed n calls d e).2 := by
  intro n
  induction n with
  | zero =>
    intro calls d e h _
    exact frontLoaded_congr d _ rfl rfl h
  | succ n ih =>
    intro calls d e h hf
    rcases addFingerprintToBucket_cases d e.fingerprint e.bucketA with
      ⟨ii, _, _, hA⟩ | ⟨hfullA, hA⟩
    · rw [moveLoop_succ_A E seed _ calls d _ e hA]
      have := addFingerprintToBucket_frontLoaded d e.fingerprint e.bucketA h hf
      rw [hA] at this
      exact this
    · rcases addFingerprintToBucket_cases d e.fingerprint e.bucketB with
        ⟨ii, _, _, hB⟩ | ⟨hfullB, hB⟩
      · rw [moveLoop_succ_B E seed _ calls d d _ e hA hB]
        have := addFingerprintToBucket_frontLoaded d e.fingerprint e.bucketB h hf
        rw [hB] at this
        exact this
      · rw [moveLoop_succ_kick E seed _ calls d d d e hA hB]
        by_cases hn : 1 ≤ d.nestsPerBucket
        · have hidx := kickedIndex_lt E seed calls d hn
          have hfull : ∀ k, k < d.nestsPerBucket →
              lookupFingerprint d (kickedBucket E seed calls e) k ≠ 0 := by
            intro k hk
            unfold kickedBucket
            split
            · exact hfullA k hk
            · exact hfullB k hk
          apply ih
          · exact frontLoaded_store d _ _ _ h hf hidx (fun k hk => hfull k (by omega))
          · exact hfull _ hidx
        · apply frontLoaded_of_no_nests
          rw [(moveLoop_fields E seed n (calls + 2) _ _).1]
          show d.nestsPerBucket = 0
          omega

theorem add_frontLoaded (E : Ext) (d : cuckoo_filter_data_t)
    (efp : cuckoo_extended_fingerprint_t) (h : FrontLoaded d) (hf : efp.fingerprint ≠ 0) :
    FrontLoaded (add E d efp).2 := by
  unfold add
  split
  · exact h
  · split
    · exact h
    · exact moveLoop_frontLoaded E _ _ _ d efp h hf

theorem removeFingerprintFromBucket_frontLoaded (d : cuckoo_filter_data_t)
    (fingerprint b : Nat) (h : FrontLoaded d) :
    FrontLoaded (removeFingerprintFromBucket d fingerprint b).2 := by
  rcases removeFingerprintFromBucket_cases d fingerprint b with ⟨ii, hii, _, _, heq⟩ | ⟨_, heq⟩
  · rw [heq, frontLoad_eq]
    have hii0 : ii < (storeFingerprint d b ii 0).nestsPerBucket := hii
    cases hfirst : firstNonzeroBehind (storeFingerprint d b ii 0) b ii with
    | none =>
      have hbehind := firstNonzeroBehind_none _ b ii hfirst
      apply frontLoaded_store_zero d b ii h hii
      intro k hk hkn
      have := hbehind k hk hkn
      rw [lookup_store_nest d b ii 0 b k hii hkn, if_neg (by omega)] at this
      exact this
    | some jj =>
      obtain ⟨hlt, hjn, hne, _⟩ := firstNonzeroBehind_some _ b ii jj hfirst
      have hjn' : jj < d.nestsPerBucket := hjn
      simp only []
      rw [store_store]
      have hread : lookupFingerprint (storeFingerprint d b ii 0) b jj
          = lookupFingerprint d b jj := by
        rw [lookup_store_nest d b ii 0 b jj hii hjn', if_neg (by omega)]
      rw [hread] at hne ⊢
      apply frontLoaded_store d b ii _ h hne hii
      intro k hk hz
      exact hne (h b k jj (by omega) hjn' hz)
  · rw [heq]
    exact h

end CuckooFilter

namespace CuckooFilter

theorem remove_frontLoaded (E : Ext) (d : cuckoo_filter_data_t)
    (efp : cuckoo_extended_fingerprint_t) (h : FrontLoaded d) :
    FrontLoaded (remove E d efp).2 := by
  have hA := removeFingerprintFromBucket_frontLoaded d efp.fingerprint efp.bucketA h
  have hB := removeFingerprintFromBucket_frontLoaded
    (removeFingerprintFromBucket d efp.fingerprint efp.bucketA).2 efp.fingerprint efp.bucketB hA
  unfold remove
  dsimp only
  generalize hr : (if (removeFingerprintFromBucket d efp.fingerprint efp.bucketA).1 = true then
      removeFingerprintFromBucket d efp.fingerprint efp.bucketA
    else removeFingerprintFromBucket
      (removeFingerprintFromBucket d efp.fingerprint efp.bucketA).2
      efp.fingerprint efp.bucketB) = r
  have hFL : FrontLoaded r.2 := by
    rw [← hr]
    split
    · exact hA
    · exact hB
  split
  · split
    · rename_i hv
      have hadd := add_eq_of_victim E r.2 r.2.victim hv
      split
      · exact frontLoaded_congr r.2 _ (by rw [hadd]) (by rw [hadd]) hFL
      · rw [hadd]
        exact hFL
    · exact hFL
  · exact hFL

theorem step_frontLoaded (E : Ext) (d : cuckoo_filter_data_t) (c : Call)
    (h : FrontLoaded d) (hc : ∀ efp, c = Call.add efp → efp.fingerprint ≠ 0) :
    FrontLoaded (step E d c).2 := by
  cases c with
  | add efp => exact add_frontLoaded E d efp h (hc efp rfl)
  | remove efp => exact remove_frontLoaded E d efp h

theorem run_frontLoaded (E : Ext) :
    ∀ (calls : List Call) (d : cuckoo_filter_data_t), FrontLoaded d →
      (∀ efp, Call.add efp ∈ calls → efp.fingerprint ≠ 0) → FrontLoaded (run E d calls) := by
  intro calls
  induction calls with
  | nil => intro d h _; exact h
  | cons c rest ih =>
    intro d h hc
    unfold run
    rw [List.foldl_cons]
    apply ih
    · exact step_frontLoaded E d c h (fun efp he => hc efp (by rw [he]; exact List.mem_cons_self _ _))
    · intro efp hmem
      exact hc efp (List.mem_cons_of_mem _ hmem)

theorem clear_frontLoaded (d : cuckoo_filter_data_t) : FrontLoaded (clear d) := by
  intro b i j _ _ _
  exact lookup_clear d b j

/-- C23: starting from a cleared filter, from clear or from init, after any sequence of add
and remove calls in which every added fingerprint is nonzero, in every bucket no zero nest has
a lower index than a nonzero nest. -/
theorem frontLoaded_invariant (E : Ext) (d : cuckoo_filter_data_t)
    (bucketCount nestsPerBucket : Nat) (calls : List Call)
    (h : ∀ efp, Call.add efp ∈ calls → efp.fingerprint ≠ 0) :
    FrontLoaded (run E (clear d) calls) ∧
      FrontLoaded (run E (init bucketCount nestsPerBucket) calls) := by
  refine ⟨run_frontLoaded E calls _ (clear_frontLoaded d) h, ?_⟩
  apply run_frontLoaded E calls _ _ h
  rw [init_eq_clear]
  exact clear_frontLoaded _

theorem frontLoaded_invariant_witness :
    (run sampleExt (init 1 4)
        [Call.add ⟨1, 0, 0⟩, Call.add ⟨2, 0, 0⟩, Call.add ⟨3, 0, 0⟩, Call.remove ⟨1, 0, 0⟩,
          Call.remove ⟨2, 0, 0⟩]).bucketArray = [2, 2, 3, 0] ∧
    FrontLoaded (run sampleExt (init 1 4)
        [Call.add ⟨1, 0, 0⟩, Call.add ⟨2, 0, 0⟩, Call.add ⟨3, 0, 0⟩, Call.remove ⟨1, 0, 0⟩,
          Call.remove ⟨2, 0, 0⟩]) :=
  ⟨by decide,
    (frontLoaded_invariant sampleExt sampleFilter 1 4
      [Call.add ⟨1, 0, 0⟩, Call.add ⟨2, 0, 0⟩, Call.add ⟨3, 0, 0⟩, Call.remove ⟨1, 0, 0⟩,
        Call.remove ⟨2, 0, 0⟩]
      (by
        intro efp hmem
        simp only [List.mem_cons, Call.add.injEq, List.mem_singleton, reduceCtorEq, or_false,
          List.not_mem_nil] at hmem
        rcases hmem with h | h | h <;> rw [h] <;> decide)).2⟩

end CuckooFilter

namespace CuckooFilter

/-! ## The victim along a sequence of calls -/

theorem moveLoop_true_victim (E : Ext) (seed : Nat) :
    ∀ (n calls : Nat) (d : cuckoo_filter_data_t) (e : cuckoo_extended_fingerprint_t),
      (moveLoop E seed n calls d e).1 = true → (moveLoop E seed n calls d e).2.victim = d.victim := by
  intro n
  induction n with
  | zero =>
    intro calls d e h
    simp [moveLoop] at h
  | succ n ih =>
    intro calls d e h
    rcases addFingerprintToBucket_cases d e.fingerprint e.bucketA with
      ⟨ii, _, _, hA⟩ | ⟨_, hA⟩
    · rw [moveLoop_succ_A E seed _ calls d _ e hA]
      rfl
    · rcases addFingerprintToBucket_cases d e.fingerprint e.bucketB with
        ⟨ii, _, _, hB⟩ | ⟨_, hB⟩
      · rw [moveLoop_succ_B E seed _ calls d d _ e hA hB]
        rfl
      · rw [moveLoop_succ_kick E seed _ calls d d d e hA hB] at h ⊢
        rw [ih _ _ _ h]
        rfl

theorem moveLoop_false_victim (E : Ext) (seed : Nat) :
    ∀ (n calls : Nat) (d : cuckoo_filter_data_t) (e : cuckoo_extended_fingerprint_t),
      1 ≤ d.nestsPerBucket → (n = 0 → e.fingerprint ≠ 0) →
      (moveLoop E seed n calls d e).1 = false →
      (moveLoop E seed n calls d e).2.victim.fingerprint ≠ 0 := by
  intro n
  induction n with
  | zero =>
    intro calls d e _ he _
    exact he rfl
  | succ n ih =>
    intro calls d e hn _ h
    rcases addFingerprintToBucket_cases d e.fingerprint e.bucketA with
      ⟨ii, _, _, hA⟩ | ⟨hfullA, hA⟩
    · rw [moveLoop_succ_A E seed _ calls d _ e hA] at h
      simp at h
    · rcases addFingerprintToBucket_cases d e.fingerprint e.bucketB with
        ⟨ii, _, _, hB⟩ | ⟨hfullB, hB⟩
      · rw [moveLoop_succ_B E seed _ calls d d _ e hA hB] at h
        simp at h
      · rw [moveLoop_succ_kick E seed _ calls d d d e hA hB] at h ⊢
        refine ih _ _ _ (by rw [store_nestsPerBucket]; exact hn) ?_ h
        intro _
        have hidx := kickedIndex_lt E seed calls d hn
        show lookupFingerprint d (kickedBucket E seed calls e) (kickedIndex E seed calls d) ≠ 0
        unfold kickedBucket
        split
        · exact hfullA _ hidx
        · exact hfullB _ hidx

theorem add_victim (E : Ext) (d : cuckoo_filter_data_t) (efp : cuckoo_extended_fingerprint_t)
    (hn : 1 ≤ d.nestsPerBucket) :
    ((add E d efp).1 = false → (add E d efp).2.victim.fingerprint ≠ 0) ∧
      ((add E d efp).1 = true → (add E d efp).2.victim = d.victim) := by
  unfold add
  split
  · exact ⟨fun h => by simp at h, fun _ => rfl⟩
  · split
    · rename_i hv
      exact ⟨fun _ => hv, fun h => by simp at h⟩
    · exact ⟨moveLoop_false_victim E _ MAX_KICK_ATTEMPTS 0 d efp hn
          (fun h => absurd h (by decide)),
        moveLoop_true_victim E _ MAX_KICK_ATTEMPTS 0 d efp⟩

theorem contains_congr (d d' : cuckoo_filter_data_t) (e : cuckoo_extended_fingerprint_t)
    (ha : d'.bucketArray = d.bucketArray) (hn : d'.nestsPerBucket = d.nestsPerBucket) :
    contains d' e = contains d e := by
  unfold contains lookupFingerprint
  rw [ha, hn]

theorem removeFingerprintFromBucket_victim (d : cuckoo_filter_data_t) (fingerprint b : Nat) :
    (removeFingerprintFromBucket d fingerprint b).2.victim = d.victim := by
  rcases removeFingerprintFromBucket_cases d fingerprint b with ⟨ii, _, _, _, heq⟩ | ⟨_, heq⟩
  · rw [heq]
    exact (frontLoad_slotUpdate d b ii).2.2.1
  · rw [heq]

theorem remove_victim (E : Ext) (d : cuckoo_filter_data_t)
    (efp : cuckoo_extended_fingerprint_t) :
    (remove E d efp).2.victim = d.victim ∨
      ((remove E d efp).2.victim = noVictim ∧ (remove E d efp).1 = true ∧
        contains (remove E d efp).2 d.victim = true) := by
  have hA := removeFingerprintFromBucket_victim d efp.fingerprint efp.bucketA
  have hB := removeFingerprintFromBucket_victim
    (removeFingerprintFromBucket d efp.fingerprint efp.bucketA).2 efp.fingerprint efp.bucketB
  unfold remove
  dsimp only
  generalize hr : (if (removeFingerprintFromBucket d efp.fingerprint efp.bucketA).1 = true then
      removeFingerprintFromBucket d efp.fingerprint efp.bucketA
    else removeFingerprintFromBucket
      (removeFingerprintFromBucket d efp.fingerprint efp.bucketA).2
      efp.fingerprint efp.bucketB) = r
  have hv : r.2.victim = d.victim := by
    rw [← hr]
    split
    · exact hA
    · rw [hB, hA]
  split
  · split
    · rename_i hvic
      have hadd := add_eq_of_victim E r.2 r.2.victim hvic
      split
      · rename_i htrue
        right
        refine ⟨rfl, rfl, ?_⟩
        have hc : contains r.2 r.2.victim = true := by
          by_contra hc
          have hfalse : (add E r.2 r.2.victim).1 = false := by
            simp [add, hc, hvic]
          rw [hfalse] at htrue
          exact absurd htrue (by decide)
        rw [← hv, contains_congr r.2 _ r.2.victim (by rw [hadd]) (by rw [hadd])]
        exact hc
      · left
        rw [hadd]
        exact hv
    · left
      exact hv
  · left
    exact hv

end CuckooFilter

namespace CuckooFilter

theorem run_snoc (E : Ext) (d : cuckoo_filter_data_t) (pre : List Call) (c : Call) :
    run E d (pre ++ [c]) = (step E (run E d pre) c).2 := by
  simp [run, List.foldl_append]

theorem run_nestsPerBucket (E : Ext) :
    ∀ (calls : List Call) (d : cuckoo_filter_data_t),
      (run E d calls).nestsPerBucket = d.nestsPerBucket := by
  intro calls
  induction calls with
  | nil => intro d; rfl
  | cons c rest ih =>
    intro d
    unfold run
    rw [List.foldl_cons]
    have := ih (step E d c).2
    unfold run at this
    rw [this]
    cases c with
    | add efp => exact (add_fields E d efp).1
    | remove efp => exact (remove_fields E d efp).1

theorem run_victim_history (E : Ext) (d : cuckoo_filter_data_t)
    (h0 : d.victim.fingerprint = 0) :
    ∀ (calls : List Call), 1 ≤ d.nestsPerBucket → (run E d calls).victim.fingerprint ≠ 0 →
      ∃ pre efp post, calls = pre ++ Call.add efp :: post ∧
        (add E (run E d pre) efp).1 = false := by
  intro calls
  induction calls using List.reverseRecOn with
  | nil =>
    intro _ h
    exact absurd h0 h
  | append_singleton pre c ih =>
    intro hn h
    rw [run_snoc] at h
    have hpre : (run E d pre).victim.fingerprint ≠ 0 →
        ∃ pre' efp post, pre ++ [c] = pre' ++ Call.add efp :: post ∧
          (add E (run E d pre') efp).1 = false := by
      intro hv
      obtain ⟨pre', efp, post, heq, hf⟩ := ih hn hv
      exact ⟨pre', efp, post ++ [c], by rw [heq]; simp, hf⟩
    cases c with
    | add efp =>
      cases hres : (add E (run E d pre) efp).1
      · exact ⟨pre, efp, [], rfl, hres⟩
      · apply hpre
        have hkeep := (add_victim E (run E d pre) efp
          (by rw [run_nestsPerBucket]; exact hn)).2 hres
        have hstep : (step E (run E d pre) (Call.add efp)).2 = (add E (run E d pre) efp).2 := rfl
        rw [hstep, hkeep] at h
        exact h
    | remove efp =>
      apply hpre
      have hstep : (step E (run E d pre) (Call.remove efp)).2
          = (remove E (run E d pre) efp).2 := rfl
      rw [hstep] at h
      rcases remove_victim E (run E d pre) efp with hv | ⟨hv, _, _⟩
      · rw [hv] at h
        exact h
      · rw [hv] at h
        exact absurd rfl h

/-- C24, as the code has it: on a filter of one bucket with one nest, add of 7 succeeds, add of
5 fails and leaves a victim, and add of 7 again returns true because 7 is contained; the most
recent add call did not fail, yet the fingerprint of the victim is not 0. -/
theorem victim_after_contained_add :
    results sampleExt (init 1 1) [Call.add ⟨7, 0, 0⟩, Call.add ⟨5, 0, 0⟩, Call.add ⟨7, 0, 0⟩]
      = [true, false, true] ∧
    (run sampleExt (init 1 1)
      [Call.add ⟨7, 0, 0⟩, Call.add ⟨5, 0, 0⟩, Call.add ⟨7, 0, 0⟩]).victim.fingerprint ≠ 0 := by
  decide

/-- C24, amended: in every state reached from init, with at least one nest per bucket, by add
and remove calls: the fingerprint of the victim is nonzero only if some earlier add call
returned false; an add call that returns false leaves it nonzero, an add call that returns
true leaves the victim as it was (also when it is set), and a remove call leaves the victim
as it was or, when it returns true and finds the victim contained, clears it. -/
theorem victim_history (E : Ext) (bucketCount nestsPerBucket : Nat) (calls : List Call)
    (hn : 1 ≤ (init bucketCount nestsPerBucket).nestsPerBucket) :
    ((run E (init bucketCount nestsPerBucket) calls).victim.fingerprint ≠ 0 →
      ∃ pre efp post, calls = pre ++ Call.add efp :: post ∧
        (add E (run E (init bucketCount nestsPerBucket) pre) efp).1 = false) ∧
    (∀ efp,
      ((add E (run E (init bucketCount nestsPerBucket) calls) efp).1 = false →
        (add E (run E (init bucketCount nestsPerBucket) calls) efp).2.victim.fingerprint ≠ 0) ∧
      ((add E (run E (init bucketCount nestsPerBucket) calls) efp).1 = true →
        (add E (run E (init bucketCount nestsPerBucket) calls) efp).2.victim
          = (run E (init bucketCount nestsPerBucket) calls).victim)) ∧
    (∀ efp,
      (remove E (run E (init bucketCount nestsPerBucket) calls) efp).2.victim
          = (run E (init bucketCount nestsPerBucket) calls).victim ∨
        ((remove E (run E (init bucketCount nestsPerBucket) calls) efp).2.victim = noVictim ∧
          (remove E (run E (init bucketCount nestsPerBucket) calls) efp).1 = true ∧
          contains (remove E (run E (init bucketCount nestsPerBucket) calls) efp).2
            (run E (init bucketCount nestsPerBucket) calls).victim = true)) :=
  ⟨run_victim_history E _ (by simp [init, clear, noVictim]) calls hn,
    fun efp => add_victim E _ efp (by rw [run_nestsPerBucket]; exact hn),
    fun efp => remove_victim E _ efp⟩

theorem victim_history_witness :
    (add sampleExt (run sampleExt (init 1 1) [Call.add ⟨7, 0, 0⟩]) ⟨5, 0, 0⟩).2.victim.fingerprint
      ≠ 0 ∧
    (add sampleExt (run sampleExt (init 1 1) [Call.add ⟨7, 0, 0⟩, Call.add ⟨5, 0, 0⟩])
        ⟨7, 0, 0⟩).2.victim
      = (run sampleExt (init 1 1) [Call.add ⟨7, 0, 0⟩, Call.add ⟨5, 0, 0⟩]).victim :=
  ⟨((victim_history sampleExt 1 1 [Call.add ⟨7, 0, 0⟩] (by decide)).2.1 ⟨5, 0, 0⟩).1 (by decide),
    ((victim_history sampleExt 1 1 [Call.add ⟨7, 0, 0⟩, Call.add ⟨5, 0, 0⟩]
      (by decide)).2.1 ⟨7, 0, 0⟩).2 (by decide)⟩

end CuckooFilter

namespace CuckooFilter

/-! ## A successful add keeps what is stored -/

theorem count_set_add (l : List Nat) (p x c : Nat) (hp : p < l.length) :
    (l.set p x).count c + (if c = l.getD p 0 then 1 else 0)
      = l.count c + (if c = x then 1 else 0) := by
  rw [List.count_set _ _ _ _ hp, List.getD_eq_getElem _ _ hp]
  by_cases h : l[p] = c
  · have hpos : 0 < l.count c := List.count_pos_iff.mpr (h ▸ List.getElem_mem hp)
    by_cases hx : x = c
    · simp [h, hx]
      omega
    · have hx' : ¬ c = x := fun e => hx e.symm
      simp [h, hx, hx']
      omega
  · have h' : ¬ c = l[p] := fun e => h e.symm
    by_cases hx : x = c
    · simp [h, h', hx]
    · have hx' : ¬ c = x := fun e => hx e.symm
      simp [h, h', hx, hx']

theorem store_count (d : cuckoo_filter_data_t) (b i x c : Nat)
    (hp : b * d.nestsPerBucket + i < d.bucketArray.length) :
    (storeFingerprint d b i x).bucketArray.count c
        + (if c = lookupFingerprint d b i then 1 else 0)
      = d.bucketArray.count c + (if c = x then 1 else 0) :=
  count_set_add d.bucketArray _ x c hp

theorem getExtendedFingerprint_lt (d : cuckoo_filter_data_t) (finger b : Nat)
    (hb : b < bucketCount d) :
    (getExtendedFingerprint d finger b).bucketA < bucketCount d ∧
      (getExtendedFingerprint d finger b).bucketB < bucketCount d := by
  have hpos : 0 < bucketCount d := Nat.two_pow_pos _
  constructor
  · exact lt_of_le_of_lt (Nat.mod_le _ _) hb
  · exact lt_of_le_of_lt (Nat.mod_le _ _) (Nat.mod_lt _ hpos)

theorem moveLoop_count (E : Ext) (seed : Nat) :
    ∀ (n calls : Nat) (d : cuckoo_filter_data_t) (e : cuckoo_extended_fingerprint_t)
      (d' : cuckoo_filter_data_t),
      WellFormed d → e.bucketA < bucketCount d → e.bucketB < bucketCount d →
      moveLoop E seed n calls d e = (true, d') →
      ∀ c, d'.bucketArray.count c + (if c = 0 then 1 else 0)
        = d.bucketArray.count c + (if c = e.fingerprint then 1 else 0) := by
  intro n
  induction n with
  | zero =>
    intro calls d e d' _ _ _ h
    simp [moveLoop] at h
  | succ n ih =>
    intro calls d e d' hwf hA hB h c
    rcases addFingerprintToBucket_cases d e.fingerprint e.bucketA with
      ⟨ii, hii, h0, hAdd⟩ | ⟨hfullA, hAdd⟩
    · rw [moveLoop_succ_A E seed _ calls d _ e hAdd] at h
      have hd : d' = storeFingerprint d e.bucketA ii e.fingerprint := (Prod.mk.inj h).2.symm
      subst hd
      have := store_count d e.bucketA ii e.fingerprint c (flat_lt d hwf _ _ hA hii)
      rw [h0] at this
      exact this
    · rcases addFingerprintToBucket_cases d e.fingerprint e.bucketB with
        ⟨ii, hii, h0, hAddB⟩ | ⟨hfullB, hAddB⟩
      · rw [moveLoop_succ_B E seed _ calls d _ _ e hAdd hAddB] at h
        have hd : d' = storeFingerprint d e.bucketB ii e.fingerprint := (Prod.mk.inj h).2.symm
        subst hd
        have := store_count d e.bucketB ii e.fingerprint c (flat_lt d hwf _ _ hB hii)
        rw [h0] at this
        exact this
      · rw [moveLoop_succ_kick E seed _ calls d _ _ e hAdd hAddB] at h
        have hX : kickedBucket E seed calls e < bucketCount d := by
          unfold kickedBucket
          split
          · exact hA
          · exact hB
        by_cases hn : 1 ≤ d.nestsPerBucket
        · have hidx := kickedIndex_lt E seed calls d hn
          have hstep := store_count d (kickedBucket E seed calls e) (kickedIndex E seed calls d)
            e.fingerprint c (flat_lt d hwf _ _ hX hidx)
          have hlt := getExtendedFingerprint_lt
            (storeFingerprint d (kickedBucket E seed calls e) (kickedIndex E seed calls d)
              e.fingerprint)
            (lookupFingerprint d (kickedBucket E seed calls e) (kickedIndex E seed calls d))
            (kickedBucket E seed calls e) hX
          have r := ih (calls + 2) _ _ d' (store_wellFormed d _ _ _ hwf) hlt.1 hlt.2 h c
          have hfp : (getExtendedFingerprint
              (storeFingerprint d (kickedBucket E seed calls e) (kickedIndex E seed calls d)
                e.fingerprint)
              (lookupFingerprint d (kickedBucket E seed calls e) (kickedIndex E seed calls d))
              (kickedBucket E seed calls e)).fingerprint
              = lookupFingerprint d (kickedBucket E seed calls e)
                  (kickedIndex E seed calls d) := rfl
          rw [hfp] at r
          omega
        · exfalso
          have hzero : d.nestsPerBucket = 0 := by omega
          have hfalse : ∀ (m k : Nat) (x : cuckoo_filter_data_t)
              (y : cuckoo_extended_fingerprint_t) (z : cuckoo_filter_data_t),
              x.nestsPerBucket = 0 → moveLoop E seed m k x y ≠ (true, z) := by
            intro m
            induction m with
            | zero =>
              intro k x y z _ hm
              simp [moveLoop] at hm
            | succ m ihm =>
              intro k x y z hx
              have hno : ∀ f b, addFingerprintToBucket x f b = (false, x) := by
                intro f b
                simp [addFingerprintToBucket, hx]
              rw [moveLoop_succ_kick E seed _ k x x x y (hno _ _) (hno _ _)]
              exact ihm _ _ _ z hx
          refine hfalse n _ _ _ d' ?_ h
          exact hzero

end CuckooFilter

namespace CuckooFilter

theorem count_filter_nonzero (l : List Nat) (c : Nat) :
    (l.filter (fun x => x != 0)).count c = if c = 0 then 0 else l.count c := by
  by_cases hc : c = 0
  · rw [if_pos hc, List.count_eq_zero]
    intro hmem
    have := (List.mem_filter.mp hmem).2
    simp [hc] at this
  · rw [if_neg hc, List.count_filter]
    simpa using hc

/-- C27, as the code has it for the empty-nest value: on the cleared filter of one bucket
with one nest the consistent extended fingerprint (0, 0, 0) is reported as contained, the add
of (7, 0, 0) returns true, and afterwards (0, 0, 0) is not contained any more. -/
theorem add_drops_zero_fingerprint :
    (add sampleExt (init 1 1) ⟨7, 0, 0⟩).1 = true ∧
    (0 : Nat) = (0 ^^^ 7) % bucketCount (init 1 1) ∧
    (0 : Nat) = (0 ^^^ 0) % bucketCount (init 1 1) ∧
    contains (init 1 1) ⟨0, 0, 0⟩ = true ∧
    contains (add sampleExt (init 1 1) ⟨7, 0, 0⟩).2 ⟨0, 0, 0⟩ = false := by
  decide

/-- C27, amended: on a filter whose bucket array has its bucketCount times nestsPerBucket
entries, for a consistent efp (bucketA below the bucket count, bucketB = (bucketA XOR
fingerprint) mod bucketCount) with nonzero fingerprint: if add(efp) returns true, then every
consistent g with nonzero fingerprint that was contained before the call is contained after
it; the filter is unchanged when efp was contained already, and otherwise the nonzero stored
fingerprints are those of before together with efp.fingerprint, as multisets. -/
theorem add_preserves_members (E : Ext) (d d' : cuckoo_filter_data_t)
    (efp g : cuckoo_extended_fingerprint_t) (hwf : WellFormed d)
    (hf : efp.fingerprint ≠ 0) (hA : efp.bucketA < bucketCount d)
    (hB : efp.bucketB = (efp.bucketA ^^^ efp.fingerprint) % bucketCount d)
    (h : add E d efp = (true, d')) :
    (Representable g → g.fingerprint ≠ 0 → g.bucketA < bucketCount d →
      g.bucketB = (g.bucketA ^^^ g.fingerprint) % bucketCount d →
      contains d g = true → contains d' g = true) ∧
    (contains d efp = true → d' = d) ∧
    (contains d efp = false →
      (d'.bucketArray.filter (fun x => x != 0)).Perm
        (efp.fingerprint :: d.bucketArray.filter (fun x => x != 0))) := by
  have hpos : 0 < bucketCount d := Nat.two_pow_pos _
  have hmove : contains d efp = false → move E d efp = (true, d') := by
    intro hc
    unfold add at h
    rw [if_neg (by simp [hc])] at h
    by_cases hv : d.victim.fingerprint ≠ 0
    · rw [if_pos hv] at h
      simp at h
    · rw [if_neg hv] at h
      exact h
  refine ⟨?_, ?_, ?_⟩
  · intro hrep hgf hgA hgB hcg
    by_cases hc : contains d efp = true
    · have hd : d' = d := by
        unfold add at h
        rw [if_pos hc] at h
        exact (Prod.mk.inj h).2.symm
      rw [hd]
      exact hcg
    · have hm := hmove (by simpa using hc)
      have hn : 1 ≤ d.nestsPerBucket := by
        by_contra hn
        have := contains_of_no_nests d g (by omega)
        rw [hcg] at this
        exact absurd this (by decide)
      have hgBlt : g.bucketB < bucketCount d := by
        rw [hgB]
        exact Nat.mod_lt _ hpos
      have hstored := (contains_iff_stored d g).mp hcg
      have r := moveLoop_tracked E (filterhash E d) g.fingerprint g.bucketA g.bucketB hgf
        hrep.2.1 hrep.2.2 MAX_KICK_ATTEMPTS 0 d efp d' hwf hn hgA hgBlt hgB (Or.inl hstored) hm
      exact (contains_iff_stored d' g).mpr r.1
  · intro hc
    unfold add at h
    rw [if_pos hc] at h
    exact (Prod.mk.inj h).2.symm
  · intro hc
    have hm := hmove hc
    have hBlt : efp.bucketB < bucketCount d := by
      rw [hB]
      exact Nat.mod_lt _ hpos
    have hcount := moveLoop_count E (filterhash E d) MAX_KICK_ATTEMPTS 0 d efp d' hwf hA hBlt hm
    rw [List.perm_iff_count]
    intro c
    rw [List.count_cons, count_filter_nonzero, count_filter_nonzero]
    have := hcount c
    by_cases hz : c = 0
    · subst hz
      simp [hf]
    · by_cases he : c = efp.fingerprint
      · simp [hz, he] at this ⊢
        rw [← he] at this ⊢
        simp [hz] at this ⊢
        omega
      · have he' : ¬ efp.fingerprint = c := fun e => he e.symm
        simp [hz, he, he'] at this ⊢
        exact this

theorem add_preserves_members_witness :
    contains { sampleFilter with bucketArray := [7, 0, 5, 0] } ⟨7, 0, 1⟩ = true ∧
    (({ sampleFilter with bucketArray := [7, 0, 5, 0] } : cuckoo_filter_data_t).bucketArray.filter
        (fun x => x != 0)).Perm
      (5 :: sampleFilter.bucketArray.filter (fun x => x != 0)) :=
  ⟨(add_preserves_members sampleExt sampleFilter { sampleFilter with bucketArray := [7, 0, 5, 0] }
      ⟨5, 1, 0⟩ ⟨7, 0, 1⟩ (by decide) (by decide) (by decide) (by decide) (by decide)).1
      (by decide) (by decide) (by decide) (by decide) (by decide),
    (add_preserves_members sampleExt sampleFilter { sampleFilter with bucketArray := [7, 0, 5, 0] }
      ⟨5, 1, 0⟩ ⟨7, 0, 1⟩ (by decide) (by decide) (by decide) (by decide) (by decide)).2.2
      (by decide)⟩

end CuckooFilter

namespace AssetFiltering

/-! ## The asset record in the accept handlers -/

/-- C29, the code on a failing input: when the asset store returns no record for the accepted
asset, each of the three accept handlers takes the branch that is not throttled, forwards the
asset and calls addThrottlingBump on the dereferenced null record. -/
theorem accept_handlers_null_record :
    (sampleNoRecord.handleAcceptedAsset 0 sampleDevice
      (filterOutputResultAssetId sampleNoRecord (sampleAssetFilter 0 false) sampleDevice)).1
      = none ∧
    (handleAssetAcceptedMacOverMesh sampleNoRecord ⟨0, []⟩ 0 (sampleAssetFilter 0 false)
        sampleDevice).trace
      = [Effect.sendAssetMacToMesh sampleDevice, Effect.addThrottlingBump none 100] ∧
    (handleAssetAcceptedAssetIdOverMesh sampleNoRecord ⟨0, []⟩ 0 (sampleAssetFilter 0 false)
        sampleDevice).trace
      = [Effect.sendAssetIdToMesh sampleDevice ⟨[0xAA, 0xBB, 0xCC]⟩ 1,
          Effect.addThrottlingBump none 100] ∧
    (handleAssetAcceptedNearestAssetId sampleNoRecord ⟨0, []⟩ 0 (sampleAssetFilter 0 false)
        sampleDevice).trace
      = [Effect.nearestHandleAcceptedAsset sampleDevice ⟨[0xAA, 0xBB, 0xCC]⟩ 1,
          Effect.addThrottlingBump none 100] := by
  decide

end AssetFiltering

namespace Microapp

/-! ## Twi requests -/

/-- C21, the code on a failing input: a twi write request and a twi read request with size
200, above MICROAPP_SDK_MAX_TWI_PAYLOAD_SIZE, are answered with ERR_SUCCESS and ack Success,
and the event is dispatched with length 200 on the buffer of 42 bytes. -/
theorem twi_size_unchecked :
    MICROAPP_SDK_MAX_TWI_PAYLOAD_SIZE = 42 ∧
    (twiRequest CS_MICROAPP_SDK_TWI_WRITE 0x20 0 200).length = MICROAPP_SDK_MAX_PAYLOAD ∧
    (handleRequestTwi (sampleConstants true) sampleEnv
      (sampleSystem 0 (twiRequest CS_MICROAPP_SDK_TWI_WRITE 0x20 0 200))).1
      = cs_ret_code_t.ERR_SUCCESS ∧
    ack (handleRequestTwi (sampleConstants true) sampleEnv
      (sampleSystem 0 (twiRequest CS_MICROAPP_SDK_TWI_WRITE 0x20 0 200))).2.input
      = CS_MICROAPP_SDK_ACK_SUCCESS ∧
    dispatched (handleRequestTwi (sampleConstants true) sampleEnv
      (sampleSystem 0 (twiRequest CS_MICROAPP_SDK_TWI_WRITE 0x20 0 200))).2.trace
      = [HostEvent.EVT_TWI_WRITE 0x20 200 false (List.replicate 42 0)] ∧
    (handleRequestTwi (sampleConstants true) sampleEnv
      (sampleSystem 0 (twiRequest CS_MICROAPP_SDK_TWI_READ 0x20 0 200))).1
      = cs_ret_code_t.ERR_SUCCESS ∧
    dispatched (handleRequestTwi (sampleConstants true) sampleEnv
      (sampleSystem 0 (twiRequest CS_MICROAPP_SDK_TWI_READ 0x20 0 200))).2.trace
      = [HostEvent.EVT_TWI_READ 0x20 200 false] := by
  decide

/-- C26, the code on a failing input: the listeners of EVT_TWI_READ report ERR_UNSPECIFIED
and no byte read; handleRequestTwi stores the size 0 in the frame, but the ack it leaves in
the frame is Success and it returns ERR_SUCCESS. -/
theorem twi_read_ack_overwritten :
    (sampleFailingBus.dispatch 0 (HostEvent.EVT_TWI_READ 0x20 4 false)).1.returnCode
      = cs_ret_code_t.ERR_UNSPECIFIED ∧
    (handleRequestTwi (sampleConstants true) sampleFailingBus
      (sampleSystem 0 (twiRequest CS_MICROAPP_SDK_TWI_READ 0x20 0 4))).1
      = cs_ret_code_t.ERR_SUCCESS ∧
    ack (handleRequestTwi (sampleConstants true) sampleFailingBus
      (sampleSystem 0 (twiRequest CS_MICROAPP_SDK_TWI_READ 0x20 0 4))).2.input
      = CS_MICROAPP_SDK_ACK_SUCCESS ∧
    getByte (handleRequestTwi (sampleConstants true) sampleFailingBus
      (sampleSystem 0 (twiRequest CS_MICROAPP_SDK_TWI_READ 0x20 0 4))).2.input 5 = 0 := by
  decide

end Microapp

namespace Microapp

/-! ## Yield and Continue in the request handler -/

/-- C22, as the code has it: a Yield request is dispatched to handleRequestYield, which takes
the number of empty interrupt slots from the frame into the controller and writes ack
Success; a Continue request falls into the default case, gets ack ErrUndefined and
ERR_UNKNOWN_TYPE. -/
theorem yield_is_handled :
    (handleMicroappRequest (sampleConstants true) sampleEnv
      (sampleSystem 0 [CS_MICROAPP_SDK_TYPE_YIELD, CS_MICROAPP_SDK_ACK_NO_REQUEST, 0, 3])).1
      = cs_ret_code_t.ERR_SUCCESS ∧
    (sampleSystem 0 [CS_MICROAPP_SDK_TYPE_YIELD, CS_MICROAPP_SDK_ACK_NO_REQUEST, 0, 3]).controller._emptySoftInterruptSlots
      = 1 ∧
    (handleMicroappRequest (sampleConstants true) sampleEnv
      (sampleSystem 0 [CS_MICROAPP_SDK_TYPE_YIELD, CS_MICROAPP_SDK_ACK_NO_REQUEST, 0,
        3])).2.controller._emptySoftInterruptSlots = 3 ∧
    ack (handleMicroappRequest (sampleConstants true) sampleEnv
      (sampleSystem 0 [CS_MICROAPP_SDK_TYPE_YIELD, CS_MICROAPP_SDK_ACK_NO_REQUEST, 0, 3])).2.input
      = CS_MICROAPP_SDK_ACK_SUCCESS ∧
    (handleMicroappRequest (sampleConstants true) sampleEnv
      (sampleSystem 0 [CS_MICROAPP_SDK_TYPE_CONTINUE, CS_MICROAPP_SDK_ACK_NO_REQUEST])).1
      = cs_ret_code_t.ERR_UNKNOWN_TYPE ∧
    ack (handleMicroappRequest (sampleConstants true) sampleEnv
      (sampleSystem 0 [CS_MICROAPP_SDK_TYPE_CONTINUE, CS_MICROAPP_SDK_ACK_NO_REQUEST])).2.input
      = CS_MICROAPP_SDK_ACK_ERR_UNDEFINED := by
  decide

/-- C22, amended: for a Yield request handleMicroappRequest calls handleRequestYield and
returns ERR_SUCCESS, with the ack of the frame set to Success and emptyInterruptSlots of the
controller set to the byte of the frame; for a Continue request it returns ERR_UNKNOWN_TYPE
with the ack set to ErrUndefined and the controller unchanged; in both cases no event is
dispatched and nothing is logged. -/
theorem yield_continue_requests {γ σ : Type} (K : Constants) (X : Env γ σ) (s : System γ σ) :
    (messageType s.input = CS_MICROAPP_SDK_TYPE_YIELD →
      handleMicroappRequest K X s = handleRequestYield s ∧
      handleMicroappRequest K X s = (cs_ret_code_t.ERR_SUCCESS,
        { s with
          controller := { s.controller with _emptySoftInterruptSlots := getByte s.input 3 % 256 }
          input := setAck s.input CS_MICROAPP_SDK_ACK_SUCCESS })) ∧
    (messageType s.input = CS_MICROAPP_SDK_TYPE_CONTINUE →
      handleMicroappRequest K X s = (cs_ret_code_t.ERR_UNKNOWN_TYPE,
        { s with input := setAck s.input CS_MICROAPP_SDK_ACK_ERR_UNDEFINED })) := by
  constructor
  · intro h
    have hy : handleMicroappRequest K X s = handleRequestYield s := by
      unfold handleMicroappRequest
      simp only [h]
      rfl
    exact ⟨hy, by rw [hy]; rfl⟩
  · intro h
    unfold handleMicroappRequest
    simp only [h]
    rfl

theorem yield_continue_requests_witness :
    handleMicroappRequest (sampleConstants true) sampleEnv
        (sampleSystem 0 [CS_MICROAPP_SDK_TYPE_YIELD, CS_MICROAPP_SDK_ACK_NO_REQUEST, 0, 3])
      = handleRequestYield
        (sampleSystem 0 [CS_MICROAPP_SDK_TYPE_YIELD, CS_MICROAPP_SDK_ACK_NO_REQUEST, 0, 3]) ∧
    handleMicroappRequest (sampleConstants true) sampleEnv
        (sampleSystem 0 [CS_MICROAPP_SDK_TYPE_CONTINUE, CS_MICROAPP_SDK_ACK_NO_REQUEST])
      = (cs_ret_code_t.ERR_UNKNOWN_TYPE,
          { sampleSystem 0 [CS_MICROAPP_SDK_TYPE_CONTINUE, CS_MICROAPP_SDK_ACK_NO_REQUEST] with
            input := setAck [CS_MICROAPP_SDK_TYPE_CONTINUE, CS_MICROAPP_SDK_ACK_NO_REQUEST]
              CS_MICROAPP_SDK_ACK_ERR_UNDEFINED }) :=
  ⟨((yield_continue_requests (sampleConstants true) sampleEnv
      (sampleSystem 0 [CS_MICROAPP_SDK_TYPE_YIELD, CS_MICROAPP_SDK_ACK_NO_REQUEST, 0, 3])).1
      (by decide)).1,
    (yield_continue_requests (sampleConstants true) sampleEnv
      (sampleSystem 0 [CS_MICROAPP_SDK_TYPE_CONTINUE, CS_MICROAPP_SDK_ACK_NO_REQUEST])).2
      (by decide)⟩

end Microapp

namespace Microapp

/-! ## Log requests -/

theorem takeWhile_length_le (l : List Nat) :
    ∀ (k : Nat), k < l.length → l.getD k 0 = 0 →
      (l.takeWhile (fun b => b != 0)).length ≤ k := by
  induction l with
  | nil => intro k hk; simp at hk
  | cons a t ih =>
    intro k hk h0
    by_cases ha : a = 0
    · simp [List.takeWhile_cons, ha]
    · cases k with
      | zero => simp at h0; exact absurd h0 ha
      | succ k =>
        have hk' : k < t.length := by simpa using hk
        have := ih k hk' (by simpa using h0)
        rw [List.takeWhile_cons, if_pos (by simpa using ha), List.length_cons]
        omega

theorem setByte_length (buf : List Nat) (off v : Nat) : (setByte buf off v).length = buf.length := by
  simp [setByte]

theorem setAck_length (buf : List Nat) (v : Nat) : (setAck buf v).length = buf.length := by
  simp [setAck, setByte]

theorem getByte_setByte (buf : List Nat) (off v k : Nat) :
    getByte (setByte buf off v) k = if off = k ∧ off < buf.length then v % 256 else getByte buf k := by
  unfold getByte setByte
  rw [getD_set_any]

theorem handleRequestLog_str {γ σ : Type} (s : System γ σ) (hsize : getByte s.input 4 ≠ 0)
    (htype : getByte s.input 2 = CS_MICROAPP_SDK_LOG_STR) :
    handleRequestLog s = (cs_ret_code_t.ERR_SUCCESS,
      { s with
        input := setAck (setByte s.input (MICROAPP_SDK_LOG_HEADER_SIZE
          + min (getByte s.input 4) (MICROAPP_SDK_MAX_STRING_LENGTH - 1)) 0)
          CS_MICROAPP_SDK_ACK_SUCCESS
        trace := s.trace ++ [Effect.log
          (decide (getByte s.input 3 &&& CS_MICROAPP_SDK_LOG_FLAG_NEWLINE ≠ 0))
          (((setByte s.input (MICROAPP_SDK_LOG_HEADER_SIZE
            + min (getByte s.input 4) (MICROAPP_SDK_MAX_STRING_LENGTH - 1)) 0).drop
              MICROAPP_SDK_LOG_HEADER_SIZE).takeWhile (fun b => b != 0))] }) := by
  have hz : (if getByte s.input 4 < MICROAPP_SDK_MAX_STRING_LENGTH - 1 then getByte s.input 4
      else MICROAPP_SDK_MAX_STRING_LENGTH - 1)
      = min (getByte s.input 4) (MICROAPP_SDK_MAX_STRING_LENGTH - 1) := by
    split <;> omega
  unfold handleRequestLog
  simp only [if_neg hsize, htype, hz]
  rfl

theorem handleRequestLog_arr {γ σ : Type} (s : System γ σ) (hsize : getByte s.input 4 ≠ 0)
    (htype : getByte s.input 2 = CS_MICROAPP_SDK_LOG_ARR) :
    handleRequestLog s = (cs_ret_code_t.ERR_SUCCESS,
      { s with
        input := setAck
          (if getByte s.input 4 ≥ MICROAPP_SDK_MAX_ARRAY_SIZE then
            setByte s.input 4 MICROAPP_SDK_MAX_ARRAY_SIZE
          else s.input) CS_MICROAPP_SDK_ACK_SUCCESS
        trace := s.trace ++ [Effect.logArray
          (decide (getByte s.input 3 &&& CS_MICROAPP_SDK_LOG_FLAG_NEWLINE ≠ 0))
          (((if getByte s.input 4 ≥ MICROAPP_SDK_MAX_ARRAY_SIZE then
              setByte s.input 4 MICROAPP_SDK_MAX_ARRAY_SIZE
            else s.input).drop MICROAPP_SDK_LOG_HEADER_SIZE).take
            (getByte (if getByte s.input 4 ≥ MICROAPP_SDK_MAX_ARRAY_SIZE then
              setByte s.input 4 MICROAPP_SDK_MAX_ARRAY_SIZE
            else s.input) 4))] }) := by
  unfold handleRequestLog
  simp only [if_neg hsize, htype]
  rfl

end Microapp

namespace Microapp

theorem handleRequestLog_known {γ σ : Type} (s : System γ σ)
    (h : getByte s.input 4 = 0 ∨ getByte s.input 2 = CS_MICROAPP_SDK_LOG_CHAR
      ∨ getByte s.input 2 = CS_MICROAPP_SDK_LOG_SHORT
      ∨ getByte s.input 2 = CS_MICROAPP_SDK_LOG_UINT
      ∨ getByte s.input 2 = CS_MICROAPP_SDK_LOG_INT
      ∨ getByte s.input 2 = CS_MICROAPP_SDK_LOG_FLOAT
      ∨ getByte s.input 2 = CS_MICROAPP_SDK_LOG_DOUBLE
      ∨ getByte s.input 2 = CS_MICROAPP_SDK_LOG_STR
      ∨ getByte s.input 2 = CS_MICROAPP_SDK_LOG_ARR) :
    ∃ input trace, handleRequestLog s = (cs_ret_code_t.ERR_SUCCESS,
        { s with input := setAck input CS_MICROAPP_SDK_ACK_SUCCESS, trace := trace }) ∧
      input.length = s.input.length := by
  have hvalue : ∀ n, (∃ input trace, logValue s
      (decide (getByte s.input 3 &&& CS_MICROAPP_SDK_LOG_FLAG_NEWLINE ≠ 0)) n
        = (cs_ret_code_t.ERR_SUCCESS,
          { s with input := setAck input CS_MICROAPP_SDK_ACK_SUCCESS, trace := trace }) ∧
      input.length = s.input.length) := fun n => ⟨s.input, _, rfl, rfl⟩
  by_cases hsize : getByte s.input 4 = 0
  · refine ⟨s.input, s.trace ++ [Effect.log
      (decide (getByte s.input 3 &&& CS_MICROAPP_SDK_LOG_FLAG_NEWLINE ≠ 0)) []], ?_, rfl⟩
    unfold handleRequestLog
    simp only [if_pos hsize]
    rfl
  · rcases h with h | h | h | h | h | h | h | h | h
    · exact absurd h hsize
    · have heq : handleRequestLog s = logValue s
          (decide (getByte s.input 3 &&& CS_MICROAPP_SDK_LOG_FLAG_NEWLINE ≠ 0)) 1 := by
        unfold handleRequestLog
        simp only [if_neg hsize, h]
        rfl
      rw [heq]
      exact hvalue 1
    · have heq : handleRequestLog s = logValue s
          (decide (getByte s.input 3 &&& CS_MICROAPP_SDK_LOG_FLAG_NEWLINE ≠ 0)) 2 := by
        unfold handleRequestLog
        simp only [if_neg hsize, h]
        rfl
      rw [heq]
      exact hvalue 2
    · have heq : handleRequestLog s = logValue s
          (decide (getByte s.input 3 &&& CS_MICROAPP_SDK_LOG_FLAG_NEWLINE ≠ 0)) 4 := by
        unfold handleRequestLog
        simp only [if_neg hsize, h]
        rfl
      rw [heq]
      exact hvalue 4
    · have heq : handleRequestLog s = logValue s
          (decide (getByte s.input 3 &&& CS_MICROAPP_SDK_LOG_FLAG_NEWLINE ≠ 0)) 4 := by
        unfold handleRequestLog
        simp only [if_neg hsize, h]
        rfl
      rw [heq]
      exact hvalue 4
    · have heq : handleRequestLog s = logValue s
          (decide (getByte s.input 3 &&& CS_MICROAPP_SDK_LOG_FLAG_NEWLINE ≠ 0)) 4 := by
        unfold handleRequestLog
        simp only [if_neg hsize, h]
        rfl
      rw [heq]
      exact hvalue 4
    · have heq : handleRequestLog s = logValue s
          (decide (getByte s.input 3 &&& CS_MICROAPP_SDK_LOG_FLAG_NEWLINE ≠ 0)) 8 := by
        unfold handleRequestLog
        simp only [if_neg hsize, h]
        rfl
      rw [heq]
      exact hvalue 8
    · exact ⟨_, _, handleRequestLog_str s hsize h, setByte_length _ _ _⟩
    · refine ⟨_, _, handleRequestLog_arr s hsize h, ?_⟩
      split
      · exact setByte_length _ _ _
      · rfl

/-- C30, as the code has it for size 0: a log request of type STR with size 0 returns before
the type is looked at; an empty line is logged and no zero byte is written at index 0 of the
string, which keeps its byte 0x41. -/
theorem log_string_size_zero :
    getByte (logRequest CS_MICROAPP_SDK_LOG_STR 0 0 []) 4 = 0 ∧
    getByte (logRequest CS_MICROAPP_SDK_LOG_STR 0 0 []) MICROAPP_SDK_LOG_HEADER_SIZE = 0x41 ∧
    getByte (handleRequestLog (sampleSystem 0 (logRequest CS_MICROAPP_SDK_LOG_STR 0 0 []))).2.input
      MICROAPP_SDK_LOG_HEADER_SIZE = 0x41 ∧
    (handleRequestLog (sampleSystem 0 (logRequest CS_MICROAPP_SDK_LOG_STR 0 0 []))).2.trace
      = [Effect.log false []] := by
  decide

/-- C30, amended: for a log request in a frame of MICROAPP_SDK_MAX_PAYLOAD bytes, whatever the
size field holds: the frame keeps its length; with size 0 only the ack is written and an
empty line is logged; with a nonzero size and type STR the zero byte is written at index
min(size, MICROAPP_SDK_MAX_STRING_LENGTH - 1) of the string, inside the frame, and the string
that is logged ends before it; with a nonzero size and type ARR the bytes logged are the first
min(size, MICROAPP_SDK_MAX_ARRAY_SIZE) bytes of the array and the size field is cut to that
number; and for size 0 and for every known log type the handler returns ERR_SUCCESS with ack
Success. -/
theorem handleRequestLog_bounds {γ σ : Type} (s : System γ σ)
    (hlen : s.input.length = MICROAPP_SDK_MAX_PAYLOAD) :
    (getByte s.input 4 = 0 →
      handleRequestLog s = (cs_ret_code_t.ERR_SUCCESS,
        { s with
          input := setAck s.input CS_MICROAPP_SDK_ACK_SUCCESS
          trace := s.trace ++ [Effect.log
            (decide (getByte s.input 3 &&& CS_MICROAPP_SDK_LOG_FLAG_NEWLINE ≠ 0)) []] })) ∧
    (getByte s.input 4 ≠ 0 → getByte s.input 2 = CS_MICROAPP_SDK_LOG_STR →
      MICROAPP_SDK_LOG_HEADER_SIZE + min (getByte s.input 4) (MICROAPP_SDK_MAX_STRING_LENGTH - 1)
        < MICROAPP_SDK_MAX_PAYLOAD ∧
      (handleRequestLog s).2.input
        = setAck (setByte s.input (MICROAPP_SDK_LOG_HEADER_SIZE
            + min (getByte s.input 4) (MICROAPP_SDK_MAX_STRING_LENGTH - 1)) 0)
          CS_MICROAPP_SDK_ACK_SUCCESS ∧
      ∃ str, (handleRequestLog s).2.trace = s.trace ++ [Effect.log
          (decide (getByte s.input 3 &&& CS_MICROAPP_SDK_LOG_FLAG_NEWLINE ≠ 0)) str] ∧
        str = ((setByte s.input (MICROAPP_SDK_LOG_HEADER_SIZE
            + min (getByte s.input 4) (MICROAPP_SDK_MAX_STRING_LENGTH - 1)) 0).drop
              MICROAPP_SDK_LOG_HEADER_SIZE).takeWhile (fun b => b != 0) ∧
        str.length ≤ min (getByte s.input 4) (MICROAPP_SDK_MAX_STRING_LENGTH - 1)) ∧
    (getByte s.input 4 ≠ 0 → getByte s.input 2 = CS_MICROAPP_SDK_LOG_ARR →
      (handleRequestLog s).2.trace = s.trace ++ [Effect.logArray
          (decide (getByte s.input 3 &&& CS_MICROAPP_SDK_LOG_FLAG_NEWLINE ≠ 0))
          ((s.input.drop MICROAPP_SDK_LOG_HEADER_SIZE).take
            (min (getByte s.input 4) MICROAPP_SDK_MAX_ARRAY_SIZE))] ∧
      getByte (handleRequestLog s).2.input 4
        = min (getByte s.input 4) MICROAPP_SDK_MAX_ARRAY_SIZE) ∧
    (getByte s.input 4 = 0 ∨ getByte s.input 2 = CS_MICROAPP_SDK_LOG_CHAR
        ∨ getByte s.input 2 = CS_MICROAPP_SDK_LOG_SHORT
        ∨ getByte s.input 2 = CS_MICROAPP_SDK_LOG_UINT
        ∨ getByte s.input 2 = CS_MICROAPP_SDK_LOG_INT
        ∨ getByte s.input 2 = CS_MICROAPP_SDK_LOG_FLOAT
        ∨ getByte s.input 2 = CS_MICROAPP_SDK_LOG_DOUBLE
        ∨ getByte s.input 2 = CS_MICROAPP_SDK_LOG_STR
        ∨ getByte s.input 2 = CS_MICROAPP_SDK_LOG_ARR →
      (handleRequestLog s).1 = cs_ret_code_t.ERR_SUCCESS ∧
      ack (handleRequestLog s).2.input = CS_MICROAPP_SDK_ACK_SUCCESS ∧
      (handleRequestLog s).2.input.length = MICROAPP_SDK_MAX_PAYLOAD) := by
  have h5 : MICROAPP_SDK_LOG_HEADER_SIZE = 5 := rfl
  have h43 : MICROAPP_SDK_MAX_STRING_LENGTH = 43 := rfl
  have h43a : MICROAPP_SDK_MAX_ARRAY_SIZE = 43 := rfl
  have h48 : MICROAPP_SDK_MAX_PAYLOAD = 48 := rfl
  refine ⟨?_, ?_, ?_, ?_⟩
  · intro hsize
    unfold handleRequestLog
    simp only [if_pos hsize]
    rfl
  · intro hsize htype
    rw [handleRequestLog_str s hsize htype]
    refine ⟨by omega, rfl, _, rfl, rfl, ?_⟩
    apply takeWhile_length_le
    · rw [List.length_drop, setByte_length, hlen]
      omega
    · rw [List.getD_eq_getElem?_getD, List.getElem?_drop, ← List.getD_eq_getElem?_getD]
      have := getByte_setByte s.input (MICROAPP_SDK_LOG_HEADER_SIZE
        + min (getByte s.input 4) (MICROAPP_SDK_MAX_STRING_LENGTH - 1)) 0
        (MICROAPP_SDK_LOG_HEADER_SIZE
        + min (getByte s.input 4) (MICROAPP_SDK_MAX_STRING_LENGTH - 1))
      rw [if_pos ⟨rfl, by omega⟩] at this
      exact this
  · intro hsize htype
    rw [handleRequestLog_arr s hsize htype]
    dsimp only
    by_cases hge : getByte s.input 4 ≥ MICROAPP_SDK_MAX_ARRAY_SIZE
    · have hmin : min (getByte s.input 4) MICROAPP_SDK_MAX_ARRAY_SIZE
          = MICROAPP_SDK_MAX_ARRAY_SIZE := by omega
      have hget : getByte (setByte s.input 4 MICROAPP_SDK_MAX_ARRAY_SIZE) 4
          = MICROAPP_SDK_MAX_ARRAY_SIZE := by
        rw [getByte_setByte, if_pos ⟨rfl, by omega⟩]
        rfl
      have hdrop : (setByte s.input 4 MICROAPP_SDK_MAX_ARRAY_SIZE).drop
          MICROAPP_SDK_LOG_HEADER_SIZE = s.input.drop MICROAPP_SDK_LOG_HEADER_SIZE := by
        unfold setByte
        exact List.drop_set_of_lt _ _ (by decide)
      rw [if_pos hge, hget, hdrop, hmin]
      refine ⟨rfl, ?_⟩
      unfold setAck
      rw [getByte_setByte, if_neg (by omega), hget]
    · have hmin : min (getByte s.input 4) MICROAPP_SDK_MAX_ARRAY_SIZE = getByte s.input 4 := by
        omega
      rw [if_neg hge, hmin]
      refine ⟨rfl, ?_⟩
      unfold setAck
      rw [getByte_setByte, if_neg (by omega)]
  · intro hknown
    obtain ⟨input, trace, heq, hinput⟩ := handleRequestLog_known s hknown
    rw [heq]
    refine ⟨rfl, ?_, ?_⟩
    · show ack (setAck input CS_MICROAPP_SDK_ACK_SUCCESS) = CS_MICROAPP_SDK_ACK_SUCCESS
      rw [ack_setAck _ _ (by omega)]
      rfl
    · show (setAck input CS_MICROAPP_SDK_ACK_SUCCESS).length = MICROAPP_SDK_MAX_PAYLOAD
      rw [setAck_length, hinput, hlen]

theorem handleRequestLog_bounds_witness :
    (handleRequestLog
        (sampleSystem 0 (logRequest CS_MICROAPP_SDK_LOG_STR 0 200 []))).2.input
      = setAck (setByte (logRequest CS_MICROAPP_SDK_LOG_STR 0 200 [])
          (MICROAPP_SDK_LOG_HEADER_SIZE + min 200 (MICROAPP_SDK_MAX_STRING_LENGTH - 1)) 0)
        CS_MICROAPP_SDK_ACK_SUCCESS ∧
    getByte (handleRequestLog
        (sampleSystem 0 (logRequest CS_MICROAPP_SDK_LOG_ARR 0 200 []))).2.input 4
      = min 200 MICROAPP_SDK_MAX_ARRAY_SIZE ∧
    (handleRequestLog
        (sampleSystem 0 (logRequest CS_MICROAPP_SDK_LOG_ARR 0 200 []))).2.input.length
      = MICROAPP_SDK_MAX_PAYLOAD :=
  ⟨((handleRequestLog_bounds (sampleSystem 0 (logRequest CS_MICROAPP_SDK_LOG_STR 0 200 []))
      (by decide)).2.1 (by decide) (by decide)).2.1,
    ((handleRequestLog_bounds (sampleSystem 0 (logRequest CS_MICROAPP_SDK_LOG_ARR 0 200 []))
      (by decide)).2.2.1 (by decide) (by decide)).2,
    ((handleRequestLog_bounds (sampleSystem 0 (logRequest CS_MICROAPP_SDK_LOG_ARR 0 200 []))
      (by decide)).2.2.2 (by decide)).2.2⟩

end Microapp
